import Mathlib

/-!
Facility coverage analysis (missoes-rj, `src/App.jsx`)

A shallow embedding of the pure core of `App.jsx`: the haversine distance
(`calculateDistance`), the label normaliser (`norm`), the geometry extractor
(`extractBairroCoordinates`), the classification of the areas against the
facility list (`bairrosComCalculoIba`), the filter (`filteredBairros`), the
summary counts (`stats`) and the style of a boundary (`geoJsonStyle`); and of the
lookup with a substring fallback of `App copy 3.jsx` and `App copy 2.jsx`
(`geoJsonStyleBairro`).

Conventions of the embedding.

* JavaScript numbers are read over an ordered field `α` (the reals for the
  statements about the haversine formula, the rationals for evaluation), wrapped
  in `JSNum` for the two non-finite values the code can produce or receive,
  `Infinity` and `NaN`.
* Where the rounding of the arithmetic matters, the numbers are the rationals
  with every operation rounded to double precision (`roundDouble`), and the
  functions of `Math` that ECMAScript leaves to the implementation are a
  parameter (`MathFunctions`): `calculateDistanceFloat` and the classification
  `bairrosComCalculoIbaFloat` for a distance that may be `NaN`.
* A field of a record read from the CSV table may hold any JavaScript value,
  `JSVal`; a field that the record does not have reads as `undefined`.
* Strings are Lean strings; the string primitives of the platform
  (`toLowerCase`, `normalize('NFD')`, `includes`, `trim`, the class `\s`) are
  given as functions on lists of characters.
* Code that can throw returns in `Except JSError`.
-/

set_option autoImplicit false

namespace MissoesRJ

/-! ## Numbers and values -/

/-- A JavaScript number read over `α`: a finite value, `Infinity`, or `NaN`.
(`-Infinity` is produced by none of the embedded code.) -/
inductive JSNum (α : Type) where
  | num (x : α)
  | infinity
  | nan
  deriving DecidableEq, Repr

namespace JSNum

variable {α : Type} [LinearOrder α]

/-- The comparison `a < b` of JavaScript; every comparison with `NaN` is false. -/
def lt : JSNum α → JSNum α → Bool
  | num x, num y => decide (x < y)
  | num _, infinity => true
  | _, _ => false

/-- The comparison `a <= b` of JavaScript; every comparison with `NaN` is false. -/
def le : JSNum α → JSNum α → Bool
  | num x, num y => decide (x ≤ y)
  | num _, infinity => true
  | infinity, infinity => true
  | _, _ => false

/-- The comparison `a >= b` of JavaScript. -/
def ge (a b : JSNum α) : Bool := le b a

end JSNum

/-- A JavaScript value as it occurs in a field of a record. -/
inductive JSVal (α : Type) where
  | undefined
  | null
  | bool (b : Bool)
  | number (n : JSNum α)
  | string (s : String)
  deriving DecidableEq, Repr

/-- The truthiness of a value (`ToBoolean`): `undefined`, `null`, `false`, `0`,
`NaN` and the empty string are falsy, everything else is truthy. -/
def JSVal.truthy {α : Type} [Zero α] [DecidableEq α] : JSVal α → Bool
  | .undefined => false
  | .null => false
  | .bool b => b
  | .number (.num x) => decide (x ≠ 0)
  | .number .infinity => true
  | .number .nan => false
  | .string s => decide (s ≠ "")

/-! ## Strings -/

/-- The characters matched by `\s` in a regular expression and removed by
`trim`: the ECMAScript `WhiteSpace` and `LineTerminator` code points. -/
def isWhiteSpace (c : Char) : Bool :=
  let n := c.toNat
  (9 ≤ n && n ≤ 13) || n == 0x20 || n == 0xA0 || n == 0x1680 ||
  (0x2000 ≤ n && n ≤ 0x200A) || n == 0x2028 || n == 0x2029 || n == 0x202F ||
  n == 0x205F || n == 0x3000 || n == 0xFEFF

/-- The lower-case mapping of one character, as `toLowerCase` computes it on
Basic Latin and Latin-1 Supplement (U+0000..U+00FF): `A`..`Z` and
U+00C0..U+00DE except the multiplication sign U+00D7 move up by 32. The case
tables of the rest of Unicode are not part of the embedding; a character
outside U+0000..U+00FF is left as it is. -/
def toLowerChar (c : Char) : Char :=
  let n := c.toNat
  if (0x41 ≤ n && n ≤ 0x5A) || (0xC0 ≤ n && n ≤ 0xDE && n != 0xD7) then
    Char.ofNat (n + 32)
  else c

/-- The method `String.prototype.toLowerCase`, on the characters of the string. -/
def toLowerCase (s : List Char) : List Char := s.map toLowerChar

/-- The canonical decompositions of the Latin-1 Supplement letters: the code
point, its base letter and its combining mark. -/
def nfdTable : List (Nat × Nat × Nat) :=
  [ (0xC0, 0x41, 0x300), (0xC1, 0x41, 0x301), (0xC2, 0x41, 0x302), (0xC3, 0x41, 0x303),
    (0xC4, 0x41, 0x308), (0xC5, 0x41, 0x30A), (0xC7, 0x43, 0x327), (0xC8, 0x45, 0x300),
    (0xC9, 0x45, 0x301), (0xCA, 0x45, 0x302), (0xCB, 0x45, 0x308), (0xCC, 0x49, 0x300),
    (0xCD, 0x49, 0x301), (0xCE, 0x49, 0x302), (0xCF, 0x49, 0x308), (0xD1, 0x4E, 0x303),
    (0xD2, 0x4F, 0x300), (0xD3, 0x4F, 0x301), (0xD4, 0x4F, 0x302), (0xD5, 0x4F, 0x303),
    (0xD6, 0x4F, 0x308), (0xD9, 0x55, 0x300), (0xDA, 0x55, 0x301), (0xDB, 0x55, 0x302),
    (0xDC, 0x55, 0x308), (0xDD, 0x59, 0x301),
    (0xE0, 0x61, 0x300), (0xE1, 0x61, 0x301), (0xE2, 0x61, 0x302), (0xE3, 0x61, 0x303),
    (0xE4, 0x61, 0x308), (0xE5, 0x61, 0x30A), (0xE7, 0x63, 0x327), (0xE8, 0x65, 0x300),
    (0xE9, 0x65, 0x301), (0xEA, 0x65, 0x302), (0xEB, 0x65, 0x308), (0xEC, 0x69, 0x300),
    (0xED, 0x69, 0x301), (0xEE, 0x69, 0x302), (0xEF, 0x69, 0x308), (0xF1, 0x6E, 0x303),
    (0xF2, 0x6F, 0x300), (0xF3, 0x6F, 0x301), (0xF4, 0x6F, 0x302), (0xF5, 0x6F, 0x303),
    (0xF6, 0x6F, 0x308), (0xF9, 0x75, 0x300), (0xFA, 0x75, 0x301), (0xFB, 0x75, 0x302),
    (0xFC, 0x75, 0x308), (0xFD, 0x79, 0x301), (0xFF, 0x79, 0x308) ]

/-- The canonical decomposition of one character, as `normalize('NFD')`
computes it on U+0000..U+00FF. The decomposition tables of the rest of Unicode
are not part of the embedding; a character outside U+0000..U+00FF is left as it
is. -/
def nfdChar (c : Char) : List Char :=
  match nfdTable.lookup c.toNat with
  | some (base, mark) => [Char.ofNat base, Char.ofNat mark]
  | none => [c]

/-- The first step of `normalize('NFD')`: every character is replaced by its
canonical decomposition. -/
def decompose (s : List Char) : List Char := s.flatMap nfdChar

/-- The characters whose Canonical_Combining_Class is not 0, in Unicode 14.0:
the first code point of a range, its last code point, and the class of the
characters of the range. -/
def combiningClassTable : List (Nat × Nat × Nat) :=
  [ (0x300, 0x314, 230), (0x315, 0x315, 232), (0x316, 0x319, 220), (0x31A, 0x31A, 232),
    (0x31B, 0x31B, 216), (0x31C, 0x320, 220), (0x321, 0x322, 202), (0x323, 0x326, 220),
    (0x327, 0x328, 202), (0x329, 0x333, 220), (0x334, 0x338, 1), (0x339, 0x33C, 220),
    (0x33D, 0x344, 230), (0x345, 0x345, 240), (0x346, 0x346, 230), (0x347, 0x349, 220),
    (0x34A, 0x34C, 230), (0x34D, 0x34E, 220), (0x350, 0x352, 230), (0x353, 0x356, 220),
    (0x357, 0x357, 230), (0x358, 0x358, 232), (0x359, 0x35A, 220), (0x35B, 0x35B, 230),
    (0x35C, 0x35C, 233), (0x35D, 0x35E, 234), (0x35F, 0x35F, 233), (0x360, 0x361, 234),
    (0x362, 0x362, 233), (0x363, 0x36F, 230), (0x483, 0x487, 230), (0x591, 0x591, 220),
    (0x592, 0x595, 230), (0x596, 0x596, 220), (0x597, 0x599, 230), (0x59A, 0x59A, 222),
    (0x59B, 0x59B, 220), (0x59C, 0x5A1, 230), (0x5A2, 0x5A7, 220), (0x5A8, 0x5A9, 230),
    (0x5AA, 0x5AA, 220), (0x5AB, 0x5AC, 230), (0x5AD, 0x5AD, 222), (0x5AE, 0x5AE, 228),
    (0x5AF, 0x5AF, 230), (0x5B0, 0x5B0, 10), (0x5B1, 0x5B1, 11), (0x5B2, 0x5B2, 12),
    (0x5B3, 0x5B3, 13), (0x5B4, 0x5B4, 14), (0x5B5, 0x5B5, 15), (0x5B6, 0x5B6, 16),
    (0x5B7, 0x5B7, 17), (0x5B8, 0x5B8, 18), (0x5B9, 0x5BA, 19), (0x5BB, 0x5BB, 20),
    (0x5BC, 0x5BC, 21), (0x5BD, 0x5BD, 22), (0x5BF, 0x5BF, 23), (0x5C1, 0x5C1, 24),
    (0x5C2, 0x5C2, 25), (0x5C4, 0x5C4, 230), (0x5C5, 0x5C5, 220), (0x5C7, 0x5C7, 18),
    (0x610, 0x617, 230), (0x618, 0x618, 30), (0x619, 0x619, 31), (0x61A, 0x61A, 32),
    (0x64B, 0x64B, 27), (0x64C, 0x64C, 28), (0x64D, 0x64D, 29), (0x64E, 0x64E, 30),
    (0x64F, 0x64F, 31), (0x650, 0x650, 32), (0x651, 0x651, 33), (0x652, 0x652, 34),
    (0x653, 0x654, 230), (0x655, 0x656, 220), (0x657, 0x65B, 230), (0x65C, 0x65C, 220),
    (0x65D, 0x65E, 230), (0x65F, 0x65F, 220), (0x670, 0x670, 35), (0x6D6, 0x6DC, 230),
    (0x6DF, 0x6E2, 230), (0x6E3, 0x6E3, 220), (0x6E4, 0x6E4, 230), (0x6E7, 0x6E8, 230),
    (0x6EA, 0x6EA, 220), (0x6EB, 0x6EC, 230), (0x6ED, 0x6ED, 220), (0x711, 0x711, 36),
    (0x730, 0x730, 230), (0x731, 0x731, 220), (0x732, 0x733, 230), (0x734, 0x734, 220),
    (0x735, 0x736, 230), (0x737, 0x739, 220), (0x73A, 0x73A, 230), (0x73B, 0x73C, 220),
    (0x73D, 0x73D, 230), (0x73E, 0x73E, 220), (0x73F, 0x741, 230), (0x742, 0x742, 220),
    (0x743, 0x743, 230), (0x744, 0x744, 220), (0x745, 0x745, 230), (0x746, 0x746, 220),
    (0x747, 0x747, 230), (0x748, 0x748, 220), (0x749, 0x74A, 230), (0x7EB, 0x7F1, 230),
    (0x7F2, 0x7F2, 220), (0x7F3, 0x7F3, 230), (0x7FD, 0x7FD, 220), (0x816, 0x819, 230),
    (0x81B, 0x823, 230), (0x825, 0x827, 230), (0x829, 0x82D, 230), (0x859, 0x85B, 220),
    (0x898, 0x898, 230), (0x899, 0x89B, 220), (0x89C, 0x89F, 230), (0x8CA, 0x8CE, 230),
    (0x8CF, 0x8D3, 220), (0x8D4, 0x8E1, 230), (0x8E3, 0x8E3, 220), (0x8E4, 0x8E5, 230),
    (0x8E6, 0x8E6, 220), (0x8E7, 0x8E8, 230), (0x8E9, 0x8E9, 220), (0x8EA, 0x8EC, 230),
    (0x8ED, 0x8EF, 220), (0x8F0, 0x8F0, 27), (0x8F1, 0x8F1, 28), (0x8F2, 0x8F2, 29),
    (0x8F3, 0x8F5, 230), (0x8F6, 0x8F6, 220), (0x8F7, 0x8F8, 230), (0x8F9, 0x8FA, 220),
    (0x8FB, 0x8FF, 230), (0x93C, 0x93C, 7), (0x94D, 0x94D, 9), (0x951, 0x951, 230),
    (0x952, 0x952, 220), (0x953, 0x954, 230), (0x9BC, 0x9BC, 7), (0x9CD, 0x9CD, 9),
    (0x9FE, 0x9FE, 230), (0xA3C, 0xA3C, 7), (0xA4D, 0xA4D, 9), (0xABC, 0xABC, 7),
    (0xACD, 0xACD, 9), (0xB3C, 0xB3C, 7), (0xB4D, 0xB4D, 9), (0xBCD, 0xBCD, 9),
    (0xC3C, 0xC3C, 7), (0xC4D, 0xC4D, 9), (0xC55, 0xC55, 84), (0xC56, 0xC56, 91),
    (0xCBC, 0xCBC, 7), (0xCCD, 0xCCD, 9), (0xD3B, 0xD3C, 9), (0xD4D, 0xD4D, 9),
    (0xDCA, 0xDCA, 9), (0xE38, 0xE39, 103), (0xE3A, 0xE3A, 9), (0xE48, 0xE4B, 107),
    (0xEB8, 0xEB9, 118), (0xEBA, 0xEBA, 9), (0xEC8, 0xECB, 122), (0xF18, 0xF19, 220),
    (0xF35, 0xF35, 220), (0xF37, 0xF37, 220), (0xF39, 0xF39, 216), (0xF71, 0xF71, 129),
    (0xF72, 0xF72, 130), (0xF74, 0xF74, 132), (0xF7A, 0xF7D, 130), (0xF80, 0xF80, 130),
    (0xF82, 0xF83, 230), (0xF84, 0xF84, 9), (0xF86, 0xF87, 230), (0xFC6, 0xFC6, 220),
    (0x1037, 0x1037, 7), (0x1039, 0x103A, 9), (0x108D, 0x108D, 220), (0x135D, 0x135F, 230),
    (0x1714, 0x1715, 9), (0x1734, 0x1734, 9), (0x17D2, 0x17D2, 9), (0x17DD, 0x17DD, 230),
    (0x18A9, 0x18A9, 228), (0x1939, 0x1939, 222), (0x193A, 0x193A, 230), (0x193B, 0x193B, 220),
    (0x1A17, 0x1A17, 230), (0x1A18, 0x1A18, 220), (0x1A60, 0x1A60, 9), (0x1A75, 0x1A7C, 230),
    (0x1A7F, 0x1A7F, 220), (0x1AB0, 0x1AB4, 230), (0x1AB5, 0x1ABA, 220), (0x1ABB, 0x1ABC, 230),
    (0x1ABD, 0x1ABD, 220), (0x1ABF, 0x1AC0, 220), (0x1AC1, 0x1AC2, 230), (0x1AC3, 0x1AC4, 220),
    (0x1AC5, 0x1AC9, 230), (0x1ACA, 0x1ACA, 220), (0x1ACB, 0x1ACE, 230), (0x1B34, 0x1B34, 7),
    (0x1B44, 0x1B44, 9), (0x1B6B, 0x1B6B, 230), (0x1B6C, 0x1B6C, 220), (0x1B6D, 0x1B73, 230),
    (0x1BAA, 0x1BAB, 9), (0x1BE6, 0x1BE6, 7), (0x1BF2, 0x1BF3, 9), (0x1C37, 0x1C37, 7),
    (0x1CD0, 0x1CD2, 230), (0x1CD4, 0x1CD4, 1), (0x1CD5, 0x1CD9, 220), (0x1CDA, 0x1CDB, 230),
    (0x1CDC, 0x1CDF, 220), (0x1CE0, 0x1CE0, 230), (0x1CE2, 0x1CE8, 1), (0x1CED, 0x1CED, 220),
    (0x1CF4, 0x1CF4, 230), (0x1CF8, 0x1CF9, 230), (0x1DC0, 0x1DC1, 230), (0x1DC2, 0x1DC2, 220),
    (0x1DC3, 0x1DC9, 230), (0x1DCA, 0x1DCA, 220), (0x1DCB, 0x1DCC, 230), (0x1DCD, 0x1DCD, 234),
    (0x1DCE, 0x1DCE, 214), (0x1DCF, 0x1DCF, 220), (0x1DD0, 0x1DD0, 202), (0x1DD1, 0x1DF5, 230),
    (0x1DF6, 0x1DF6, 232), (0x1DF7, 0x1DF8, 228), (0x1DF9, 0x1DF9, 220), (0x1DFA, 0x1DFA, 218),
    (0x1DFB, 0x1DFB, 230), (0x1DFC, 0x1DFC, 233), (0x1DFD, 0x1DFD, 220), (0x1DFE, 0x1DFE, 230),
    (0x1DFF, 0x1DFF, 220), (0x20D0, 0x20D1, 230), (0x20D2, 0x20D3, 1), (0x20D4, 0x20D7, 230),
    (0x20D8, 0x20DA, 1), (0x20DB, 0x20DC, 230), (0x20E1, 0x20E1, 230), (0x20E5, 0x20E6, 1),
    (0x20E7, 0x20E7, 230), (0x20E8, 0x20E8, 220), (0x20E9, 0x20E9, 230), (0x20EA, 0x20EB, 1),
    (0x20EC, 0x20EF, 220), (0x20F0, 0x20F0, 230), (0x2CEF, 0x2CF1, 230), (0x2D7F, 0x2D7F, 9),
    (0x2DE0, 0x2DFF, 230), (0x302A, 0x302A, 218), (0x302B, 0x302B, 228), (0x302C, 0x302C, 232),
    (0x302D, 0x302D, 222), (0x302E, 0x302F, 224), (0x3099, 0x309A, 8), (0xA66F, 0xA66F, 230),
    (0xA674, 0xA67D, 230), (0xA69E, 0xA69F, 230), (0xA6F0, 0xA6F1, 230), (0xA806, 0xA806, 9),
    (0xA82C, 0xA82C, 9), (0xA8C4, 0xA8C4, 9), (0xA8E0, 0xA8F1, 230), (0xA92B, 0xA92D, 220),
    (0xA953, 0xA953, 9), (0xA9B3, 0xA9B3, 7), (0xA9C0, 0xA9C0, 9), (0xAAB0, 0xAAB0, 230),
    (0xAAB2, 0xAAB3, 230), (0xAAB4, 0xAAB4, 220), (0xAAB7, 0xAAB8, 230), (0xAABE, 0xAABF, 230),
    (0xAAC1, 0xAAC1, 230), (0xAAF6, 0xAAF6, 9), (0xABED, 0xABED, 9), (0xFB1E, 0xFB1E, 26),
    (0xFE20, 0xFE26, 230), (0xFE27, 0xFE2D, 220), (0xFE2E, 0xFE2F, 230), (0x101FD, 0x101FD, 220),
    (0x102E0, 0x102E0, 220), (0x10376, 0x1037A, 230), (0x10A0D, 0x10A0D, 220),
    (0x10A0F, 0x10A0F, 230), (0x10A38, 0x10A38, 230), (0x10A39, 0x10A39, 1),
    (0x10A3A, 0x10A3A, 220), (0x10A3F, 0x10A3F, 9), (0x10AE5, 0x10AE5, 230),
    (0x10AE6, 0x10AE6, 220), (0x10D24, 0x10D27, 230), (0x10EAB, 0x10EAC, 230),
    (0x10F46, 0x10F47, 220), (0x10F48, 0x10F4A, 230), (0x10F4B, 0x10F4B, 220),
    (0x10F4C, 0x10F4C, 230), (0x10F4D, 0x10F50, 220), (0x10F82, 0x10F82, 230),
    (0x10F83, 0x10F83, 220), (0x10F84, 0x10F84, 230), (0x10F85, 0x10F85, 220),
    (0x11046, 0x11046, 9), (0x11070, 0x11070, 9), (0x1107F, 0x1107F, 9), (0x110B9, 0x110B9, 9),
    (0x110BA, 0x110BA, 7), (0x11100, 0x11102, 230), (0x11133, 0x11134, 9), (0x11173, 0x11173, 7),
    (0x111C0, 0x111C0, 9), (0x111CA, 0x111CA, 7), (0x11235, 0x11235, 9), (0x11236, 0x11236, 7),
    (0x112E9, 0x112E9, 7), (0x112EA, 0x112EA, 9), (0x1133B, 0x1133C, 7), (0x1134D, 0x1134D, 9),
    (0x11366, 0x1136C, 230), (0x11370, 0x11374, 230), (0x11442, 0x11442, 9),
    (0x11446, 0x11446, 7), (0x1145E, 0x1145E, 230), (0x114C2, 0x114C2, 9), (0x114C3, 0x114C3, 7),
    (0x115BF, 0x115BF, 9), (0x115C0, 0x115C0, 7), (0x1163F, 0x1163F, 9), (0x116B6, 0x116B6, 9),
    (0x116B7, 0x116B7, 7), (0x1172B, 0x1172B, 9), (0x11839, 0x11839, 9), (0x1183A, 0x1183A, 7),
    (0x1193D, 0x1193E, 9), (0x11943, 0x11943, 7), (0x119E0, 0x119E0, 9), (0x11A34, 0x11A34, 9),
    (0x11A47, 0x11A47, 9), (0x11A99, 0x11A99, 9), (0x11C3F, 0x11C3F, 9), (0x11D42, 0x11D42, 7),
    (0x11D44, 0x11D45, 9), (0x11D97, 0x11D97, 9), (0x16AF0, 0x16AF4, 1), (0x16B30, 0x16B36, 230),
    (0x16FF0, 0x16FF1, 6), (0x1BC9E, 0x1BC9E, 1), (0x1D165, 0x1D166, 216), (0x1D167, 0x1D169, 1),
    (0x1D16D, 0x1D16D, 226), (0x1D16E, 0x1D172, 216), (0x1D17B, 0x1D182, 220),
    (0x1D185, 0x1D189, 230), (0x1D18A, 0x1D18B, 220), (0x1D1AA, 0x1D1AD, 230),
    (0x1D242, 0x1D244, 230), (0x1E000, 0x1E006, 230), (0x1E008, 0x1E018, 230),
    (0x1E01B, 0x1E021, 230), (0x1E023, 0x1E024, 230), (0x1E026, 0x1E02A, 230),
    (0x1E130, 0x1E136, 230), (0x1E2AE, 0x1E2AE, 230), (0x1E2EC, 0x1E2EF, 230),
    (0x1E8D0, 0x1E8D6, 220), (0x1E944, 0x1E949, 230), (0x1E94A, 0x1E94A, 7) ]

/-- The Canonical_Combining_Class of a character; no character below U+0300
has one other than 0. -/
def combiningClass (c : Char) : Nat :=
  if c.toNat < 0x300 then 0
  else
    match combiningClassTable.find? (fun e => e.1 ≤ c.toNat && c.toNat ≤ e.2.1) with
    | some e => e.2.2
    | none => 0

/-- One pass of the canonical ordering: the character `c` in front of an
ordered string moves behind the characters that follow it with a class that is
not 0 and lower than its own. -/
def reorderInsert (c : Char) : List Char → List Char
  | [] => [c]
  | d :: ds =>
    if combiningClass d ≠ 0 ∧ combiningClass d < combiningClass c then d :: reorderInsert c ds
    else c :: d :: ds

/-- The second step of `normalize('NFD')`, the canonical ordering: every run of
characters with a class other than 0 is sorted by class, stably. -/
def canonicalOrder : List Char → List Char
  | [] => []
  | c :: cs => reorderInsert c (canonicalOrder cs)

/-- The method `normalize('NFD')`, on the characters of the string:
decomposition, then canonical ordering. -/
def normalizeNFD (s : List Char) : List Char := canonicalOrder (decompose s)

/-- The combining diacritical marks, the class `[\u0300-\u036f]`. -/
def isCombiningMark (c : Char) : Bool := 0x300 ≤ c.toNat && c.toNat ≤ 0x36F

/-- The call `replace(/[\u0300-\u036f]/g, '')`. -/
def stripMarks (s : List Char) : List Char := s.filter (fun c => !isCombiningMark c)

/-- The characters on which `toLowerChar` and `nfdChar` are what `toLowerCase`
and `normalize('NFD')` do, up to characters that `norm` deletes or replaces by a
space: Basic Latin and Latin-1 Supplement, the combining marks
U+0300..U+036F, and the white space. -/
def inLatinRange (c : Char) : Bool :=
  decide (c.toNat < 0x100) || isCombiningMark c || isWhiteSpace c

/-- The call `replace(/\s+/g, ' ')`, scanning left to right; the flag says that
the character before the current one was white space. -/
def collapseFrom : Bool → List Char → List Char
  | _, [] => []
  | prevWs, c :: cs =>
    if isWhiteSpace c then
      if prevWs then collapseFrom true cs else ' ' :: collapseFrom true cs
    else c :: collapseFrom false cs

/-- The call `replace(/\s+/g, ' ')`. -/
def collapseWhiteSpace (s : List Char) : List Char := collapseFrom false s

/-- The method `trim`. -/
def trim (s : List Char) : List Char :=
  ((s.dropWhile isWhiteSpace).reverse.dropWhile isWhiteSpace).reverse

/-- The method `includes`: `includes s q` is `s.includes(q)`, that `q` occurs in
`s` as a contiguous run of characters. -/
def includes : List Char → List Char → Bool
  | [], q => q.isEmpty
  | c :: cs, q => q.isPrefixOf (c :: cs) || includes cs q

/-- The function `norm` of `App.jsx`: a missing or empty label gives the empty
string; otherwise lower-case, decompose, delete the combining marks, collapse
each run of white space to one space, trim. -/
def norm (str : Option String) : String :=
  match str with
  | none => ""
  | some s =>
    if s = "" then ""
    else String.mk (trim (collapseWhiteSpace (stripMarks (normalizeNFD (toLowerCase s.data)))))

/-! ## The haversine distance -/

/-- The function `Math.atan2(y, x)` over the reals: the angle in `(-π, π]` of the
point `(x, y)`, and `0` at the origin. -/
noncomputable def atan2 (y x : ℝ) : ℝ :=
  if 0 < x then Real.arctan (y / x)
  else if x < 0 then
    if 0 ≤ y then Real.arctan (y / x) + Real.pi else Real.arctan (y / x) - Real.pi
  else if 0 < y then Real.pi / 2
  else if y < 0 then -(Real.pi / 2)
  else 0

/-- The function `deg2rad` of `App.jsx`. -/
noncomputable def deg2rad (deg : ℝ) : ℝ := deg * (Real.pi / 180)

/-- The function `calculateDistance` of `App.jsx`, read over the reals, without
rounding (`Math.sqrt` is `Real.sqrt`, which agrees with it on the nonnegative
reals); `calculateDistanceFloat` is the function in double precision. -/
noncomputable def calculateDistance (lat1 lon1 lat2 lon2 : ℝ) : ℝ :=
  let R : ℝ := 6371
  let dLat := deg2rad (lat2 - lat1)
  let dLon := deg2rad (lon2 - lon1)
  let a :=
    Real.sin (dLat / 2) * Real.sin (dLat / 2) +
    Real.cos (deg2rad lat1) * Real.cos (deg2rad lat2) *
    Real.sin (dLon / 2) * Real.sin (dLon / 2)
  let c := 2 * atan2 (Real.sqrt a) (Real.sqrt (1 - a))
  let distance := R * c
  distance

/-- The haversine formula as the specification words it: degrees to radians is
`x * π / 180`, `a = sin²(Δlat/2) + cos(lat1)·cos(lat2)·sin²(Δlon/2)`,
`c = 2·atan2(√a, √(1−a))` and `d = 6371·c`, written `6371 * 2 * atan2(…)`. -/
noncomputable def haversineSpec (lat1 lon1 lat2 lon2 : ℝ) : ℝ :=
  let toRad : ℝ → ℝ := fun x => x * Real.pi / 180
  let a := Real.sin (toRad (lat2 - lat1) / 2) ^ 2 +
    Real.cos (toRad lat1) * Real.cos (toRad lat2) * Real.sin (toRad (lon2 - lon1) / 2) ^ 2
  6371 * 2 * atan2 (Real.sqrt a) (Real.sqrt (1 - a))

/-! ## Records -/

/-- A facility (`iba`) after loading: the rows without `Name`, `Latitude` or
`Longitude` are dropped by the loader, and the coordinates are read as finite
numbers. -/
structure Iba (α : Type) where
  Name : String
  Latitude : α
  Longitude : α
  deriving DecidableEq, Repr

/-- An entry of `bairroCoordinates`, the representative point of one boundary
feature; `nome` is `none` when the feature has no name, and the two components
of the vertex are read as finite numbers. -/
structure BairroCoord (α : Type) where
  nome : Option String
  lng : α
  lat : α
  deriving DecidableEq, Repr

/-- An area record (`bairro`): the columns of the table that the code reads, and
the four derived fields, each holding whatever the record has under that key
(`undefined` when it has none; the table is parsed with `header: true`, so a
column of that name in the CSV file arrives as a string). -/
structure BairroRec (α : Type) where
  Bairro : String
  RA : Option String
  Populacao : JSNum α
  Possui_IBA : JSVal α
  Distancia_Min_IBA_km : JSVal α
  IBA_Mais_Proxima : JSVal α
  Dentro_raio_IBA : JSVal α
  deriving DecidableEq, Repr

/-! ## Classification -/

section Classify

variable {α : Type} [LinearOrderedField α]

/-- One turn of the `ibas.forEach` loop of `bairrosComCalculoIba` on the pair
`(minDistance, nearestIba)`, for a distance function `dist` that returns a
number at every pair of points (`nearestStepFloat` is the turn for one that may
return `NaN`). -/
def nearestStep (dist : α → α → α → α → α) (coord : BairroCoord α)
    (st : JSNum α × JSVal α) (iba : Iba α) : JSNum α × JSVal α :=
  let distance := JSNum.num (dist coord.lat coord.lng iba.Latitude iba.Longitude)
  if JSNum.lt distance st.1 then (distance, JSVal.string iba.Name) else st

/-- The `ibas.forEach` loop of `bairrosComCalculoIba`, from
`minDistance = Infinity` and `nearestIba = null`. -/
def nearestLoop (dist : α → α → α → α → α) (coord : BairroCoord α)
    (ibas : List (Iba α)) : JSNum α × JSVal α :=
  ibas.foldl (nearestStep dist coord) (JSNum.infinity, JSVal.null)

/-- The callback of `bairros.map` in `bairrosComCalculoIba`, for the distance
function `dist`. -/
def classifyBairro (dist : α → α → α → α → α) (ibas : List (Iba α))
    (bairroCoordinates : List (BairroCoord α)) (circleRadius : α)
    (bairro : BairroRec α) : BairroRec α :=
  match bairroCoordinates.find? (fun c => norm c.nome == norm (some bairro.Bairro)) with
  | none =>
    { bairro with
      Possui_IBA := JSVal.bool false
      Distancia_Min_IBA_km := JSVal.null
      IBA_Mais_Proxima := JSVal.null }
  | some coord =>
    let st := nearestLoop dist coord ibas
    let minDistance := st.1
    let nearestIba := st.2
    let dentroDoRaio := JSNum.le minDistance (JSNum.num circleRadius)
    let possuiIba := JSNum.lt minDistance (JSNum.num 1)
    { bairro with
      Possui_IBA := JSVal.bool possuiIba
      Distancia_Min_IBA_km := JSVal.number minDistance
      IBA_Mais_Proxima := nearestIba
      Dentro_raio_IBA := JSVal.bool dentroDoRaio }

/-- The body of `bairrosComCalculoIba` for the distance function `dist`. -/
def bairrosComCalculoIbaWith (dist : α → α → α → α → α) (ibas : List (Iba α))
    (bairros : List (BairroRec α)) (bairroCoordinates : List (BairroCoord α))
    (circleRadius : α) : List (BairroRec α) :=
  if ibas.length = 0 ∨ bairros.length = 0 then bairros
  else bairros.map (classifyBairro dist ibas bairroCoordinates circleRadius)

end Classify

/-- The memoised value `bairrosComCalculoIba` of `App.jsx`, as a function of its
dependencies `ibas`, `bairros`, `bairroCoordinates` and `circleRadius`. -/
noncomputable def bairrosComCalculoIba (ibas : List (Iba ℝ)) (bairros : List (BairroRec ℝ))
    (bairroCoordinates : List (BairroCoord ℝ)) (circleRadius : ℝ) : List (BairroRec ℝ) :=
  bairrosComCalculoIbaWith calculateDistance ibas bairros bairroCoordinates circleRadius

/-! ## Filter and statistics -/

section Query

variable {α : Type} [LinearOrderedField α]

/-- The value `matchesFilter` in the callback of `filteredBairros`, as a
boolean: the lower-cased name includes the lower-cased query, or the record has
a non-empty `RA` whose lower-cased value includes it. -/
def matchesFilter (filterText : String) (bairro : BairroRec α) : Bool :=
  includes (toLowerCase bairro.Bairro.data) (toLowerCase filterText.data) ||
  (match bairro.RA with
   | none => false
   | some ra => ra != "" && includes (toLowerCase ra.data) (toLowerCase filterText.data))

/-- The value `matchesPopulation` in the callback of `filteredBairros`. -/
def matchesPopulation (populationFilter : α) (bairro : BairroRec α) : Bool :=
  JSNum.ge bairro.Populacao (JSNum.num populationFilter)

/-- The memoised value `filteredBairros` of `App.jsx`, as a function of the
classified collection and of the four filter settings. -/
def filteredBairros (classified : List (BairroRec α)) (filterText : String)
    (showOnlyWithoutIba showOnlyOutsideRadius : Bool) (populationFilter : α) :
    List (BairroRec α) :=
  classified.filter fun bairro =>
    if showOnlyWithoutIba && bairro.Possui_IBA.truthy then false
    else if showOnlyOutsideRadius && bairro.Dentro_raio_IBA.truthy then false
    else matchesFilter filterText bairro && matchesPopulation populationFilter bairro

/-- The memoised value `bairrosComPopulacaoAlta` of `App.jsx`. -/
def bairrosComPopulacaoAlta (classified : List (BairroRec α)) (populationFilter : α) :
    List (BairroRec α) :=
  classified.filter fun bairro => JSNum.ge bairro.Populacao (JSNum.num populationFilter)

/-- The record returned by `stats`. -/
structure Stats where
  totalBairros : Nat
  bairrosSemIba : Nat
  bairrosForaDoRaio : Nat
  bairrosComPopulacao : Nat
  deriving DecidableEq, Repr

/-- The memoised value `stats` of `App.jsx`, as a function of the classified
collection and the population floor. -/
def stats (classified : List (BairroRec α)) (populationFilter : α) : Stats :=
  let totalBairros := classified.length
  let bairrosSemIba := (classified.filter fun b => !b.Possui_IBA.truthy).length
  let bairrosForaDoRaio := (classified.filter fun b => !b.Dentro_raio_IBA.truthy).length
  let bairrosComPopulacao := (bairrosComPopulacaoAlta classified populationFilter).length
  { totalBairros, bairrosSemIba, bairrosForaDoRaio, bairrosComPopulacao }

end Query

/-! ## The geometry extractor -/

/-- A value of the parsed GeoJSON document, at the places where
`extractBairroCoordinates` reads it: a missing entry (`undefined`), `null`, a
boolean, a number, a string or an array. -/
inductive JsonVal (α : Type) where
  | undefined
  | null
  | bool (b : Bool)
  | num (x : α)
  | str (s : String)
  | arr (xs : List (JsonVal α))

/-- The failures of the embedded code: reading a property of `undefined` or of
`null` throws a `TypeError`. -/
inductive JSError where
  | typeError
  deriving DecidableEq, Repr

/-- The truthiness of a value of the document; an array is truthy, the empty
array too. -/
def JsonVal.truthy {α : Type} [Zero α] [DecidableEq α] : JsonVal α → Bool
  | .undefined => false
  | .null => false
  | .bool b => b
  | .num x => decide (x ≠ 0)
  | .str s => decide (s ≠ "")
  | .arr _ => true

/-- The indexing `v[i]`: it throws on `undefined` and on `null`, gives the entry
of an array or the character of a string when there is one, and `undefined`
otherwise. -/
def JsonVal.index {α : Type} (v : JsonVal α) (i : Nat) : Except JSError (JsonVal α) :=
  match v with
  | .undefined => Except.error JSError.typeError
  | .null => Except.error JSError.typeError
  | .bool _ => Except.ok JsonVal.undefined
  | .num _ => Except.ok JsonVal.undefined
  | .str s =>
    match s.data[i]? with
    | some c => Except.ok (JsonVal.str (String.mk [c]))
    | none => Except.ok JsonVal.undefined
  | .arr xs =>
    match xs[i]? with
    | some x => Except.ok x
    | none => Except.ok JsonVal.undefined

/-- The member `geometry` of a boundary feature: its `type` and its
`coordinates` (`undefined` when the member is missing). -/
structure Geometry (α : Type) where
  type : Option String
  coordinates : JsonVal α

/-- A boundary feature: its `geometry` (`none` when it is missing or `null`), and
the name under each of the two property paths, `properties?.nome` and
`attributes?.nome` (`none` when the path leads to nothing). -/
structure Feature (α : Type) where
  geometry : Option (Geometry α)
  properties_nome : Option String
  attributes_nome : Option String

/-- The operator `a || b` on two optional strings: `a` when it is a non-empty
string, `b` otherwise. -/
def orElseName (a b : Option String) : Option String :=
  match a with
  | some s => if s ≠ "" then some s else b
  | none => b

/-- The function `getFeatName` of `App.jsx`:
`feature.attributes?.nome || feature.properties?.nome`. -/
def getFeatName {α : Type} (feature : Feature α) : Option String :=
  orElseName feature.attributes_nome feature.properties_nome

/-- The record pushed by `extractBairroCoordinates`: the name and the first two
entries of the vertex, whatever they are. -/
structure RawCoord (α : Type) where
  nome : Option String
  lng : JsonVal α
  lat : JsonVal α

section Extract

variable {α : Type} [Zero α] [DecidableEq α]

/-- The callback of `geoData.features.forEach` in `extractBairroCoordinates`:
the record it pushes, `none` when it pushes nothing, an error when it throws. -/
def extractFeature (feature : Feature α) : Except JSError (Option (RawCoord α)) :=
  match feature.geometry with
  | none => Except.ok none
  | some geometry =>
    if geometry.coordinates.truthy then do
      let nome := orElseName feature.properties_nome feature.attributes_nome
      let coord ←
        if geometry.type = some "Polygon" then do
          let ring ← geometry.coordinates.index 0
          ring.index 0
        else if geometry.type = some "MultiPolygon" then do
          let polygon ← geometry.coordinates.index 0
          let ring ← polygon.index 0
          ring.index 0
        else Except.ok JsonVal.null
      if coord.truthy then do
        let lng ← coord.index 0
        let lat ← coord.index 1
        Except.ok (some { nome := nome, lng := lng, lat := lat })
      else Except.ok none
    else Except.ok none

/-- The loop of `extractBairroCoordinates` over the features that are left, with
the array `coordinates` built so far. -/
def extractFrom : List (Feature α) → List (RawCoord α) → Except JSError (List (RawCoord α))
  | [], coordinates => Except.ok coordinates
  | feature :: rest, coordinates =>
    match extractFeature feature with
    | Except.error e => Except.error e
    | Except.ok none => extractFrom rest coordinates
    | Except.ok (some point) => extractFrom rest (coordinates ++ [point])

/-- The function `extractBairroCoordinates` of `App.jsx` on `geoData.features`:
the array it hands to `setBairroCoordinates`, or the error it throws. -/
def extractBairroCoordinates (features : List (Feature α)) :
    Except JSError (List (RawCoord α)) :=
  extractFrom features []

end Extract

/-- The representative vertex as the specification words it: the first vertex
of the first ring of a `Polygon`, the first vertex of the first ring of the
first polygon of a `MultiPolygon`. -/
def representativeVertex {α : Type} (geometry : Geometry α) : Option (JsonVal α) :=
  if geometry.type = some "Polygon" then
    match geometry.coordinates with
    | .arr (.arr (v :: _) :: _) => some v
    | _ => none
  else if geometry.type = some "MultiPolygon" then
    match geometry.coordinates with
    | .arr (.arr (.arr (v :: _) :: _) :: _) => some v
    | _ => none
  else none


/-- The representative point as the specification words it: for a feature whose
representative vertex is a position (an array), the name of the feature with the
first entry of the vertex as `lng` and the second as `lat`. -/
def representativePoint {α : Type} (feature : Feature α) : Option (RawCoord α) :=
  match feature.geometry with
  | none => none
  | some geometry =>
    match representativeVertex geometry with
    | some (.arr comps) =>
      some { nome := orElseName feature.properties_nome feature.attributes_nome
             lng := comps.getD 0 JsonVal.undefined
             lat := comps.getD 1 JsonVal.undefined }
    | _ => none


/-! ## The style of a boundary -/

/-- The object returned by `geoJsonStyle`. -/
structure Style where
  fillColor : String
  weight : ℚ
  opacity : ℚ
  color : String
  fillOpacity : ℚ
  dashArray : String
  deriving DecidableEq, Repr

section StyleDef

variable {α : Type} [LinearOrderedField α] [FloorRing α]

/-- The text that the template string of `geoJsonStyle` prints for
`blueIntensity = Math.floor(100 + 155 * Math.min(1, Populacao / maxPopulation))`:
the integer in decimal when the quotient is finite, and what JavaScript prints
when the division is by zero or of `Infinity`. -/
def blueIntensityText (populacao : JSNum α) (maxPopulation : α) : String :=
  match populacao with
  | JSNum.num p =>
    if maxPopulation = 0 then
      if 0 < p then "255" else if p < 0 then "-Infinity" else "NaN"
    else toString (⌊100 + 155 * min 1 (p / maxPopulation)⌋ : Int)
  | JSNum.infinity => if maxPopulation < 0 then "-Infinity" else "255"
  | JSNum.nan => "NaN"

/-- The function `geoJsonStyle` of `App.jsx`, as a function of the classified
collection, `populationFilter`, `maxPopulation` and the feature. -/
def geoJsonStyle {β : Type} (classified : List (BairroRec α))
    (populationFilter maxPopulation : α) (feature : Feature β) : Style :=
  let nome := getFeatName feature
  match classified.find? (fun b => norm (some b.Bairro) == norm nome) with
  | none =>
    { fillColor := "#e5e7eb", weight := 1, opacity := 0.7, color := "#9ca3af",
      fillOpacity := 0.5, dashArray := "3" }
  | some bairro =>
    let fillColor :=
      if JSNum.ge bairro.Populacao (JSNum.num populationFilter) then
        "rgb(59, 130, " ++ blueIntensityText bairro.Populacao maxPopulation ++ ")"
      else "#e5e7eb"
    { fillColor := fillColor, weight := 2, opacity := 1, color := "#1e40af",
      fillOpacity := 0.7, dashArray := "3" }

end StyleDef

/-- A row of the area table as `App copy 3.jsx` and `App copy 2.jsx` keep it: the
columns as the strings of the CSV file (`none` for a missing column); the rows
without `Bairro` are dropped by the loader. -/
structure CsvBairro where
  Bairro : String
  RA : Option String
  Populacao : Option String
  deriving DecidableEq, Repr

/-- The constant `bairro` of `geoJsonStyle` in `App copy 3.jsx` and
`App copy 2.jsx`: the first row whose canonical name equals the canonical name
of the feature, includes it, or is included in it. -/
def geoJsonStyleBairro (bairros : List CsvBairro) (nome : Option String) : Option CsvBairro :=
  bairros.find? fun b =>
    let normalizedBairro := norm (some b.Bairro)
    let normalizedNome := norm nome
    normalizedBairro == normalizedNome ||
      includes normalizedBairro.data normalizedNome.data ||
      includes normalizedNome.data normalizedBairro.data

/-! ## The specification side of the normaliser and of the distance -/

/-- The intermediate quantity `a` of `calculateDistance`. -/
noncomputable def haversineA (lat1 lon1 lat2 lon2 : ℝ) : ℝ :=
  let dLat := deg2rad (lat2 - lat1)
  let dLon := deg2rad (lon2 - lon1)
  Real.sin (dLat / 2) * Real.sin (dLat / 2) +
    Real.cos (deg2rad lat1) * Real.cos (deg2rad lat2) *
    Real.sin (dLon / 2) * Real.sin (dLon / 2)

/-- The relation of the specification between two labels that differ only in
letter case, in diacritics that decompose to combining marks of
U+0300..U+036F, and in the amount of leading, trailing or internal white space:
the least equivalence that relates two labels when one character is replaced by
one with the same lower case, when a character is replaced by the base letter of
its canonical decomposition, when a combining mark is dropped, when a white
space is dropped at either end, and when one of two adjacent white spaces is
dropped. -/
inductive SameLabel : List Char → List Char → Prop where
  | refl (s : List Char) : SameLabel s s
  | symm {s t : List Char} : SameLabel s t → SameLabel t s
  | trans {s t u : List Char} : SameLabel s t → SameLabel t u → SameLabel s u
  | letterCase (l r : List Char) (c d : Char) :
      toLowerChar c = toLowerChar d → SameLabel (l ++ c :: r) (l ++ d :: r)
  | diacritic (l r : List Char) (c base mark : Char) :
      nfdChar c = [base, mark] → isCombiningMark mark = true →
      SameLabel (l ++ c :: r) (l ++ base :: r)
  | combiningMark (l r : List Char) (mark : Char) :
      isCombiningMark mark = true → SameLabel (l ++ mark :: r) (l ++ r)
  | leadingSpace (w : Char) (s : List Char) :
      isWhiteSpace w = true → SameLabel (w :: s) s
  | trailingSpace (w : Char) (s : List Char) :
      isWhiteSpace w = true → SameLabel (s ++ [w]) s
  | innerSpaceLeft (l r : List Char) (w w' : Char) :
      isWhiteSpace w = true → isWhiteSpace w' = true →
      SameLabel (l ++ w :: w' :: r) (l ++ w' :: r)
  | innerSpaceRight (l r : List Char) (w w' : Char) :
      isWhiteSpace w = true → isWhiteSpace w' = true →
      SameLabel (l ++ w :: w' :: r) (l ++ w :: r)


/-! ## The classifier of `App_DeepSeek.jsx` and the state of the component -/

section ClassifyDeepSeek

variable {α : Type} [LinearOrderedField α]

/-- The callback of `bairros.map` in `bairrosComCalculoIba` of
`App_DeepSeek.jsx`, for the distance function `dist`: the one of `App.jsx` with
`Possui_IBA: minDistance < 0.5`. -/
def classifyBairroDeepSeek (dist : α → α → α → α → α) (ibas : List (Iba α))
    (bairroCoordinates : List (BairroCoord α)) (circleRadius : α)
    (bairro : BairroRec α) : BairroRec α :=
  match bairroCoordinates.find? (fun c => norm c.nome == norm (some bairro.Bairro)) with
  | none =>
    { bairro with
      Possui_IBA := JSVal.bool false
      Distancia_Min_IBA_km := JSVal.null
      IBA_Mais_Proxima := JSVal.null }
  | some coord =>
    let st := nearestLoop dist coord ibas
    let minDistance := st.1
    let nearestIba := st.2
    let dentroDoRaio := JSNum.le minDistance (JSNum.num circleRadius)
    { bairro with
      Possui_IBA := JSVal.bool (JSNum.lt minDistance (JSNum.num 0.5))
      Distancia_Min_IBA_km := JSVal.number minDistance
      IBA_Mais_Proxima := nearestIba
      Dentro_raio_IBA := JSVal.bool dentroDoRaio }

/-- The body of `bairrosComCalculoIba` of `App_DeepSeek.jsx` for the distance
function `dist`. -/
def bairrosComCalculoIbaDeepSeekWith (dist : α → α → α → α → α) (ibas : List (Iba α))
    (bairros : List (BairroRec α)) (bairroCoordinates : List (BairroCoord α))
    (circleRadius : α) : List (BairroRec α) :=
  if ibas.length = 0 ∨ bairros.length = 0 then bairros
  else bairros.map (classifyBairroDeepSeek dist ibas bairroCoordinates circleRadius)

end ClassifyDeepSeek

/-- The memoised value `bairrosComCalculoIba` of `App_DeepSeek.jsx`, whose
`calculateDistance` is the one of `App.jsx`. -/
noncomputable def bairrosComCalculoIbaDeepSeek (ibas : List (Iba ℝ))
    (bairros : List (BairroRec ℝ)) (bairroCoordinates : List (BairroCoord ℝ))
    (circleRadius : ℝ) : List (BairroRec ℝ) :=
  bairrosComCalculoIbaDeepSeekWith calculateDistance ibas bairros bairroCoordinates
    circleRadius

/-- The state of the component `App` that the derived values read: the hooks
`ibas`, `bairros`, `bairroCoordinates`, `circleRadius`, `populationFilter`,
`filterText`, `showOnlyWithoutIba` and `showOnlyOutsideRadius`. -/
structure AppState where
  ibas : List (Iba ℝ)
  bairros : List (BairroRec ℝ)
  bairroCoordinates : List (BairroCoord ℝ)
  circleRadius : ℝ
  populationFilter : ℝ
  filterText : String
  showOnlyWithoutIba : Bool
  showOnlyOutsideRadius : Bool

/-- The value of `bairrosComCalculoIba` in a state. -/
noncomputable def AppState.bairrosComCalculoIba (st : AppState) : List (BairroRec ℝ) :=
  MissoesRJ.bairrosComCalculoIba st.ibas st.bairros st.bairroCoordinates st.circleRadius

/-- The value of `filteredBairros` in a state. -/
noncomputable def AppState.filteredBairros (st : AppState) : List (BairroRec ℝ) :=
  MissoesRJ.filteredBairros st.bairrosComCalculoIba st.filterText st.showOnlyWithoutIba
    st.showOnlyOutsideRadius st.populationFilter

/-- The value of `stats` in a state. -/
noncomputable def AppState.stats (st : AppState) : Stats :=
  MissoesRJ.stats st.bairrosComCalculoIba st.populationFilter


/-! ## Reading numbers, the loader of the area table and the style of the copies -/

/-- The value of a character as a digit of the radix, when it is one. -/
def digitValue (radix : Nat) (c : Char) : Option Nat :=
  let n := c.toNat
  let v :=
    if 48 ≤ n ∧ n ≤ 57 then some (n - 48)
    else if 97 ≤ n ∧ n ≤ 122 then some (n - 87)
    else if 65 ≤ n ∧ n ≤ 90 then some (n - 55)
    else none
  match v with
  | some d => if d < radix then some d else none
  | none => none

/-- The digits of the radix at the start of a string, up to the first character
that is not one. -/
def leadingDigits (radix : Nat) : List Char → List Nat
  | [] => []
  | c :: cs =>
    match digitValue radix c with
    | some d => d :: leadingDigits radix cs
    | none => []

/-- The function `parseInt(string)` without radix, as an integer, `none` for
`NaN`: leading white space is skipped, a sign is read, then the prefix `0x` or
`0X` (which makes the radix 16), then the digits up to the first character that
is not a digit; no digit gives `NaN`. -/
def parseIntValue (s : String) : Option Int :=
  let s1 := s.data.dropWhile isWhiteSpace
  let signed : Bool × List Char :=
    match s1 with
    | '-' :: r => (true, r)
    | '+' :: r => (false, r)
    | _ => (false, s1)
  let based : Nat × List Char :=
    match signed.2 with
    | '0' :: 'x' :: r => (16, r)
    | '0' :: 'X' :: r => (16, r)
    | _ => (10, signed.2)
  let z := leadingDigits based.1 based.2
  if z = [] then none
  else
    let m : Nat := z.foldl (fun acc d => acc * based.1 + d) 0
    some (if signed.1 then -(m : Int) else (m : Int))

/-- The function `parseInt(string)` as a JavaScript number. -/
def parseInt {α : Type} [LinearOrderedField α] (s : String) : JSNum α :=
  match parseIntValue s with
  | some n => JSNum.num (n : α)
  | none => JSNum.nan

/-- A row of `bairros_para_mapa.csv` as the parser delivers it with
`header: true`: every column a string, `none` when the row has no such
column. -/
structure CsvRow where
  Bairro : Option String
  RA : Option String
  Populacao : Option String
  Possui_IBA : Option String
  Distancia_Min_IBA_km : Option String
  IBA_Mais_Proxima : Option String
  Dentro_raio_IBA : Option String
  deriving DecidableEq, Repr

/-- The hooks `minPopulation`, `maxPopulation` and `populationFilter` of the
component. -/
structure PopulationRange (α : Type) where
  minPopulation : α
  maxPopulation : α
  populationFilter : α
  deriving DecidableEq, Repr

section Loader

variable {α : Type} [LinearOrderedField α]

/-- A column of a row as a value of a record. -/
def columnValue (v : Option String) : JSVal α :=
  match v with
  | some s => JSVal.string s
  | none => JSVal.undefined

/-- The loader of the area table on one row: `none` for a row that
`results.data.filter(row => row.Bairro)` drops, and for a row that it keeps the
record with
`Populacao: bairro.Populacao && bairro.Populacao !== 'nan' ? parseInt(bairro.Populacao) : 0`. -/
def processRow (row : CsvRow) : Option (BairroRec α) :=
  match row.Bairro with
  | none => none
  | some name =>
    if name = "" then none
    else
      some
        { Bairro := name
          RA := row.RA
          Populacao :=
            match row.Populacao with
            | none => JSNum.num 0
            | some text => if text ≠ "" ∧ text ≠ "nan" then parseInt text else JSNum.num 0
          Possui_IBA := columnValue row.Possui_IBA
          Distancia_Min_IBA_km := columnValue row.Distancia_Min_IBA_km
          IBA_Mais_Proxima := columnValue row.IBA_Mais_Proxima
          Dentro_raio_IBA := columnValue row.Dentro_raio_IBA }

/-- The array `processedBairros` of the loader. -/
def processedBairros (rows : List CsvRow) : List (BairroRec α) :=
  rows.filterMap processRow

/-- The array `populations` of the loader,
`processedBairros.map(b => b.Populacao).filter(p => !isNaN(p))`; `parseInt` gives
an integer or `NaN`, so what the filter keeps are finite numbers. -/
def populations (processed : List (BairroRec α)) : List α :=
  processed.filterMap fun b =>
    match b.Populacao with
    | JSNum.num x => some x
    | _ => none

/-- The callback `complete` of the loader of the area table: the value given to
`setBairros`, and the three population hooks after it (set only when
`populations.length > 0`, to `Math.min(...populations)`,
`Math.max(...populations)` and `Math.max(...populations) / 2`). -/
def onBairrosLoaded (hooks : PopulationRange α) (rows : List CsvRow) :
    List (BairroRec α) × PopulationRange α :=
  let processed : List (BairroRec α) := processedBairros rows
  match populations processed with
  | [] => (processed, hooks)
  | p :: ps =>
    (processed,
      { minPopulation := ps.foldl min p
        maxPopulation := ps.foldl max p
        populationFilter := ps.foldl max p / 2 })

end Loader

/-- The function `getPopulationColor` of `App copy 3.jsx`. -/
def getPopulationColor (populacao : Option String) : String :=
  match populacao with
  | none => "#e5e7eb"
  | some text =>
    if text = "" ∨ text = "nan" then "#e5e7eb"
    else if JSNum.lt (JSNum.num (50000 : ℚ)) (parseInt text) then "#3b82f6"
    else "#e5e7eb"

/-- The function `geoJsonStyle` of `App copy 3.jsx`. -/
def geoJsonStyleCopy3 {β : Type} (bairros : List CsvBairro) (feature : Feature β) : Style :=
  let nome := getFeatName feature
  let bairro := geoJsonStyleBairro bairros nome
  let populacao := bairro.bind fun b => b.Populacao
  { fillColor := getPopulationColor populacao, weight := 2, opacity := 1, color := "#1e40af",
    fillOpacity := 0.7, dashArray := "3" }

/-! ## The report of the areas outside the radius -/

section Report

variable {α : Type} [LinearOrderedField α]

/-- The comparator `(a, b) => b.Populacao - a.Populacao` of the report, as the
answer to whether `sort` may leave `a` before `b`: the difference is negative,
zero, or `NaN` (which `sort` reads as zero). -/
def populacaoDescending (a b : BairroRec α) : Bool :=
  match a.Populacao, b.Populacao with
  | JSNum.num x, JSNum.num y => decide (y ≤ x)
  | JSNum.num _, JSNum.infinity => false
  | _, _ => true

/-- The arrays of the heap, each at its address. -/
abbrev ArrayStore (α : Type) := List (List (BairroRec α))

/-- The method `filter` on the array at the address `src`: it allocates the
array of the elements that pass, and returns its address. -/
def ArrayStore.filter (store : ArrayStore α) (src : Nat) (p : BairroRec α → Bool) :
    ArrayStore α × Nat :=
  (store ++ [(store.getD src []).filter p], store.length)

/-- The method `sort` with the comparator of the report on the array at the
address `addr`: it sorts that array in place, stably. When a population is
`NaN` the comparator is not a consistent one and ECMAScript leaves the order to
the implementation; the embedding then gives the order of an insertion sort
that reads a `NaN` difference as zero. -/
def ArrayStore.sort (store : ArrayStore α) (addr : Nat) : ArrayStore α :=
  store.set addr
    ((store.getD addr []).insertionSort fun a b => populacaoDescending a b = true)

/-- The expression
`bairrosComCalculoIba.filter(b => !b.Dentro_raio_IBA).sort((a, b) => b.Populacao - a.Populacao)`
of the report, with `bairrosComCalculoIba` at the address `classified`: the heap
after it and the address of its value. -/
def outsideRadiusReport (store : ArrayStore α) (classified : Nat) : ArrayStore α × Nat :=
  let filtered := ArrayStore.filter store classified fun b => !b.Dentro_raio_IBA.truthy
  (ArrayStore.sort filtered.1 filtered.2, filtered.2)

end Report


/-! ## The distance in double precision -/

/-- The integer nearest to `x`, and the even one of the two nearest when `x` is
half-way between them. -/
def roundHalfEven (x : ℚ) : ℤ :=
  let f : ℤ := ⌊x⌋
  let r : ℚ := x - f
  if r < 1 / 2 then f
  else if 1 / 2 < r then f + 1
  else if f % 2 = 0 then f else f + 1

/-- The Number (IEEE 754 binary64) that an arithmetic operation with the exact
result `x` returns, for `x` of magnitude below `2 ^ 1024`: `x` rounded to 53
significant binary digits, and to a multiple of `2 ^ (-1074)` below
`2 ^ (-1022)`, a half-way case to the even digit. The infinite values and the
sign of zero are not part of the embedding. -/
def roundDouble (x : ℚ) : ℚ :=
  if x = 0 then 0
  else
    let e : ℤ := max (Int.log 2 |x|) (-1022)
    let ulp : ℚ := (2 : ℚ) ^ (e - 52)
    roundHalfEven (x / ulp) * ulp

/-- The functions of `Math` that `calculateDistance` calls and whose values
ECMAScript leaves to the implementation (they are "implementation-approximated"),
on finite arguments. -/
structure MathFunctions where
  sin : ℚ → ℚ
  cos : ℚ → ℚ
  sqrt : ℚ → ℚ
  atan2 : ℚ → ℚ → ℚ

/-- The constant `Math.PI`, the Number `3.141592653589793`. -/
def mathPI : ℚ := 884279719003555 / 281474976710656

/-- The function `deg2rad` of `App.jsx` in double precision:
`deg * (Math.PI/180)`. -/
def deg2radFloat (deg : ℚ) : ℚ := roundDouble (deg * roundDouble (mathPI / 180))

/-- The call `Math.sqrt(x)` on a finite Number: `NaN` below zero. -/
def mathSqrt (M : MathFunctions) (x : ℚ) : JSNum ℚ :=
  if x < 0 then JSNum.nan else JSNum.num (M.sqrt x)

/-- The constant `a` of `calculateDistance` in double precision: every
operation rounds its exact result, in the order in which JavaScript evaluates
the expression. -/
def haversineAFloat (M : MathFunctions) (lat1 lon1 lat2 lon2 : ℚ) : ℚ :=
  let dLat := deg2radFloat (roundDouble (lat2 - lat1))
  let dLon := deg2radFloat (roundDouble (lon2 - lon1))
  roundDouble
    (roundDouble (M.sin (roundDouble (dLat / 2)) * M.sin (roundDouble (dLat / 2))) +
      roundDouble
        (roundDouble
            (roundDouble (M.cos (deg2radFloat lat1) * M.cos (deg2radFloat lat2)) *
              M.sin (roundDouble (dLon / 2))) *
          M.sin (roundDouble (dLon / 2))))

/-- The function `calculateDistance` of `App.jsx` in double precision, on finite
coordinates: `Math.sqrt` of a negative Number is `NaN`, and `Math.atan2`, the
product by 2 and the product by `R` of `NaN` are `NaN`. -/
def calculateDistanceFloat (M : MathFunctions) (lat1 lon1 lat2 lon2 : ℚ) : JSNum ℚ :=
  let R : ℚ := 6371
  let a := haversineAFloat M lat1 lon1 lat2 lon2
  match mathSqrt M a, mathSqrt M (roundDouble (1 - a)) with
  | JSNum.num y, JSNum.num x =>
    let c := roundDouble (2 * M.atan2 y x)
    let distance := roundDouble (R * c)
    JSNum.num distance
  | _, _ => JSNum.nan

/-- The library returns the Numbers nearest to the sine and to the cosine at
the angles that `calculateDistance` reaches from the points `(-87.5, -180)` and
`(87.5, 0)`: `sin 1.5271630954950384 = 0.9990482215818578`,
`cos 1.5271630954950384 = cos (-1.5271630954950384) = 0.04361938736533601` and
`sin 1.5707963267948966 = 1`, the values of a library that rounds correctly;
the algorithms of fdlibm, which V8 uses for `Math.sin` and `Math.cos`, and the C
library give them. -/
def RoundsToNearestAtExample (M : MathFunctions) : Prop :=
  M.sin (1719432786951357 / 1125899906842624) = 8998626396882423 / 9007199254740992 ∧
  M.cos (1719432786951357 / 1125899906842624) = 3143108106954505 / 72057594037927936 ∧
  M.cos (-(1719432786951357 / 1125899906842624)) = 3143108106954505 / 72057594037927936 ∧
  M.sin (884279719003555 / 562949953421312) = 1

section ClassifyFloat

variable {α : Type} [LinearOrderedField α]

/-- One turn of the `ibas.forEach` loop of `bairrosComCalculoIba` on the pair
`(minDistance, nearestIba)`, for a distance function that returns a JavaScript
number, `NaN` included. -/
def nearestStepFloat (dist : α → α → α → α → JSNum α) (coord : BairroCoord α)
    (st : JSNum α × JSVal α) (iba : Iba α) : JSNum α × JSVal α :=
  let distance := dist coord.lat coord.lng iba.Latitude iba.Longitude
  if JSNum.lt distance st.1 then (distance, JSVal.string iba.Name) else st

/-- The `ibas.forEach` loop of `bairrosComCalculoIba`, from
`minDistance = Infinity` and `nearestIba = null`, for a distance function that
returns a JavaScript number. -/
def nearestLoopFloat (dist : α → α → α → α → JSNum α) (coord : BairroCoord α)
    (ibas : List (Iba α)) : JSNum α × JSVal α :=
  ibas.foldl (nearestStepFloat dist coord) (JSNum.infinity, JSVal.null)

/-- The callback of `bairros.map` in `bairrosComCalculoIba`, for a distance
function that returns a JavaScript number. -/
def classifyBairroFloat (dist : α → α → α → α → JSNum α) (ibas : List (Iba α))
    (bairroCoordinates : List (BairroCoord α)) (circleRadius : α)
    (bairro : BairroRec α) : BairroRec α :=
  match bairroCoordinates.find? (fun c => norm c.nome == norm (some bairro.Bairro)) with
  | none =>
    { bairro with
      Possui_IBA := JSVal.bool false
      Distancia_Min_IBA_km := JSVal.null
      IBA_Mais_Proxima := JSVal.null }
  | some coord =>
    let st := nearestLoopFloat dist coord ibas
    let minDistance := st.1
    let nearestIba := st.2
    let dentroDoRaio := JSNum.le minDistance (JSNum.num circleRadius)
    let possuiIba := JSNum.lt minDistance (JSNum.num 1)
    { bairro with
      Possui_IBA := JSVal.bool possuiIba
      Distancia_Min_IBA_km := JSVal.number minDistance
      IBA_Mais_Proxima := nearestIba
      Dentro_raio_IBA := JSVal.bool dentroDoRaio }

/-- The body of `bairrosComCalculoIba` for a distance function that returns a
JavaScript number. -/
def bairrosComCalculoIbaFloat (dist : α → α → α → α → JSNum α) (ibas : List (Iba α))
    (bairros : List (BairroRec α)) (bairroCoordinates : List (BairroCoord α))
    (circleRadius : α) : List (BairroRec α) :=
  if ibas.length = 0 ∨ bairros.length = 0 then bairros
  else bairros.map (classifyBairroFloat dist ibas bairroCoordinates circleRadius)

end ClassifyFloat


/-! ## Sample data -/

/-- Two facilities. -/
noncomputable def sampleIbas : List (Iba ℝ) :=
  [ { Name := "IBA Tijuca", Latitude := -22.9519, Longitude := -43.2105 },
    { Name := "IBA Centro", Latitude := -22.9068, Longitude := -43.1729 } ]

/-- Two facilities at one and the same coordinate. -/
noncomputable def tiedIbas : List (Iba ℝ) :=
  [ { Name := "IBA Matriz", Latitude := -22.9068, Longitude := -43.1729 },
    { Name := "IBA Anexo", Latitude := -22.9068, Longitude := -43.1729 } ]

/-- An area as the loader delivers it when the table has none of the derived
columns. -/
noncomputable def sampleBairro : BairroRec ℝ :=
  { Bairro := "São Cristóvão", RA := some "VII", Populacao := JSNum.num 26510,
    Possui_IBA := JSVal.undefined, Distancia_Min_IBA_km := JSVal.undefined,
    IBA_Mais_Proxima := JSVal.undefined, Dentro_raio_IBA := JSVal.undefined }

/-- An area as the loader delivers it from a table that has the columns
`Possui_IBA`, `Distancia_Min_IBA_km` and `IBA_Mais_Proxima` (the table the sibling
variants of the component read with `bairro.Possui_IBA === 'True'`). -/
noncomputable def tableBairro : BairroRec ℝ :=
  { Bairro := "Centro", RA := some "II", Populacao := JSNum.num 41142,
    Possui_IBA := JSVal.string "True", Distancia_Min_IBA_km := JSVal.string "0.42",
    IBA_Mais_Proxima := JSVal.string "IBA Centro", Dentro_raio_IBA := JSVal.undefined }

/-- Two areas whose names match no representative point: one without any derived
column, one from a table that has a column `Dentro_raio_IBA`. -/
noncomputable def unmatchedBairros : List (BairroRec ℝ) :=
  [ { Bairro := "Lapa", RA := some "II", Populacao := JSNum.num 9380,
      Possui_IBA := JSVal.undefined, Distancia_Min_IBA_km := JSVal.undefined,
      IBA_Mais_Proxima := JSVal.undefined, Dentro_raio_IBA := JSVal.undefined },
    { Bairro := "Glória", RA := some "IV", Populacao := JSNum.num 8661,
      Possui_IBA := JSVal.string "True", Distancia_Min_IBA_km := JSVal.string "0.42",
      IBA_Mais_Proxima := JSVal.string "IBA Centro",
      Dentro_raio_IBA := JSVal.string "True" } ]

/-- The area `São Cristóvão` of region `VII`, over the rationals. -/
def saoCristovao : BairroRec ℚ :=
  { Bairro := "São Cristóvão", RA := some "VII", Populacao := JSNum.num 26510,
    Possui_IBA := JSVal.bool false, Distancia_Min_IBA_km := JSVal.number (JSNum.num 2),
    IBA_Mais_Proxima := JSVal.string "IBA Tijuca", Dentro_raio_IBA := JSVal.bool true }

/-- The representative point of the boundary named `SAO CRISTOVAO`. -/
noncomputable def samplePoint : BairroCoord ℝ :=
  { nome := some "SAO CRISTOVAO", lng := -43.2236, lat := -22.8992 }

/-- A `Polygon` feature whose first ring starts at the vertex `[-43.2236, -22.8992]`. -/
def polygonFeature : Feature ℚ :=
  { geometry := some
      { type := some "Polygon"
        coordinates := JsonVal.arr
          [JsonVal.arr [JsonVal.arr [JsonVal.num (-43.2236), JsonVal.num (-22.8992)],
                        JsonVal.arr [JsonVal.num (-43.2240), JsonVal.num (-22.8990)]]] }
    properties_nome := some "São Cristóvão"
    attributes_nome := none }

/-- A `MultiPolygon` feature whose first polygon starts at the vertex
`[-43.1729, -22.9068]`. -/
def multiPolygonFeature : Feature ℚ :=
  { geometry := some
      { type := some "MultiPolygon"
        coordinates := JsonVal.arr
          [JsonVal.arr
            [JsonVal.arr [JsonVal.arr [JsonVal.num (-43.1729), JsonVal.num (-22.9068)]]]] }
    properties_nome := none
    attributes_nome := some "Centro" }

/-- A feature without geometry. -/
def noGeometryFeature : Feature ℚ :=
  { geometry := none, properties_nome := some "Lapa", attributes_nome := none }

/-- A `Polygon` feature with no ring: `coordinates = []`. -/
def emptyPolygonFeature : Feature ℚ :=
  { geometry := some { type := some "Polygon", coordinates := JsonVal.arr [] }
    properties_nome := some "Glória"
    attributes_nome := none }

/-- A `MultiPolygon` feature whose only polygon has no ring: `coordinates = [[]]`. -/
def emptyMultiPolygonFeature : Feature ℚ :=
  { geometry := some
      { type := some "MultiPolygon", coordinates := JsonVal.arr [JsonVal.arr []] }
    properties_nome := some "Catete"
    attributes_nome := none }


/-- The rows `Barra da Tijuca` and `Tijuca`, in the alphabetical order of the
table. -/
def tijucaRows : List CsvBairro :=
  [ { Bairro := "Barra da Tijuca", RA := some "XXIV", Populacao := some "135924" },
    { Bairro := "Tijuca", RA := some "VIII", Populacao := some "163805" } ]

/-- The area `Tijuca` as the loader delivers it. -/
noncomputable def tijucaBairro : BairroRec ℝ :=
  { Bairro := "Tijuca", RA := some "VIII", Populacao := JSNum.num 163805,
    Possui_IBA := JSVal.undefined, Distancia_Min_IBA_km := JSVal.undefined,
    IBA_Mais_Proxima := JSVal.undefined, Dentro_raio_IBA := JSVal.undefined }

/-- The representative point of the boundary named `Barra da Tijuca`. -/
noncomputable def barraDaTijucaPoint : BairroCoord ℝ :=
  { nome := some "Barra da Tijuca", lng := -43.3653, lat := -23.0004 }

/-- A boundary feature with no name under either property path. -/
def namelessFeature : Feature ℚ :=
  { geometry := some
      { type := some "Polygon"
        coordinates := JsonVal.arr
          [JsonVal.arr [JsonVal.arr [JsonVal.num (-43.2), JsonVal.num (-22.9)]]] }
    properties_nome := none
    attributes_nome := none }


/-- The representative point of the boundary named `Tijuca`, put at the origin of
the coordinates. -/
noncomputable def originPoint : BairroCoord ℝ :=
  { nome := some "TIJUCA", lng := 0, lat := 0 }

/-- A facility 2 km to the north of `originPoint` along its meridian:
`360 / (6371 π)` degrees of latitude. -/
noncomputable def facilityAt2km : Iba ℝ :=
  { Name := "F1", Latitude := 360 / (6371 * Real.pi), Longitude := 0 }

/-- A facility 8 km to the north of `originPoint` along its meridian:
`1440 / (6371 π)` degrees of latitude. -/
noncomputable def facilityAt8km : Iba ℝ :=
  { Name := "F2", Latitude := 1440 / (6371 * Real.pi), Longitude := 0 }


/-- A state of the component with the sample data, the radius 10, the floor
20000, no search text and no toggle. -/
noncomputable def sampleState : AppState :=
  { ibas := sampleIbas, bairros := [sampleBairro], bairroCoordinates := [samplePoint],
    circleRadius := 10, populationFilter := 20000, filterText := "",
    showOnlyWithoutIba := false, showOnlyOutsideRadius := false }

/-- The state `sampleState` after typing a search text and setting both
toggles. -/
noncomputable def searchingState : AppState :=
  { sampleState with
    filterText := "tijuca", showOnlyWithoutIba := true, showOnlyOutsideRadius := true }

/-- A boundary feature that carries one name under `properties` and another
under `attributes`. -/
def twoNamesFeature : Feature ℚ :=
  { geometry := some
      { type := some "Polygon"
        coordinates := JsonVal.arr
          [JsonVal.arr [JsonVal.arr [JsonVal.num (-43.1729), JsonVal.num (-22.9068)]]] }
    properties_nome := some "Centro"
    attributes_nome := some "Lapa" }

/-- A facility 0.7 km to the north of `originPoint` along its meridian. -/
noncomputable def facilityAt700m : Iba ℝ :=
  { Name := "F0", Latitude := 126 / (6371 * Real.pi), Longitude := 0 }


/-- The hooks `minPopulation`, `maxPopulation` and `populationFilter` as
`useState(0)`, `useState(500000)` and `useState(10000)` create them. -/
def initialHooks : PopulationRange ℚ :=
  { minPopulation := 0, maxPopulation := 500000, populationFilter := 10000 }

/-- A table of one area whose population column holds the text `n/d`. -/
def unparsableRows : List CsvRow :=
  [ { Bairro := some "Centro", RA := some "II", Populacao := some "n/d", Possui_IBA := none,
      Distancia_Min_IBA_km := none, IBA_Mais_Proxima := none, Dentro_raio_IBA := none } ]

/-- A table of four rows: two populations, one `nan`, and the empty last row
that the line break at the end of a CSV file gives. -/
def sampleRows : List CsvRow :=
  [ { Bairro := some "São Cristóvão", RA := some "VII", Populacao := some "26510",
      Possui_IBA := none, Distancia_Min_IBA_km := none, IBA_Mais_Proxima := none,
      Dentro_raio_IBA := none },
    { Bairro := some "Centro", RA := some "II", Populacao := some "41142",
      Possui_IBA := none, Distancia_Min_IBA_km := none, IBA_Mais_Proxima := none,
      Dentro_raio_IBA := none },
    { Bairro := some "Gericinó", RA := some "XVII", Populacao := some "nan",
      Possui_IBA := none, Distancia_Min_IBA_km := none, IBA_Mais_Proxima := none,
      Dentro_raio_IBA := none },
    { Bairro := some "", RA := none, Populacao := none, Possui_IBA := none,
      Distancia_Min_IBA_km := none, IBA_Mais_Proxima := none, Dentro_raio_IBA := none } ]

/-- The area `Centro` of region `II`, outside the radius, over the rationals. -/
def centroOutside : BairroRec ℚ :=
  { Bairro := "Centro", RA := some "II", Populacao := JSNum.num 41142,
    Possui_IBA := JSVal.bool false, Distancia_Min_IBA_km := JSVal.number (JSNum.num 12),
    IBA_Mais_Proxima := JSVal.string "IBA Tijuca", Dentro_raio_IBA := JSVal.bool false }

/-- The area `Paquetá` of region `XXI`, outside the radius, over the rationals. -/
def paquetaOutside : BairroRec ℚ :=
  { Bairro := "Paquetá", RA := some "XXI", Populacao := JSNum.num 3361,
    Possui_IBA := JSVal.bool false, Distancia_Min_IBA_km := JSVal.number (JSNum.num 15),
    IBA_Mais_Proxima := JSVal.string "IBA Centro", Dentro_raio_IBA := JSVal.bool false }

/-- A heap of two arrays: at address 0 the classified areas `Paquetá`,
`São Cristóvão`, `Centro`, at address 1 the filtered areas `Paquetá`, `Centro`. -/
def sampleStore : ArrayStore ℚ :=
  [[paquetaOutside, saoCristovao, centroOutside], [paquetaOutside, centroOutside]]


/-- The label `a` + U+094D (virama, class 9) + U+034F (combining grapheme
joiner, class 0) + U+093C (nukta, class 7). None of the four characters has a
lower-case mapping or a decomposition, so that `toLowerChar` and `nfdChar`
leave them as `toLowerCase` and `normalize('NFD')` do. -/
def viramaNuktaLabel : String :=
  String.mk ['a', Char.ofNat 0x94D, Char.ofNat 0x34F, Char.ofNat 0x93C]

/-- The label `a` + U+094D + U+093C, which is also the canonical key of
`viramaNuktaLabel`. -/
def viramaNuktaKey : String := String.mk ['a', Char.ofNat 0x94D, Char.ofNat 0x93C]

/-- A library that returns the Numbers nearest to the sine and to the cosine at
the angles of `RoundsToNearestAtExample`; its values elsewhere are not used, and
are 0, or 1 for the cosine. -/
def exampleMath : MathFunctions :=
  { sin := fun x =>
      if x = 1719432786951357 / 1125899906842624 then 8998626396882423 / 9007199254740992
      else if x = 884279719003555 / 562949953421312 then 1
      else 0
    cos := fun x =>
      if x = 1719432786951357 / 1125899906842624 ∨ x = -(1719432786951357 / 1125899906842624)
      then 3143108106954505 / 72057594037927936
      else 1
    sqrt := fun x => if x = 1 then 1 else 0
    atan2 := fun _ _ => 0 }

/-- A facility at latitude 87.5 on the meridian of Greenwich. -/
def northFacility : Iba ℚ := { Name := "IBA Norte", Latitude := 87.5, Longitude := 0 }

/-- A second facility at the coordinate of `northFacility`. -/
def northAnnex : Iba ℚ := { Name := "IBA Norte Anexo", Latitude := 87.5, Longitude := 0 }

/-- The representative point of a boundary named `Sul`, at latitude -87.5 on
the meridian 180 West. -/
def southPoint : BairroCoord ℚ := { nome := some "Sul", lng := -180, lat := -87.5 }

/-- The area `Sul` as the loader delivers it. -/
def southBairro : BairroRec ℚ :=
  { Bairro := "Sul", RA := some "I", Populacao := JSNum.num 1000,
    Possui_IBA := JSVal.undefined, Distancia_Min_IBA_km := JSVal.undefined,
    IBA_Mais_Proxima := JSVal.undefined, Dentro_raio_IBA := JSVal.undefined }


/-- The area `Lapa` of region `II`, outside the radius, whose population text
`n/d` the loader read as `NaN`. -/
def lapaUnparsed : BairroRec ℚ :=
  { Bairro := "Lapa", RA := some "II", Populacao := JSNum.nan,
    Possui_IBA := JSVal.bool false, Distancia_Min_IBA_km := JSVal.number (JSNum.num 11),
    IBA_Mais_Proxima := JSVal.string "IBA Tijuca", Dentro_raio_IBA := JSVal.bool false }

/-- A heap of one array: the classified areas `Paquetá`, `Lapa`, `Centro`, all
outside the radius. -/
def unparsedStore : ArrayStore ℚ := [[paquetaOutside, lapaUnparsed, centroOutside]]


/-! ## The loop and the classification: lemmas -/

section ClassifyLemmas

variable {α : Type} [LinearOrderedField α]

theorem nearestLoop_snoc (dist : α → α → α → α → α) (coord : BairroCoord α)
    (l : List (Iba α)) (x : Iba α) :
    nearestLoop dist coord (l ++ [x]) = nearestStep dist coord (nearestLoop dist coord l) x := by
  simp [nearestLoop, List.foldl_append]

/-- On a non-empty facility list the loop ends on the first facility, in list
order, whose distance is least. -/
theorem nearestLoop_spec (dist : α → α → α → α → α) (coord : BairroCoord α)
    (ibas : List (Iba α)) (hne : ibas ≠ []) :
    ∃ (k : Nat) (f : Iba α), ibas[k]? = some f ∧
      nearestLoop dist coord ibas =
        (JSNum.num (dist coord.lat coord.lng f.Latitude f.Longitude), JSVal.string f.Name) ∧
      (∀ g ∈ ibas, dist coord.lat coord.lng f.Latitude f.Longitude ≤
        dist coord.lat coord.lng g.Latitude g.Longitude) ∧
      (∀ (j : Nat) (g : Iba α), j < k → ibas[j]? = some g →
        dist coord.lat coord.lng f.Latitude f.Longitude <
          dist coord.lat coord.lng g.Latitude g.Longitude) := by
  induction ibas using List.reverseRecOn with
  | nil => exact absurd rfl hne
  | append_singleton l x ih =>
    rw [nearestLoop_snoc]
    by_cases hl : l = []
    · subst hl
      refine ⟨0, x, by simp, ?_, ?_, ?_⟩
      · simp [nearestLoop, nearestStep, JSNum.lt]
      · intro g hg
        simp at hg
        subst hg
        exact le_refl _
      · intro j g hj
        omega
    · obtain ⟨k, f, hk, hres, hmin, hfirst⟩ := ih hl
      have hkl : k < l.length := by
        rcases List.getElem?_eq_some.1 hk with ⟨h, _⟩
        exact h
      rw [hres]
      by_cases hlt : dist coord.lat coord.lng x.Latitude x.Longitude <
          dist coord.lat coord.lng f.Latitude f.Longitude
      · refine ⟨l.length, x, by simp, ?_, ?_, ?_⟩
        · simp [nearestStep, JSNum.lt, hlt]
        · intro g hg
          rcases List.mem_append.1 hg with h | h
          · exact le_of_lt (lt_of_lt_of_le hlt (hmin g h))
          · simp at h
            subst h
            exact le_refl _
        · intro j g hj hg
          rw [List.getElem?_append_left hj] at hg
          exact lt_of_lt_of_le hlt (hmin g (List.getElem?_mem hg))
      · refine ⟨k, f, ?_, ?_, ?_, ?_⟩
        · rw [List.getElem?_append_left hkl]
          exact hk
        · simp [nearestStep, JSNum.lt, hlt]
        · intro g hg
          rcases List.mem_append.1 hg with h | h
          · exact hmin g h
          · simp at h
            subst h
            exact not_lt.1 hlt
        · intro j g hj hg
          rw [List.getElem?_append_left (lt_trans hj hkl)] at hg
          exact hfirst j g hj hg

/-- With a facility list that is not empty, the classified collection is the
input collection mapped through `classifyBairro`, index by index. -/
theorem bairrosComCalculoIbaWith_getElem? (dist : α → α → α → α → α) (ibas : List (Iba α))
    (bairros : List (BairroRec α)) (bairroCoordinates : List (BairroCoord α))
    (circleRadius : α) (i : Nat) (bairro : BairroRec α)
    (hne : ibas ≠ []) (hi : bairros[i]? = some bairro) :
    (bairrosComCalculoIbaWith dist ibas bairros bairroCoordinates circleRadius)[i]? =
      some (classifyBairro dist ibas bairroCoordinates circleRadius bairro) := by
  have h1 : ibas.length ≠ 0 := fun h => hne (List.length_eq_zero.1 h)
  have h2 : bairros.length ≠ 0 := by
    intro h
    rw [List.length_eq_zero.1 h] at hi
    simp at hi
  simp [bairrosComCalculoIbaWith, h1, h2, List.getElem?_map, hi]

/-- The record of an area whose canonical name matches a representative point,
against a facility list that is not empty: the four derived fields are computed
from the first facility, in list order, whose distance is least. -/
theorem classifyBairro_resolved (dist : α → α → α → α → α) (ibas : List (Iba α))
    (bairroCoordinates : List (BairroCoord α)) (circleRadius : α)
    (bairro : BairroRec α) (point : BairroCoord α) (hne : ibas ≠ [])
    (hpoint : bairroCoordinates.find? (fun c => norm c.nome == norm (some bairro.Bairro)) =
      some point) :
    ∃ (k : Nat) (f : Iba α), ibas[k]? = some f ∧
      (∀ g ∈ ibas, dist point.lat point.lng f.Latitude f.Longitude ≤
        dist point.lat point.lng g.Latitude g.Longitude) ∧
      (∀ (j : Nat) (g : Iba α), j < k → ibas[j]? = some g →
        dist point.lat point.lng f.Latitude f.Longitude <
          dist point.lat point.lng g.Latitude g.Longitude) ∧
      classifyBairro dist ibas bairroCoordinates circleRadius bairro =
        { bairro with
          Possui_IBA :=
            JSVal.bool (decide (dist point.lat point.lng f.Latitude f.Longitude < 1))
          Distancia_Min_IBA_km :=
            JSVal.number (JSNum.num (dist point.lat point.lng f.Latitude f.Longitude))
          IBA_Mais_Proxima := JSVal.string f.Name
          Dentro_raio_IBA :=
            JSVal.bool (decide (dist point.lat point.lng f.Latitude f.Longitude ≤
              circleRadius)) } := by
  obtain ⟨k, f, hk, hres, hmin, hfirst⟩ := nearestLoop_spec dist point ibas hne
  refine ⟨k, f, hk, hmin, hfirst, ?_⟩
  simp [classifyBairro, hpoint, hres, JSNum.lt, JSNum.le]

/-- The record of an area whose canonical name matches no representative point:
three derived fields are reset, every other field is the one of the input
record. -/
theorem classifyBairro_unmatched (dist : α → α → α → α → α) (ibas : List (Iba α))
    (bairroCoordinates : List (BairroCoord α)) (circleRadius : α) (bairro : BairroRec α)
    (hnone : bairroCoordinates.find? (fun c => norm c.nome == norm (some bairro.Bairro)) =
      none) :
    classifyBairro dist ibas bairroCoordinates circleRadius bairro =
      { bairro with
        Possui_IBA := JSVal.bool false
        Distancia_Min_IBA_km := JSVal.null
        IBA_Mais_Proxima := JSVal.null } := by
  simp [classifyBairro, hnone]

end ClassifyLemmas

/-! ## The proximity resolver and the coverage classifier -/

/-- With the distance read over the reals, where it is a number at every pair
of points: for an area whose canonical name matches an extracted representative
point, and a facility list that is not empty, the classified record holds in
`Distancia_Min_IBA_km` the least of the distances `calculateDistance(point.lat,
point.lng, f.Latitude, f.Longitude)` over the facilities `f`, and in
`IBA_Mais_Proxima` the `Name` of a facility at that distance. -/
theorem nearest_distance_is_minimum (ibas : List (Iba ℝ)) (bairros : List (BairroRec ℝ))
    (bairroCoordinates : List (BairroCoord ℝ)) (circleRadius : ℝ) (i : Nat)
    (bairro : BairroRec ℝ) (point : BairroCoord ℝ) (hne : ibas ≠ [])
    (hi : bairros[i]? = some bairro)
    (hpoint : bairroCoordinates.find? (fun c => norm c.nome == norm (some bairro.Bairro)) =
      some point) :
    ∃ (out : BairroRec ℝ) (d : ℝ),
      (bairrosComCalculoIba ibas bairros bairroCoordinates circleRadius)[i]? = some out ∧
      out.Distancia_Min_IBA_km = JSVal.number (JSNum.num d) ∧
      (∀ f ∈ ibas, d ≤ calculateDistance point.lat point.lng f.Latitude f.Longitude) ∧
      ∃ f ∈ ibas, out.IBA_Mais_Proxima = JSVal.string f.Name ∧
        calculateDistance point.lat point.lng f.Latitude f.Longitude = d := by
  obtain ⟨k, f, hk, hmin, _, hout⟩ :=
    classifyBairro_resolved calculateDistance ibas bairroCoordinates circleRadius bairro point
      hne hpoint
  refine ⟨_, calculateDistance point.lat point.lng f.Latitude f.Longitude,
    bairrosComCalculoIbaWith_getElem? calculateDistance ibas bairros bairroCoordinates
      circleRadius i bairro hne hi, ?_, hmin, f, List.getElem?_mem hk, ?_, rfl⟩
  · rw [hout]
  · rw [hout]

/-- The least distance over the reals, at the sample data. -/
theorem nearest_distance_is_minimum_witness :
    ∃ (out : BairroRec ℝ) (d : ℝ),
      (bairrosComCalculoIba sampleIbas [sampleBairro] [samplePoint] 10)[0]? = some out ∧
      out.Distancia_Min_IBA_km = JSVal.number (JSNum.num d) ∧
      (∀ f ∈ sampleIbas,
        d ≤ calculateDistance samplePoint.lat samplePoint.lng f.Latitude f.Longitude) ∧
      ∃ f ∈ sampleIbas, out.IBA_Mais_Proxima = JSVal.string f.Name ∧
        calculateDistance samplePoint.lat samplePoint.lng f.Latitude f.Longitude = d :=
  nearest_distance_is_minimum sampleIbas [sampleBairro] [samplePoint] 10 0 sampleBairro
    samplePoint (List.cons_ne_nil _ _) rfl rfl

/-- C2. For an area with a resolved distance `d` (its canonical name matches a
representative point and the facility list is not empty) and every coverage
radius `r`, the classified record has `Possui_IBA = (d < 1)` and
`Dentro_raio_IBA = (d <= r)`; so at distance exactly `r` the area is within the
radius, and at distance exactly 1 km it does not have a facility. -/
theorem coverage_flags_from_distance (ibas : List (Iba ℝ)) (bairros : List (BairroRec ℝ))
    (bairroCoordinates : List (BairroCoord ℝ)) (circleRadius : ℝ) (i : Nat)
    (bairro : BairroRec ℝ) (point : BairroCoord ℝ) (hne : ibas ≠ [])
    (hi : bairros[i]? = some bairro)
    (hpoint : bairroCoordinates.find? (fun c => norm c.nome == norm (some bairro.Bairro)) =
      some point) :
    ∃ (out : BairroRec ℝ) (d : ℝ),
      (bairrosComCalculoIba ibas bairros bairroCoordinates circleRadius)[i]? = some out ∧
      out.Distancia_Min_IBA_km = JSVal.number (JSNum.num d) ∧
      out.Possui_IBA = JSVal.bool (decide (d < 1)) ∧
      out.Dentro_raio_IBA = JSVal.bool (decide (d ≤ circleRadius)) ∧
      (d = circleRadius → out.Dentro_raio_IBA = JSVal.bool true) ∧
      (d = 1 → out.Possui_IBA = JSVal.bool false) := by
  obtain ⟨k, f, _, _, _, hout⟩ :=
    classifyBairro_resolved calculateDistance ibas bairroCoordinates circleRadius bairro point
      hne hpoint
  refine ⟨_, calculateDistance point.lat point.lng f.Latitude f.Longitude,
    bairrosComCalculoIbaWith_getElem? calculateDistance ibas bairros bairroCoordinates
      circleRadius i bairro hne hi, ?_, ?_, ?_, ?_, ?_⟩
  · rw [hout]
  · rw [hout]
  · rw [hout]
  · intro hd
    rw [hout]
    simp [hd]
  · intro hd
    rw [hout]
    simp [hd]

/-- C2, at the sample data. -/
theorem coverage_flags_from_distance_witness :
    ∃ (out : BairroRec ℝ) (d : ℝ),
      (bairrosComCalculoIba sampleIbas [sampleBairro] [samplePoint] 5)[0]? = some out ∧
      out.Distancia_Min_IBA_km = JSVal.number (JSNum.num d) ∧
      out.Possui_IBA = JSVal.bool (decide (d < 1)) ∧
      out.Dentro_raio_IBA = JSVal.bool (decide (d ≤ 5)) ∧
      (d = 5 → out.Dentro_raio_IBA = JSVal.bool true) ∧
      (d = 1 → out.Possui_IBA = JSVal.bool false) :=
  coverage_flags_from_distance sampleIbas [sampleBairro] [samplePoint] 5 0 sampleBairro
    samplePoint (List.cons_ne_nil _ _) rfl rfl

/-- With the distance read over the reals, where it is a number at every pair
of points: among the facilities at the least distance from the representative
point of an area, the classified record names the one that comes first in the
facility list: `IBA_Mais_Proxima` is the `Name` of the facility at an index `k`
whose distance is least, and every facility at an earlier index is strictly
farther. -/
theorem nearest_tie_goes_to_earliest (ibas : List (Iba ℝ)) (bairros : List (BairroRec ℝ))
    (bairroCoordinates : List (BairroCoord ℝ)) (circleRadius : ℝ) (i : Nat)
    (bairro : BairroRec ℝ) (point : BairroCoord ℝ) (hne : ibas ≠ [])
    (hi : bairros[i]? = some bairro)
    (hpoint : bairroCoordinates.find? (fun c => norm c.nome == norm (some bairro.Bairro)) =
      some point) :
    ∃ (out : BairroRec ℝ) (k : Nat) (f : Iba ℝ),
      (bairrosComCalculoIba ibas bairros bairroCoordinates circleRadius)[i]? = some out ∧
      ibas[k]? = some f ∧
      out.IBA_Mais_Proxima = JSVal.string f.Name ∧
      (∀ g ∈ ibas, calculateDistance point.lat point.lng f.Latitude f.Longitude ≤
        calculateDistance point.lat point.lng g.Latitude g.Longitude) ∧
      (∀ (j : Nat) (g : Iba ℝ), j < k → ibas[j]? = some g →
        calculateDistance point.lat point.lng f.Latitude f.Longitude <
          calculateDistance point.lat point.lng g.Latitude g.Longitude) := by
  obtain ⟨k, f, hk, hmin, hfirst, hout⟩ :=
    classifyBairro_resolved calculateDistance ibas bairroCoordinates circleRadius bairro point
      hne hpoint
  refine ⟨_, k, f,
    bairrosComCalculoIbaWith_getElem? calculateDistance ibas bairros bairroCoordinates
      circleRadius i bairro hne hi, hk, ?_, hmin, hfirst⟩
  rw [hout]

/-- The tie over the reals, at two facilities that share one coordinate. -/
theorem nearest_tie_goes_to_earliest_witness :
    ∃ (out : BairroRec ℝ) (k : Nat) (f : Iba ℝ),
      (bairrosComCalculoIba tiedIbas [sampleBairro] [samplePoint] 10)[0]? = some out ∧
      tiedIbas[k]? = some f ∧
      out.IBA_Mais_Proxima = JSVal.string f.Name ∧
      (∀ g ∈ tiedIbas,
        calculateDistance samplePoint.lat samplePoint.lng f.Latitude f.Longitude ≤
          calculateDistance samplePoint.lat samplePoint.lng g.Latitude g.Longitude) ∧
      (∀ (j : Nat) (g : Iba ℝ), j < k → tiedIbas[j]? = some g →
        calculateDistance samplePoint.lat samplePoint.lng f.Latitude f.Longitude <
          calculateDistance samplePoint.lat samplePoint.lng g.Latitude g.Longitude) :=
  nearest_tie_goes_to_earliest tiedIbas [sampleBairro] [samplePoint] 10 0 sampleBairro
    samplePoint (List.cons_ne_nil _ _) rfl rfl

/-! ## The haversine formula -/

/-- C4. Over the reals `calculateDistance` is the haversine formula of the
specification: `6371 * 2 * atan2(sqrt a, sqrt (1 - a))` with
`a = sin²(dLat/2) + cos(lat1r) * cos(lat2r) * sin²(dLon/2)`, the angles being the
degrees times `π / 180`. -/
theorem calculateDistance_eq_haversineSpec (lat1 lon1 lat2 lon2 : ℝ) :
    calculateDistance lat1 lon1 lat2 lon2 = haversineSpec lat1 lon1 lat2 lon2 := by
  have hrad : ∀ x : ℝ, x * (Real.pi / 180) = x * Real.pi / 180 := fun x => by ring
  have ha :
      Real.sin (deg2rad (lat2 - lat1) / 2) * Real.sin (deg2rad (lat2 - lat1) / 2) +
        Real.cos (deg2rad lat1) * Real.cos (deg2rad lat2) *
          Real.sin (deg2rad (lon2 - lon1) / 2) * Real.sin (deg2rad (lon2 - lon1) / 2) =
      Real.sin ((lat2 - lat1) * Real.pi / 180 / 2) ^ 2 +
        Real.cos (lat1 * Real.pi / 180) * Real.cos (lat2 * Real.pi / 180) *
          Real.sin ((lon2 - lon1) * Real.pi / 180 / 2) ^ 2 := by
    simp only [deg2rad, hrad]
    ring
  simp only [calculateDistance, haversineSpec, ha]
  ring

/-! ## Areas without a resolved facility -/

/-- C5, as stated, fails: with no facility loaded, an area read from a table
that has the derived columns keeps them, so its distance is not `null` and its
`Possui_IBA` is the string `"True"`. -/
theorem empty_facilities_not_reset :
    ¬ (∀ out ∈ bairrosComCalculoIba [] [tableBairro] [samplePoint] 10,
        out.Distancia_Min_IBA_km = JSVal.null ∧ out.Possui_IBA = JSVal.bool false ∧
          out.Dentro_raio_IBA = JSVal.bool false) := by
  intro h
  have h0 := (h tableBairro (by simp [bairrosComCalculoIba, bairrosComCalculoIbaWith])).1
  simp [tableBairro] at h0

/-- C5, amended. With no facility loaded, `bairrosComCalculoIba` returns the
area collection as it is: no derived field is computed or overwritten, every
record keeps the fields it came with, and the computation has a result. -/
theorem empty_facilities_returns_input (bairros : List (BairroRec ℝ))
    (bairroCoordinates : List (BairroCoord ℝ)) (circleRadius : ℝ) :
    bairrosComCalculoIba [] bairros bairroCoordinates circleRadius = bairros := by
  simp [bairrosComCalculoIba, bairrosComCalculoIbaWith]

/-- C6, the code at the failing input: for two areas whose names match no
representative point, `Possui_IBA`, `Distancia_Min_IBA_km` and `IBA_Mais_Proxima`
are reset, and `Dentro_raio_IBA` stays what the input record had: `undefined` for
the first, the string `"True"` for the second. -/
theorem unmatched_area_keeps_radius_field :
    bairrosComCalculoIba sampleIbas unmatchedBairros [samplePoint] 10 =
      [ { Bairro := "Lapa", RA := some "II", Populacao := JSNum.num 9380,
          Possui_IBA := JSVal.bool false, Distancia_Min_IBA_km := JSVal.null,
          IBA_Mais_Proxima := JSVal.null, Dentro_raio_IBA := JSVal.undefined },
        { Bairro := "Glória", RA := some "IV", Populacao := JSNum.num 8661,
          Possui_IBA := JSVal.bool false, Distancia_Min_IBA_km := JSVal.null,
          IBA_Mais_Proxima := JSVal.null, Dentro_raio_IBA := JSVal.string "True" } ] :=
  rfl

/-! ## Monotonicity in the coverage radius -/

/-- Raising the coverage radius keeps the flag `Dentro_raio_IBA` of an area when
it is `true`, and keeps it truthy when it is truthy. -/
theorem classifyBairro_radius_mono {α : Type} [LinearOrderedField α]
    (dist : α → α → α → α → α) (ibas : List (Iba α))
    (bairroCoordinates : List (BairroCoord α)) (r1 r2 : α) (h : r1 ≤ r2)
    (bairro : BairroRec α) :
    ((classifyBairro dist ibas bairroCoordinates r1 bairro).Dentro_raio_IBA = JSVal.bool true →
      (classifyBairro dist ibas bairroCoordinates r2 bairro).Dentro_raio_IBA =
        JSVal.bool true) ∧
    ((classifyBairro dist ibas bairroCoordinates r1 bairro).Dentro_raio_IBA.truthy = true →
      (classifyBairro dist ibas bairroCoordinates r2 bairro).Dentro_raio_IBA.truthy = true) := by
  unfold classifyBairro
  cases bairroCoordinates.find? (fun c => norm c.nome == norm (some bairro.Bairro)) with
  | none => exact ⟨fun h1 => h1, fun h1 => h1⟩
  | some coord =>
    cases hst : (nearestLoop dist coord ibas).1 with
    | num x =>
      simp only [hst, JSNum.le, JSVal.truthy, JSVal.bool.injEq, decide_eq_true_eq]
      exact ⟨fun hx => le_trans hx h, fun hx => le_trans hx h⟩
    | infinity => simp [hst, JSNum.le, JSVal.truthy]
    | nan => simp [hst, JSNum.le, JSVal.truthy]

/-- C7. For fixed areas, representative points and facilities and two coverage
radii `r1 < r2`, the number of classified areas whose `Dentro_raio_IBA` is `true`
at `r2` is at least the number at `r1`, and `stats.bairrosForaDoRaio` at `r2` is
at most its value at `r1`. -/
theorem within_radius_count_monotone (ibas : List (Iba ℝ)) (bairros : List (BairroRec ℝ))
    (bairroCoordinates : List (BairroCoord ℝ)) (r1 r2 populationFilter : ℝ) (h : r1 < r2) :
    (bairrosComCalculoIba ibas bairros bairroCoordinates r1).countP
        (fun b => decide (b.Dentro_raio_IBA = JSVal.bool true)) ≤
      (bairrosComCalculoIba ibas bairros bairroCoordinates r2).countP
        (fun b => decide (b.Dentro_raio_IBA = JSVal.bool true)) ∧
    (stats (bairrosComCalculoIba ibas bairros bairroCoordinates r2)
        populationFilter).bairrosForaDoRaio ≤
      (stats (bairrosComCalculoIba ibas bairros bairroCoordinates r1)
        populationFilter).bairrosForaDoRaio := by
  unfold bairrosComCalculoIba bairrosComCalculoIbaWith
  by_cases hg : ibas.length = 0 ∨ bairros.length = 0
  · simp only [hg, if_true]
    exact ⟨le_refl _, le_refl _⟩
  · simp only [hg, if_false, stats, ← List.countP_eq_length_filter, List.countP_map]
    constructor
    · apply List.countP_mono_left
      intro b _ hb
      have h1 := (classifyBairro_radius_mono calculateDistance ibas bairroCoordinates r1 r2
        (le_of_lt h) b).1
      simp only [Function.comp, decide_eq_true_eq] at hb ⊢
      exact h1 hb
    · apply List.countP_mono_left
      intro b _ hb
      have h2 := (classifyBairro_radius_mono calculateDistance ibas bairroCoordinates r1 r2
        (le_of_lt h) b).2
      simp only [Function.comp, Bool.not_eq_true'] at hb ⊢
      cases h1 : (classifyBairro calculateDistance ibas bairroCoordinates r1 b).Dentro_raio_IBA.truthy with
      | false => rfl
      | true => rw [h2 h1] at hb; exact absurd hb (by decide)

/-- C7, at the sample data and the radii 5 and 10. -/
theorem within_radius_count_monotone_witness :
    (bairrosComCalculoIba sampleIbas [sampleBairro] [samplePoint] 5).countP
        (fun b => decide (b.Dentro_raio_IBA = JSVal.bool true)) ≤
      (bairrosComCalculoIba sampleIbas [sampleBairro] [samplePoint] 10).countP
        (fun b => decide (b.Dentro_raio_IBA = JSVal.bool true)) ∧
    (stats (bairrosComCalculoIba sampleIbas [sampleBairro] [samplePoint] 10)
        20000).bairrosForaDoRaio ≤
      (stats (bairrosComCalculoIba sampleIbas [sampleBairro] [samplePoint] 5)
        20000).bairrosForaDoRaio :=
  within_radius_count_monotone sampleIbas [sampleBairro] [samplePoint] 5 10 20000
    (by norm_num)

/-! ## The filter -/

/-- The function `includes` decides that the query is a contiguous sublist of
the string. -/
theorem includes_iff (s q : List Char) : includes s q = true ↔ q <:+: s := by
  induction s with
  | nil => simp [includes, List.isEmpty_iff]
  | cons c cs ih =>
    rw [includes, Bool.or_eq_true, ih, List.infix_cons_iff, List.isPrefixOf_iff_prefix]

theorem includes_nil (s : List Char) : includes s [] = true := by
  cases s <;> simp [includes]

section QueryTheorems

variable {α : Type} [LinearOrderedField α]

/-- C8. `filteredBairros` is the subsequence, in the order of the classified
collection, of the areas that pass the text predicate `matchesFilter` (the query
occurs, letter case aside, in the name or in the region code), have `Populacao >= populationFilter`, are without facility when
`showOnlyWithoutIba` is set, and are outside the radius when
`showOnlyOutsideRadius` is set. With the empty query, the floor 50000,
`showOnlyOutsideRadius` set and `showOnlyWithoutIba` not set, it is the areas
with `Populacao >= 50000` whose `Dentro_raio_IBA` is not truthy, in the original
order. -/
theorem filteredBairros_is_conjunctive_filter (classified : List (BairroRec α))
    (filterText : String) (showOnlyWithoutIba showOnlyOutsideRadius : Bool)
    (populationFilter : α) :
    filteredBairros classified filterText showOnlyWithoutIba showOnlyOutsideRadius
        populationFilter =
      classified.filter (fun b =>
        matchesFilter filterText b &&
        JSNum.ge b.Populacao (JSNum.num populationFilter) &&
        (!showOnlyWithoutIba || !b.Possui_IBA.truthy) &&
        (!showOnlyOutsideRadius || !b.Dentro_raio_IBA.truthy)) ∧
    List.Sublist
      (filteredBairros classified filterText showOnlyWithoutIba showOnlyOutsideRadius
        populationFilter) classified ∧
    filteredBairros classified "" false true 50000 =
      classified.filter (fun b =>
        JSNum.ge b.Populacao (JSNum.num 50000) && !b.Dentro_raio_IBA.truthy) := by
  refine ⟨?_, List.filter_sublist _, ?_⟩
  · unfold filteredBairros
    apply List.filter_congr
    intro b _
    cases showOnlyWithoutIba <;> cases showOnlyOutsideRadius <;>
      cases b.Possui_IBA.truthy <;> cases b.Dentro_raio_IBA.truthy <;>
      simp [matchesPopulation]
  · unfold filteredBairros
    apply List.filter_congr
    intro b _
    have hq : matchesFilter "" b = true := by
      simp [matchesFilter, toLowerCase, includes_nil]
    cases b.Dentro_raio_IBA.truthy <;> simp [matchesPopulation, hq]

/-- C10. The four counts of `stats`: the number of classified areas, the number
whose `Possui_IBA` is not truthy, the number whose `Dentro_raio_IBA` is not
truthy, the number with `Populacao >= populationFilter`; each of the last three
is at most the first. -/
theorem stats_counts (classified : List (BairroRec α)) (populationFilter : α) :
    (stats classified populationFilter).totalBairros = classified.length ∧
    (stats classified populationFilter).bairrosSemIba =
      classified.countP (fun b => !b.Possui_IBA.truthy) ∧
    (stats classified populationFilter).bairrosForaDoRaio =
      classified.countP (fun b => !b.Dentro_raio_IBA.truthy) ∧
    (stats classified populationFilter).bairrosComPopulacao =
      classified.countP (fun b => JSNum.ge b.Populacao (JSNum.num populationFilter)) ∧
    (stats classified populationFilter).bairrosSemIba ≤
      (stats classified populationFilter).totalBairros ∧
    (stats classified populationFilter).bairrosForaDoRaio ≤
      (stats classified populationFilter).totalBairros ∧
    (stats classified populationFilter).bairrosComPopulacao ≤
      (stats classified populationFilter).totalBairros := by
  refine ⟨rfl, ?_, ?_, ?_, ?_, ?_, ?_⟩
  · simp only [stats, List.countP_eq_length_filter]
  · simp only [stats, List.countP_eq_length_filter]
  · simp only [stats, bairrosComPopulacaoAlta, List.countP_eq_length_filter]
  · exact List.length_filter_le _ _
  · exact List.length_filter_le _ _
  · exact List.length_filter_le _ _

end QueryTheorems

/-- C9, amended. The text predicate of `filteredBairros` folds case and nothing
else: an area passes it exactly when the lower-cased query is a contiguous part
of the lower-cased area name, or the record has a non-empty region code and the
lower-cased query is a contiguous part of the lower-cased region code. No
diacritic is removed: the query `sao` does not match the area `São Cristóvão`,
the queries `são` and `SÃO` do. -/
theorem text_predicate_is_case_folded_substring {β : Type} (filterText : String)
    (bairro : BairroRec β) :
    (matchesFilter filterText bairro = true ↔
      (toLowerCase filterText.data <:+: toLowerCase bairro.Bairro.data ∨
        ∃ ra, bairro.RA = some ra ∧ ra ≠ "" ∧
          toLowerCase filterText.data <:+: toLowerCase ra.data)) ∧
    matchesFilter "sao" saoCristovao = false ∧
    matchesFilter "são" saoCristovao = true ∧
    matchesFilter "SÃO" saoCristovao = true := by
  refine ⟨?_, by decide, by decide, by decide⟩
  unfold matchesFilter
  cases hra : bairro.RA with
  | none => simp [includes_iff]
  | some ra => simp [includes_iff]

/-- C9, as stated, fails: the canonical form of the query `sao` is a contiguous
part of the canonical form of the name `São Cristóvão`, and the area does not
pass the text predicate of `filteredBairros`. -/
theorem text_predicate_not_diacritic_insensitive :
    ¬ (matchesFilter "sao" saoCristovao = true ↔
        (includes (norm (some saoCristovao.Bairro)).data (norm (some "sao")).data = true ∨
          includes (norm saoCristovao.RA).data (norm (some "sao")).data = true)) := by
  decide

/-! ## The geometry extractor -/

theorem index_arr {α : Type} (xs : List (JsonVal α)) (i : Nat) :
    (JsonVal.arr xs).index i = Except.ok (xs.getD i JsonVal.undefined) := by
  simp only [JsonVal.index, List.getD_eq_getElem?_getD]
  cases xs[i]? <;> rfl

/-- A geometry has a representative vertex only in the two shapes of the
specification. -/
theorem representativeVertex_shape {α : Type} (geometry : Geometry α) (v : JsonVal α)
    (h : representativeVertex geometry = some v) :
    (geometry.type = some "Polygon" ∧
      ∃ ring rings, geometry.coordinates = JsonVal.arr (JsonVal.arr (v :: ring) :: rings)) ∨
    (geometry.type = some "MultiPolygon" ∧
      ∃ ring rings polygons, geometry.coordinates =
        JsonVal.arr (JsonVal.arr (JsonVal.arr (v :: ring) :: rings) :: polygons)) := by
  unfold representativeVertex at h
  split_ifs at h with h1 h2
  · left
    refine ⟨h1, ?_⟩
    split at h
    · next w ring rings hc =>
      simp only [Option.some.injEq] at h
      subst h
      exact ⟨ring, rings, hc⟩
    · simp at h
  · right
    refine ⟨h2, ?_⟩
    split at h
    · next w ring rings polygons hc =>
      simp only [Option.some.injEq] at h
      subst h
      exact ⟨ring, rings, polygons, hc⟩
    · simp at h

section ExtractLemmas

variable {α : Type} [Zero α] [DecidableEq α]

/-- On a feature that has a representative point the callback pushes it. -/
theorem extractFeature_of_point (feature : Feature α) (point : RawCoord α)
    (h : representativePoint feature = some point) :
    extractFeature feature = Except.ok (some point) := by
  unfold representativePoint at h
  cases hg : feature.geometry with
  | none => simp [hg] at h
  | some geometry =>
    simp only [hg] at h
    cases hv : representativeVertex geometry with
    | none => simp [hv] at h
    | some v =>
      simp only [hv] at h
      cases v with
      | arr comps =>
        simp only [Option.some.injEq] at h
        subst h
        rcases representativeVertex_shape geometry _ hv with
          ⟨ht, ring, rings, hc⟩ | ⟨ht, ring, rings, polygons, hc⟩
        · simp [extractFeature, hg, hc, ht, JsonVal.truthy, index_arr, bind, Except.bind]
        · simp [extractFeature, hg, hc, ht, JsonVal.truthy, index_arr, bind, Except.bind]
      | _ => simp at h

/-- On a feature without geometry, or whose `coordinates` are missing or falsy,
the callback pushes nothing, and the feature has no representative point. -/
theorem extractFeature_of_skipped (feature : Feature α)
    (h : feature.geometry = none ∨
      ∃ g, feature.geometry = some g ∧ g.coordinates.truthy = false) :
    extractFeature feature = Except.ok none ∧ representativePoint feature = none := by
  rcases h with hg | ⟨g, hg, hc⟩
  · simp [extractFeature, representativePoint, hg]
  · have hv : representativeVertex g = none := by
      cases hv : representativeVertex g with
      | none => rfl
      | some v =>
        rcases representativeVertex_shape g v hv with ⟨_, _, _, h1⟩ | ⟨_, _, _, _, h1⟩ <;>
          simp [h1, JsonVal.truthy] at hc
    simp [extractFeature, representativePoint, hg, hc, hv]

/-- When the callback pushes on every feature what the specification says, the
loop appends the representative points in feature order. -/
theorem extractFrom_eq (features : List (Feature α)) (coordinates : List (RawCoord α))
    (h : ∀ f ∈ features, extractFeature f = Except.ok (representativePoint f)) :
    extractFrom features coordinates =
      Except.ok (coordinates ++ features.filterMap representativePoint) := by
  induction features generalizing coordinates with
  | nil => simp [extractFrom]
  | cons f rest ih =>
    have hf := h f (List.mem_cons_self f rest)
    have hrest : ∀ g ∈ rest, extractFeature g = Except.ok (representativePoint g) :=
      fun g hg => h g (List.mem_cons_of_mem f hg)
    unfold extractFrom
    rw [hf]
    cases hp : representativePoint f with
    | none => simp [ih _ hrest, List.filterMap_cons, hp]
    | some point => simp [ih _ hrest, List.filterMap_cons, hp]

/-- C15. On a batch in which every feature either has a first vertex in its
first ring (a `Polygon` with `coordinates[0][0]`, a `MultiPolygon` with
`coordinates[0][0][0]`, the vertex being a position), or has no geometry or no
`coordinates`, `extractBairroCoordinates` returns one point for each feature of
the first kind and none for the others, in feature order; the point carries the
first entry of that vertex as `lng` and the second as `lat`. -/
theorem extract_first_vertex_in_order (features : List (Feature α))
    (h : ∀ f ∈ features, (representativePoint f).isSome = true ∨ f.geometry = none ∨
      ∃ g, f.geometry = some g ∧ g.coordinates.truthy = false) :
    extractBairroCoordinates features =
      Except.ok (features.filterMap representativePoint) := by
  have hall : ∀ f ∈ features, extractFeature f = Except.ok (representativePoint f) := by
    intro f hf
    rcases h f hf with hp | hs
    · obtain ⟨point, hpoint⟩ := Option.isSome_iff_exists.1 hp
      rw [hpoint]
      exact extractFeature_of_point f point hpoint
    · obtain ⟨h1, h2⟩ := extractFeature_of_skipped f hs
      rw [h1, h2]
  simpa [extractBairroCoordinates] using extractFrom_eq features [] hall

end ExtractLemmas

/-- C15, at a batch of a `Polygon`, a feature without geometry and a
`MultiPolygon`. -/
theorem extract_first_vertex_in_order_witness :
    extractBairroCoordinates [polygonFeature, noGeometryFeature, multiPolygonFeature] =
      Except.ok
        ([polygonFeature, noGeometryFeature, multiPolygonFeature].filterMap
          representativePoint) :=
  extract_first_vertex_in_order [polygonFeature, noGeometryFeature, multiPolygonFeature]
    (by
      intro f hf
      simp only [List.mem_cons, List.mem_singleton, List.not_mem_nil, or_false] at hf
      rcases hf with rfl | rfl | rfl
      · exact Or.inl rfl
      · exact Or.inr (Or.inl rfl)
      · exact Or.inl rfl)

/-- C16, the code at the failing inputs: a `Polygon` with `coordinates = []`, and
a `MultiPolygon` with `coordinates = [[]]`, make `extractBairroCoordinates` throw
a `TypeError`, so that the point of the well-formed feature after it is not
produced; alone, that feature gives its point. -/
theorem extract_throws_on_empty_coordinates :
    extractBairroCoordinates [emptyPolygonFeature, polygonFeature] =
      Except.error JSError.typeError ∧
    extractBairroCoordinates [emptyMultiPolygonFeature, polygonFeature] =
      Except.error JSError.typeError ∧
    extractBairroCoordinates [polygonFeature] =
      Except.ok [{ nome := some "São Cristóvão", lng := JsonVal.num (-43.2236),
                   lat := JsonVal.num (-22.8992) }] :=
  ⟨rfl, rfl, rfl⟩


/-! ## The joins between boundaries and records -/

/-- C13, the code at the failing input: with the rows `Barra da Tijuca` and
`Tijuca` in this order and the boundary named `Tijuca`, the table has a row whose
canonical name equals the canonical name of the boundary, and the lookup of
`geoJsonStyle` returns the row `Barra da Tijuca`, whose canonical name only
includes it. -/
theorem fallback_lookup_returns_first_substring_match :
    (∃ b ∈ tijucaRows, norm (some b.Bairro) = norm (some "Tijuca")) ∧
    geoJsonStyleBairro tijucaRows (some "Tijuca") =
      some { Bairro := "Barra da Tijuca", RA := some "XXIV", Populacao := some "135924" } ∧
    norm (some "Barra da Tijuca") ≠ norm (some "Tijuca") := by
  decide

/-- C14, as stated, fails: no representative point has the canonical name of the
area `Tijuca`, the canonical name of the point `Barra da Tijuca` includes it, and
the area is joined to no point: its distance is `null`. -/
theorem classification_join_has_no_fallback :
    ¬ (((∀ c ∈ [barraDaTijucaPoint], norm c.nome ≠ norm (some tijucaBairro.Bairro)) ∧
        (∃ c ∈ [barraDaTijucaPoint],
          includes (norm c.nome).data (norm (some tijucaBairro.Bairro)).data = true ∨
          includes (norm (some tijucaBairro.Bairro)).data (norm c.nome).data = true)) →
      ∃ (out : BairroRec ℝ) (d : ℝ),
        (bairrosComCalculoIba sampleIbas [tijucaBairro] [barraDaTijucaPoint] 10)[0]? =
          some out ∧
        out.Distancia_Min_IBA_km = JSVal.number (JSNum.num d)) := by
  intro h
  have hyp :
      (∀ c ∈ [barraDaTijucaPoint], norm c.nome ≠ norm (some tijucaBairro.Bairro)) ∧
      (∃ c ∈ [barraDaTijucaPoint],
        includes (norm c.nome).data (norm (some tijucaBairro.Bairro)).data = true ∨
        includes (norm (some tijucaBairro.Bairro)).data (norm c.nome).data = true) := by
    constructor
    · intro c hc
      rw [List.mem_singleton.1 hc]
      show norm (some "Barra da Tijuca") ≠ norm (some "Tijuca")
      decide
    · refine ⟨barraDaTijucaPoint, List.mem_singleton.2 rfl, Or.inl ?_⟩
      show includes (norm (some "Barra da Tijuca")).data (norm (some "Tijuca")).data = true
      decide
  obtain ⟨out, d, hout, hd⟩ := h hyp
  have heval :
      (bairrosComCalculoIba sampleIbas [tijucaBairro] [barraDaTijucaPoint] 10)[0]? =
        some { tijucaBairro with
          Possui_IBA := JSVal.bool false
          Distancia_Min_IBA_km := JSVal.null
          IBA_Mais_Proxima := JSVal.null } := rfl
  rw [heval] at hout
  cases hout
  cases hd

/-- C14, amended. The join of the classification is exact only: when no
representative point has a canonical name equal to the canonical name of the
area, the area is joined to no point, whatever the names of the points include
or are included in; its record has `Possui_IBA = false`, a `null` distance and a
`null` nearest facility. -/
theorem classification_join_is_exact_only (ibas : List (Iba ℝ)) (bairros : List (BairroRec ℝ))
    (bairroCoordinates : List (BairroCoord ℝ)) (circleRadius : ℝ) (i : Nat)
    (bairro : BairroRec ℝ) (hne : ibas ≠ []) (hi : bairros[i]? = some bairro)
    (hnone : ∀ c ∈ bairroCoordinates, norm c.nome ≠ norm (some bairro.Bairro)) :
    ∃ out : BairroRec ℝ,
      (bairrosComCalculoIba ibas bairros bairroCoordinates circleRadius)[i]? = some out ∧
      out.Possui_IBA = JSVal.bool false ∧
      out.Distancia_Min_IBA_km = JSVal.null ∧
      out.IBA_Mais_Proxima = JSVal.null := by
  have hfind : bairroCoordinates.find? (fun c => norm c.nome == norm (some bairro.Bairro)) =
      none := by
    rw [List.find?_eq_none]
    intro c hc
    simpa using hnone c hc
  refine ⟨_, bairrosComCalculoIbaWith_getElem? calculateDistance ibas bairros
    bairroCoordinates circleRadius i bairro hne hi, ?_, ?_, ?_⟩ <;>
    rw [classifyBairro_unmatched calculateDistance ibas bairroCoordinates circleRadius bairro
      hfind]

/-- C14 amended, at the area `Tijuca` and the point `Barra da Tijuca`. -/
theorem classification_join_is_exact_only_witness :
    ∃ out : BairroRec ℝ,
      (bairrosComCalculoIba sampleIbas [tijucaBairro] [barraDaTijucaPoint] 10)[0]? =
        some out ∧
      out.Possui_IBA = JSVal.bool false ∧
      out.Distancia_Min_IBA_km = JSVal.null ∧
      out.IBA_Mais_Proxima = JSVal.null :=
  classification_join_is_exact_only sampleIbas [tijucaBairro] [barraDaTijucaPoint] 10 0
    tijucaBairro (List.cons_ne_nil _ _) rfl
    (by
      intro c hc
      rw [List.mem_singleton.1 hc]
      show norm (some "Barra da Tijuca") ≠ norm (some "Tijuca")
      decide)

/-- C20. For a boundary feature whose canonical name is the canonical name of no
classified area, a feature without any name included, `geoJsonStyle` returns the
neutral style: `fillColor` `#e5e7eb`, `weight` 1, `opacity` 0.7, `color`
`#9ca3af`, `fillOpacity` 0.5 (and `dashArray` `3`). -/
theorem geoJsonStyle_unmatched_is_neutral {α β : Type} [LinearOrderedField α] [FloorRing α]
    (classified : List (BairroRec α)) (populationFilter maxPopulation : α)
    (feature : Feature β)
    (h : ∀ b ∈ classified, norm (some b.Bairro) ≠ norm (getFeatName feature)) :
    geoJsonStyle classified populationFilter maxPopulation feature =
      { fillColor := "#e5e7eb", weight := 1, opacity := 0.7, color := "#9ca3af",
        fillOpacity := 0.5, dashArray := "3" } := by
  have hfind : classified.find? (fun b => norm (some b.Bairro) == norm (getFeatName feature)) =
      none := by
    rw [List.find?_eq_none]
    intro b hb
    simpa using h b hb
  simp [geoJsonStyle, hfind]

/-- C20, at a feature without any name. -/
theorem geoJsonStyle_unmatched_is_neutral_witness :
    geoJsonStyle [saoCristovao] 10000 50000 namelessFeature =
      { fillColor := "#e5e7eb", weight := 1, opacity := 0.7, color := "#9ca3af",
        fillOpacity := 0.5, dashArray := "3" } :=
  geoJsonStyle_unmatched_is_neutral [saoCristovao] 10000 50000 namelessFeature
    (by
      intro b hb
      rw [List.mem_singleton.1 hb]
      decide)


/-! ## The range of the haversine distance -/

theorem calculateDistance_eq_atan2 (lat1 lon1 lat2 lon2 : ℝ) :
    calculateDistance lat1 lon1 lat2 lon2 =
      6371 * (2 * atan2 (Real.sqrt (haversineA lat1 lon1 lat2 lon2))
        (Real.sqrt (1 - haversineA lat1 lon1 lat2 lon2))) := rfl

theorem sin_half_mul_self (x : ℝ) :
    Real.sin (x / 2) * Real.sin (x / 2) = (1 - Real.cos x) / 2 := by
  have h1 := Real.cos_two_mul (x / 2)
  have h2 := Real.sin_sq_add_cos_sq (x / 2)
  have h3 : 2 * (x / 2) = x := by ring
  rw [h3] at h1
  nlinarith

/-- The quantity `a` is a mean of `(1 - cos (φ₂ - φ₁)) / 2` and
`(1 + cos (φ₁ + φ₂)) / 2` with the weights `1 - t` and `t`, `t = sin² (Δλ / 2)`. -/
theorem haversineA_eq_mean (lat1 lon1 lat2 lon2 : ℝ) :
    haversineA lat1 lon1 lat2 lon2 =
      (1 - Real.sin (deg2rad (lon2 - lon1) / 2) ^ 2) *
          ((1 - Real.cos (deg2rad lat2 - deg2rad lat1)) / 2) +
        Real.sin (deg2rad (lon2 - lon1) / 2) ^ 2 *
          ((1 + Real.cos (deg2rad lat1 + deg2rad lat2)) / 2) := by
  have hd : deg2rad (lat2 - lat1) = deg2rad lat2 - deg2rad lat1 := by
    simp only [deg2rad]; ring
  unfold haversineA
  simp only []
  rw [sin_half_mul_self, hd, Real.cos_sub, Real.cos_add]
  ring

theorem haversineA_mem (lat1 lon1 lat2 lon2 : ℝ) :
    0 ≤ haversineA lat1 lon1 lat2 lon2 ∧ haversineA lat1 lon1 lat2 lon2 ≤ 1 := by
  rw [haversineA_eq_mean]
  have ht0 : 0 ≤ Real.sin (deg2rad (lon2 - lon1) / 2) ^ 2 := sq_nonneg _
  have ht1 : Real.sin (deg2rad (lon2 - lon1) / 2) ^ 2 ≤ 1 := Real.sin_sq_le_one _
  have hu1 := Real.cos_le_one (deg2rad lat2 - deg2rad lat1)
  have hu0 := Real.neg_one_le_cos (deg2rad lat2 - deg2rad lat1)
  have hv1 := Real.cos_le_one (deg2rad lat1 + deg2rad lat2)
  have hv0 := Real.neg_one_le_cos (deg2rad lat1 + deg2rad lat2)
  constructor
  · have := mul_nonneg (sub_nonneg.2 ht1)
      (by linarith : (0 : ℝ) ≤ (1 - Real.cos (deg2rad lat2 - deg2rad lat1)) / 2)
    have := mul_nonneg ht0
      (by linarith : (0 : ℝ) ≤ (1 + Real.cos (deg2rad lat1 + deg2rad lat2)) / 2)
    linarith
  · have := mul_le_mul_of_nonneg_left
      (by linarith : (1 - Real.cos (deg2rad lat2 - deg2rad lat1)) / 2 ≤ 1) (sub_nonneg.2 ht1)
    have := mul_le_mul_of_nonneg_left
      (by linarith : (1 + Real.cos (deg2rad lat1 + deg2rad lat2)) / 2 ≤ 1) ht0
    linarith

theorem arctan_nonneg_of_nonneg (x : ℝ) (hx : 0 ≤ x) : 0 ≤ Real.arctan x := by
  rw [← Real.arctan_zero]
  exact Real.arctan_strictMono.monotone hx

/-- On two nonnegative arguments `atan2` is an angle of the first quadrant. -/
theorem atan2_mem_of_nonneg (y x : ℝ) (hy : 0 ≤ y) (hx : 0 ≤ x) :
    0 ≤ atan2 y x ∧ atan2 y x ≤ Real.pi / 2 := by
  have hpi := Real.pi_pos
  unfold atan2
  split_ifs with h1 h2 h3 h4
  · exact ⟨arctan_nonneg_of_nonneg _ (div_nonneg hy hx),
      le_of_lt (Real.arctan_lt_pi_div_two _)⟩
  · exact absurd h2 (not_lt.2 hx)
  · exact ⟨by linarith, le_refl _⟩
  · exact absurd h4 (not_lt.2 hy)
  · exact ⟨le_refl _, by linarith⟩

/-- Over the reals, without rounding, the intermediate quantity `a` of
`calculateDistance` lies in `[0, 1]`, so that `a` and `1 - a`, the arguments of
the two square roots, are nonnegative, and the distance is nonnegative and at
most `6371 * π`. -/
theorem calculateDistance_range (lat1 lon1 lat2 lon2 : ℝ) :
    calculateDistance lat1 lon1 lat2 lon2 =
      6371 * (2 * atan2 (Real.sqrt (haversineA lat1 lon1 lat2 lon2))
        (Real.sqrt (1 - haversineA lat1 lon1 lat2 lon2))) ∧
    0 ≤ haversineA lat1 lon1 lat2 lon2 ∧ haversineA lat1 lon1 lat2 lon2 ≤ 1 ∧
    0 ≤ 1 - haversineA lat1 lon1 lat2 lon2 ∧
    0 ≤ calculateDistance lat1 lon1 lat2 lon2 ∧
    calculateDistance lat1 lon1 lat2 lon2 ≤ 6371 * Real.pi := by
  obtain ⟨h0, h1⟩ := haversineA_mem lat1 lon1 lat2 lon2
  obtain ⟨ha, hb⟩ := atan2_mem_of_nonneg _ _
    (Real.sqrt_nonneg (haversineA lat1 lon1 lat2 lon2))
    (Real.sqrt_nonneg (1 - haversineA lat1 lon1 lat2 lon2))
  refine ⟨rfl, h0, h1, sub_nonneg.2 h1, ?_, ?_⟩
  · rw [calculateDistance_eq_atan2]
    exact mul_nonneg (by norm_num) (mul_nonneg (by norm_num) ha)
  · rw [calculateDistance_eq_atan2]
    nlinarith


/-! ## The end-to-end scenario -/

/-- Along a meridian, northwards by less than half a turn, the distance is the
radius times the difference of latitude in radians. -/
theorem calculateDistance_meridian (lat1 lat2 lon : ℝ)
    (h0 : 0 ≤ deg2rad (lat2 - lat1)) (h1 : deg2rad (lat2 - lat1) < Real.pi) :
    calculateDistance lat1 lon lat2 lon = 6371 * deg2rad (lat2 - lat1) := by
  have hθ0 : 0 ≤ deg2rad (lat2 - lat1) / 2 := by linarith
  have hθ1 : deg2rad (lat2 - lat1) / 2 < Real.pi / 2 := by linarith
  have hsin : 0 ≤ Real.sin (deg2rad (lat2 - lat1) / 2) :=
    Real.sin_nonneg_of_nonneg_of_le_pi hθ0 (by linarith [Real.pi_pos])
  have hcos : 0 < Real.cos (deg2rad (lat2 - lat1) / 2) :=
    Real.cos_pos_of_mem_Ioo ⟨by linarith [Real.pi_pos], hθ1⟩
  have ha : haversineA lat1 lon lat2 lon =
      Real.sin (deg2rad (lat2 - lat1) / 2) * Real.sin (deg2rad (lat2 - lat1) / 2) := by
    simp [haversineA, deg2rad]
  have h1a : 1 - haversineA lat1 lon lat2 lon =
      Real.cos (deg2rad (lat2 - lat1) / 2) * Real.cos (deg2rad (lat2 - lat1) / 2) := by
    rw [ha]
    have := Real.sin_sq_add_cos_sq (deg2rad (lat2 - lat1) / 2)
    nlinarith
  rw [calculateDistance_eq_atan2, h1a, ha, Real.sqrt_mul_self hsin,
    Real.sqrt_mul_self (le_of_lt hcos)]
  have hat : atan2 (Real.sin (deg2rad (lat2 - lat1) / 2))
      (Real.cos (deg2rad (lat2 - lat1) / 2)) = deg2rad (lat2 - lat1) / 2 := by
    unfold atan2
    rw [if_pos hcos, ← Real.tan_eq_sin_div_cos,
      Real.arctan_tan (by linarith [Real.pi_pos]) hθ1]
  rw [hat]
  ring

/-- The distance from `originPoint` to a facility `k / 6371 · 360 / (2π)` degrees
to the north is `k` kilometres, for `0 ≤ k < 6371 π`. -/
theorem calculateDistance_north (k : ℝ) (hk0 : 0 ≤ k) (hk1 : k < 6371 * Real.pi) :
    calculateDistance 0 0 (180 * k / (6371 * Real.pi)) 0 = k := by
  have hpi := Real.pi_pos
  have hd : deg2rad (180 * k / (6371 * Real.pi) - 0) = k / 6371 := by
    simp only [deg2rad]
    field_simp
    ring
  rw [calculateDistance_meridian 0 _ 0 (by rw [hd]; positivity)
    (by rw [hd, div_lt_iff₀ (by norm_num)]; linarith), hd]
  field_simp

/-- C19. For one area whose representative point is at 2 km from the facility
`F1` and at 8 km from the facility `F2`, in either order of the facility list,
and the coverage radius 5, the classified record has `IBA_Mais_Proxima` the name
of `F1`, `Distancia_Min_IBA_km = 2`, `Dentro_raio_IBA = true` and
`Possui_IBA = false`. -/
theorem end_to_end_scenario (bairro : BairroRec ℝ) (point : BairroCoord ℝ) (f1 f2 : Iba ℝ)
    (bairroCoordinates : List (BairroCoord ℝ))
    (hpoint : bairroCoordinates.find? (fun c => norm c.nome == norm (some bairro.Bairro)) =
      some point)
    (h1 : calculateDistance point.lat point.lng f1.Latitude f1.Longitude = 2)
    (h2 : calculateDistance point.lat point.lng f2.Latitude f2.Longitude = 8) :
    bairrosComCalculoIba [f1, f2] [bairro] bairroCoordinates 5 =
      [ { bairro with
          Possui_IBA := JSVal.bool false
          Distancia_Min_IBA_km := JSVal.number (JSNum.num 2)
          IBA_Mais_Proxima := JSVal.string f1.Name
          Dentro_raio_IBA := JSVal.bool true } ] ∧
    bairrosComCalculoIba [f2, f1] [bairro] bairroCoordinates 5 =
      [ { bairro with
          Possui_IBA := JSVal.bool false
          Distancia_Min_IBA_km := JSVal.number (JSNum.num 2)
          IBA_Mais_Proxima := JSVal.string f1.Name
          Dentro_raio_IBA := JSVal.bool true } ] := by
  constructor
  · simp [bairrosComCalculoIba, bairrosComCalculoIbaWith, classifyBairro, hpoint, nearestLoop,
      nearestStep, h1, h2, JSNum.lt, JSNum.le]
    norm_num
  · simp [bairrosComCalculoIba, bairrosComCalculoIbaWith, classifyBairro, hpoint, nearestLoop,
      nearestStep, h1, h2, JSNum.lt, JSNum.le]
    norm_num

/-- C19, at the area `Tijuca` with its point at the origin and the two
facilities 2 km and 8 km to the north of it. -/
theorem end_to_end_scenario_witness :
    bairrosComCalculoIba [facilityAt2km, facilityAt8km] [tijucaBairro] [originPoint] 5 =
      [ { tijucaBairro with
          Possui_IBA := JSVal.bool false
          Distancia_Min_IBA_km := JSVal.number (JSNum.num 2)
          IBA_Mais_Proxima := JSVal.string facilityAt2km.Name
          Dentro_raio_IBA := JSVal.bool true } ] ∧
    bairrosComCalculoIba [facilityAt8km, facilityAt2km] [tijucaBairro] [originPoint] 5 =
      [ { tijucaBairro with
          Possui_IBA := JSVal.bool false
          Distancia_Min_IBA_km := JSVal.number (JSNum.num 2)
          IBA_Mais_Proxima := JSVal.string facilityAt2km.Name
          Dentro_raio_IBA := JSVal.bool true } ] :=
  end_to_end_scenario tijucaBairro originPoint facilityAt2km facilityAt8km [originPoint] rfl
    (by
      have h := calculateDistance_north 2 (by norm_num)
        (by nlinarith [Real.pi_gt_three])
      have e : (180 * 2 / (6371 * Real.pi) : ℝ) = 360 / (6371 * Real.pi) := by norm_num
      rw [e] at h
      exact h)
    (by
      have h := calculateDistance_north 8 (by norm_num)
        (by nlinarith [Real.pi_gt_three])
      have e : (180 * 8 / (6371 * Real.pi) : ℝ) = 1440 / (6371 * Real.pi) := by norm_num
      rw [e] at h
      exact h)


/-! ## The distance of the specification's example -/

/-- Between `12742 · L` and `12742 · U`: the distance, when `L² ≤ a` and
`a ≤ U² (1 - a)` for the intermediate quantity `a < 1`. -/
theorem calculateDistance_between (lat1 lon1 lat2 lon2 L U : ℝ) (hL : 0 ≤ L) (hU : 0 ≤ U)
    (ha1 : haversineA lat1 lon1 lat2 lon2 < 1)
    (hlo : L ^ 2 ≤ haversineA lat1 lon1 lat2 lon2)
    (hhi : haversineA lat1 lon1 lat2 lon2 ≤ U ^ 2 * (1 - haversineA lat1 lon1 lat2 lon2)) :
    12742 * L ≤ calculateDistance lat1 lon1 lat2 lon2 ∧
      calculateDistance lat1 lon1 lat2 lon2 ≤ 12742 * U := by
  rw [calculateDistance_eq_atan2]
  generalize haversineA lat1 lon1 lat2 lon2 = a at ha1 hlo hhi
  have ha0 : 0 ≤ a := le_trans (sq_nonneg L) hlo
  have hq : 0 < Real.sqrt (1 - a) := Real.sqrt_pos.2 (by linarith)
  have hr : 0 ≤ Real.sqrt a := Real.sqrt_nonneg a
  have hr2 : Real.sqrt a ^ 2 = a := Real.sq_sqrt ha0
  have hq2 : Real.sqrt (1 - a) ^ 2 = 1 - a := Real.sq_sqrt (by linarith)
  have hat : atan2 (Real.sqrt a) (Real.sqrt (1 - a)) =
      Real.arctan (Real.sqrt a / Real.sqrt (1 - a)) := by
    unfold atan2
    rw [if_pos hq]
  have hθ0 : 0 ≤ Real.arctan (Real.sqrt a / Real.sqrt (1 - a)) :=
    arctan_nonneg_of_nonneg _ (div_nonneg hr (le_of_lt hq))
  have hθ1 := Real.arctan_lt_pi_div_two (Real.sqrt a / Real.sqrt (1 - a))
  have hsin : Real.sin (Real.arctan (Real.sqrt a / Real.sqrt (1 - a))) = Real.sqrt a := by
    rw [Real.sin_arctan]
    have h1 : 1 + (Real.sqrt a / Real.sqrt (1 - a)) ^ 2 = (1 / Real.sqrt (1 - a)) ^ 2 := by
      field_simp
      nlinarith
    rw [h1, Real.sqrt_sq (by positivity)]
    field_simp
  have hLr : L ≤ Real.sqrt a := by
    have := Real.sqrt_le_sqrt hlo
    rwa [Real.sqrt_sq hL] at this
  have hrU : Real.sqrt a / Real.sqrt (1 - a) ≤ U := by
    rw [div_le_iff₀ hq]
    have := Real.sqrt_le_sqrt hhi
    rwa [Real.sqrt_mul (sq_nonneg U), Real.sqrt_sq hU] at this
  have hlow : Real.sqrt a ≤ Real.arctan (Real.sqrt a / Real.sqrt (1 - a)) := by
    have := Real.sin_le hθ0
    rwa [hsin] at this
  have hupp : Real.arctan (Real.sqrt a / Real.sqrt (1 - a)) ≤
      Real.sqrt a / Real.sqrt (1 - a) := by
    have := Real.le_tan hθ0 hθ1
    rwa [Real.tan_arctan] at this
  rw [hat]
  constructor <;> linarith

/-- Bounds of the sine of a small positive angle. -/
theorem sin_mul_self_bounds (x lo hi s : ℝ) (hlo : lo ≤ x) (hhi : x ≤ hi) (h0 : 0 < lo)
    (h1 : hi ≤ 1) (hs0 : 0 ≤ s) (hs : s ≤ lo - hi ^ 3 / 4) :
    s * s ≤ Real.sin x * Real.sin x ∧ Real.sin x * Real.sin x ≤ hi * hi := by
  have hx0 : 0 < x := lt_of_lt_of_le h0 hlo
  have hup : Real.sin x ≤ hi := le_trans (Real.sin_le (le_of_lt hx0)) hhi
  have hcube : x ^ 3 ≤ hi ^ 3 := pow_le_pow_left₀ (le_of_lt hx0) hhi 3
  have hdn : s ≤ Real.sin x := by
    have := Real.sin_gt_sub_cube hx0 (le_trans hhi h1)
    linarith
  exact ⟨mul_self_le_mul_self hs0 hdn, mul_self_le_mul_self (le_trans hs0 hdn) hup⟩

/-- Bounds of the cosine of an angle of at most one radian. -/
theorem cos_bounds (x ylo yhi : ℝ) (h0 : 0 ≤ x) (hx1 : x ≤ 1) (hlo : ylo ≤ x ^ 2)
    (hhi : x ^ 2 ≤ yhi) :
    1 - yhi / 2 ≤ Real.cos x ∧ Real.cos x ≤ 1 - ylo / 2 + yhi ^ 2 * (5 / 96) := by
  have habs : |x| = x := abs_of_nonneg h0
  have hb := Real.cos_bound (x := x) (by rw [habs]; exact hx1)
  rw [habs] at hb
  have h4 : x ^ 4 ≤ yhi ^ 2 := by
    have : x ^ 4 = (x ^ 2) ^ 2 := by ring
    rw [this]
    exact pow_le_pow_left₀ (sq_nonneg x) hhi 2
  have hl := Real.one_sub_sq_div_two_le_cos (x := x)
  have hu := (abs_le.1 hb).2
  constructor <;> linarith

/-- Bounds of the intermediate quantity `a` at the pair of points of the
specification. -/
theorem haversineA_example_bounds :
    (4953 / 10 ^ 7 : ℝ) ^ 2 ≤ haversineA (-22.9519) (-43.2105) (-22.9068) (-43.1729) ∧
    haversineA (-22.9519) (-43.2105) (-22.9068) (-43.1729) ≤
      (49675 / 10 ^ 8 : ℝ) ^ 2 *
        (1 - haversineA (-22.9519) (-43.2105) (-22.9068) (-43.1729)) := by
  have hpl := Real.pi_gt_d4
  have hpu := Real.pi_lt_d4
  have e1 : deg2rad (-22.9068 - -22.9519) / 2 = 0.0451 * Real.pi / 360 := by
    unfold deg2rad; ring
  have e2 : deg2rad (-43.1729 - -43.2105) / 2 = 0.0376 * Real.pi / 360 := by
    unfold deg2rad; ring
  have e3 : Real.cos (deg2rad (-22.9519)) = Real.cos (22.9519 * Real.pi / 180) := by
    rw [← Real.cos_neg]; congr 1; unfold deg2rad; ring
  have e4 : Real.cos (deg2rad (-22.9068)) = Real.cos (22.9068 * Real.pi / 180) := by
    rw [← Real.cos_neg]; congr 1; unfold deg2rad; ring
  obtain ⟨s1l, s1u⟩ := sin_mul_self_bounds (0.0451 * Real.pi / 360) (39356 / 10 ^ 8)
    (39358 / 10 ^ 8) (39355 / 10 ^ 8) (by linarith) (by linarith) (by norm_num) (by norm_num)
    (by norm_num) (by norm_num)
  obtain ⟨s2l, s2u⟩ := sin_mul_self_bounds (0.0376 * Real.pi / 360) (32811 / 10 ^ 8)
    (32813 / 10 ^ 8) (32810 / 10 ^ 8) (by linarith) (by linarith) (by norm_num) (by norm_num)
    (by norm_num) (by norm_num)
  obtain ⟨c1l, c1u⟩ := cos_bounds (22.9519 * Real.pi / 180) (16045 / 10 ^ 5) (16048 / 10 ^ 5)
    (by positivity) (by linarith) (by nlinarith) (by nlinarith)
  obtain ⟨c2l, c2u⟩ := cos_bounds (22.9068 * Real.pi / 180) (15982 / 10 ^ 5) (15985 / 10 ^ 5)
    (by positivity) (by linarith) (by nlinarith) (by nlinarith)
  have ha : haversineA (-22.9519) (-43.2105) (-22.9068) (-43.1729) =
      Real.sin (0.0451 * Real.pi / 360) * Real.sin (0.0451 * Real.pi / 360) +
        Real.cos (22.9519 * Real.pi / 180) * Real.cos (22.9068 * Real.pi / 180) *
          (Real.sin (0.0376 * Real.pi / 360) * Real.sin (0.0376 * Real.pi / 360)) := by
    unfold haversineA
    simp only []
    rw [e1, e2, e3, e4]
    ring
  rw [ha]
  generalize Real.sin (0.0451 * Real.pi / 360) * Real.sin (0.0451 * Real.pi / 360) = S1
    at s1l s1u
  generalize Real.sin (0.0376 * Real.pi / 360) * Real.sin (0.0376 * Real.pi / 360) = S2
    at s2l s2u
  generalize Real.cos (22.9519 * Real.pi / 180) = C1 at c1l c1u
  generalize Real.cos (22.9068 * Real.pi / 180) = C2 at c2l c2u
  have hC1l : (9197 / 10 ^ 4 : ℝ) ≤ C1 := le_trans (by norm_num) c1l
  have hC1u : C1 ≤ (9212 / 10 ^ 4 : ℝ) := le_trans c1u (by norm_num)
  have hC2l : (9200 / 10 ^ 4 : ℝ) ≤ C2 := le_trans (by norm_num) c2l
  have hC2u : C2 ≤ (9215 / 10 ^ 4 : ℝ) := le_trans c2u (by norm_num)
  have hS2 : (0 : ℝ) ≤ S2 := le_trans (by norm_num) s2l
  have hCl : (9197 / 10 ^ 4 : ℝ) * (9200 / 10 ^ 4) ≤ C1 * C2 :=
    mul_le_mul hC1l hC2l (by norm_num) (le_trans (by norm_num) hC1l)
  have hCu : C1 * C2 ≤ (9212 / 10 ^ 4 : ℝ) * (9215 / 10 ^ 4) :=
    mul_le_mul hC1u hC2u (le_trans (by norm_num) hC2l) (by norm_num)
  have hPl : (9197 / 10 ^ 4 : ℝ) * (9200 / 10 ^ 4) * (32810 / 10 ^ 8 * (32810 / 10 ^ 8)) ≤
      C1 * C2 * S2 :=
    mul_le_mul hCl s2l (by norm_num) (le_trans (by norm_num) hCl)
  have hPu : C1 * C2 * S2 ≤
      (9212 / 10 ^ 4 : ℝ) * (9215 / 10 ^ 4) * (32813 / 10 ^ 8 * (32813 / 10 ^ 8)) :=
    mul_le_mul hCu s2u hS2 (by norm_num)
  constructor
  · have : (4953 / 10 ^ 7 : ℝ) ^ 2 ≤ 39355 / 10 ^ 8 * (39355 / 10 ^ 8) +
        9197 / 10 ^ 4 * (9200 / 10 ^ 4) * (32810 / 10 ^ 8 * (32810 / 10 ^ 8)) := by norm_num
    linarith
  · have hAu : S1 + C1 * C2 * S2 ≤ 39358 / 10 ^ 8 * (39358 / 10 ^ 8) +
        9212 / 10 ^ 4 * (9215 / 10 ^ 4) * (32813 / 10 ^ 8 * (32813 / 10 ^ 8)) := by linarith
    have hnum : (39358 / 10 ^ 8 * (39358 / 10 ^ 8) +
        9212 / 10 ^ 4 * (9215 / 10 ^ 4) * (32813 / 10 ^ 8 * (32813 / 10 ^ 8)) : ℝ) *
          (1 + (49675 / 10 ^ 8) ^ 2) ≤ (49675 / 10 ^ 8) ^ 2 := by norm_num
    have hmul := mul_le_mul_of_nonneg_right hAu
      (by norm_num : (0 : ℝ) ≤ 1 + (49675 / 10 ^ 8) ^ 2)
    generalize S1 + C1 * C2 * S2 = A at hAu hmul ⊢
    linarith

/-- C17, as stated, fails: over the reals the distance between
`(-22.9519, -43.2105)` and `(-22.9068, -43.1729)` is not in `[6.74, 6.76]`. -/
theorem example_distance_not_near_6_75 :
    ¬ (6.74 ≤ calculateDistance (-22.9519) (-43.2105) (-22.9068) (-43.1729) ∧
        calculateDistance (-22.9519) (-43.2105) (-22.9068) (-43.1729) ≤ 6.76) := by
  obtain ⟨hlo, hhi⟩ := haversineA_example_bounds
  have ha1 : haversineA (-22.9519) (-43.2105) (-22.9068) (-43.1729) < 1 := by
    by_contra hc
    push_neg at hc
    linarith
  obtain ⟨_, hu⟩ := calculateDistance_between (-22.9519) (-43.2105) (-22.9068) (-43.1729)
    (4953 / 10 ^ 7) (49675 / 10 ^ 8) (by norm_num) (by norm_num) ha1 hlo hhi
  rintro ⟨h674, _⟩
  have : (12742 : ℝ) * (49675 / 10 ^ 8) < 6.74 := by norm_num
  linarith

/-- C17, amended. Over the reals the distance between `(-22.9519, -43.2105)` and
`(-22.9068, -43.1729)` lies within 0.01 of 6.32 km, in the interval
`[6.31, 6.33]`. -/
theorem example_distance_near_6_32 :
    6.31 ≤ calculateDistance (-22.9519) (-43.2105) (-22.9068) (-43.1729) ∧
      calculateDistance (-22.9519) (-43.2105) (-22.9068) (-43.1729) ≤ 6.33 := by
  obtain ⟨hlo, hhi⟩ := haversineA_example_bounds
  have ha1 : haversineA (-22.9519) (-43.2105) (-22.9068) (-43.1729) < 1 := by
    by_contra hc
    push_neg at hc
    linarith
  obtain ⟨hl, hu⟩ := calculateDistance_between (-22.9519) (-43.2105) (-22.9068) (-43.1729)
    (4953 / 10 ^ 7) (49675 / 10 ^ 8) (by norm_num) (by norm_num) ha1 hlo hhi
  have h1 : (6.31 : ℝ) ≤ 12742 * (4953 / 10 ^ 7) := by norm_num
  have h2 : (12742 : ℝ) * (49675 / 10 ^ 8) ≤ 6.33 := by norm_num
  exact ⟨le_trans h1 hl, le_trans hu h2⟩

/-! ## The normaliser -/

/-- The characters of `norm (some s)` are the characters of `s` put through the
five steps, for the empty string too. -/
theorem norm_some_data (s : String) :
    (norm (some s)).data =
      trim (collapseWhiteSpace (stripMarks (normalizeNFD (toLowerCase s.data)))) := by
  by_cases h : s = ""
  · subst h
    rfl
  · simp [norm, h]

theorem trim_contiguous (l : List Char) : trim l <:+: l := by
  unfold trim
  have h1 : (l.dropWhile isWhiteSpace).reverse.dropWhile isWhiteSpace <:+
      (l.dropWhile isWhiteSpace).reverse := List.dropWhile_suffix _
  have h2 : ((l.dropWhile isWhiteSpace).reverse.dropWhile isWhiteSpace).reverse <+:
      l.dropWhile isWhiteSpace := by
    have := List.reverse_prefix.2 h1
    rwa [List.reverse_reverse] at this
  exact (h2.isInfix).trans (List.dropWhile_suffix _).isInfix

theorem trim_getLast? (l : List Char) (c : Char) (h : (trim l).getLast? = some c) :
    isWhiteSpace c = false := by
  unfold trim at h
  rw [List.getLast?_reverse] at h
  have := List.head?_dropWhile_not isWhiteSpace (l.dropWhile isWhiteSpace).reverse
  rw [h] at this
  exact this

theorem trim_head? (l : List Char) (c : Char) (h : (trim l).head? = some c) :
    isWhiteSpace c = false := by
  have h1 : ((l.dropWhile isWhiteSpace).reverse.dropWhile isWhiteSpace).reverse <+:
      l.dropWhile isWhiteSpace := by
    have := List.reverse_prefix.2
      (List.dropWhile_suffix (l := (l.dropWhile isWhiteSpace).reverse) isWhiteSpace)
    rwa [List.reverse_reverse] at this
  obtain ⟨rest, hrest⟩ := h1
  have h2 := List.head?_dropWhile_not isWhiteSpace l
  rw [← hrest, List.head?_append] at h2
  unfold trim at h
  rw [h] at h2
  simpa using h2

theorem collapseFrom_mem (b : Bool) (l : List Char) (c : Char)
    (h : c ∈ collapseFrom b l) : c = ' ' ∨ c ∈ l := by
  induction l generalizing b with
  | nil => simp [collapseFrom] at h
  | cons x xs ih =>
    unfold collapseFrom at h
    split_ifs at h with h1 h2
    · rcases ih _ h with h3 | h3
      · exact Or.inl h3
      · exact Or.inr (List.mem_cons_of_mem _ h3)
    · rcases List.mem_cons.1 h with h3 | h3
      · exact Or.inl h3
      · rcases ih _ h3 with h4 | h4
        · exact Or.inl h4
        · exact Or.inr (List.mem_cons_of_mem _ h4)
    · rcases List.mem_cons.1 h with h3 | h3
      · exact Or.inr (h3 ▸ List.mem_cons_self _ _)
      · rcases ih _ h3 with h4 | h4
        · exact Or.inl h4
        · exact Or.inr (List.mem_cons_of_mem _ h4)

theorem collapseFrom_chain (b : Bool) (l : List Char) :
    List.Chain' (fun x y => ¬ (isWhiteSpace x = true ∧ isWhiteSpace y = true))
        (collapseFrom b l) ∧
      (b = true → ∀ c, (collapseFrom b l).head? = some c → isWhiteSpace c = false) := by
  induction l generalizing b with
  | nil => simp [collapseFrom]
  | cons x xs ih =>
    unfold collapseFrom
    split_ifs with h1 h2
    · exact ⟨(ih true).1, fun _ => (ih true).2 rfl⟩
    · refine ⟨?_, fun hb => absurd hb h2⟩
      rw [List.chain'_cons']
      refine ⟨?_, (ih true).1⟩
      intro y hy hxy
      have := (ih true).2 rfl y hy
      rw [this] at hxy
      exact absurd hxy.2 (by decide)
    · refine ⟨?_, fun _ c hc => ?_⟩
      · rw [List.chain'_cons']
        exact ⟨fun y _ hxy => h1 hxy.1, (ih false).1⟩
      · simp only [List.head?_cons, Option.some.injEq] at hc
        subst hc
        simpa using h1

/-- C11. For every label, `norm` is the label lower-cased, decomposed, without
the combining marks of U+0300..U+036F, with each run of white space collapsed to
one space, trimmed; so its result has no combining mark of that range, neither
starts nor ends with white space, and has no two adjacent white-space
characters; and `norm` of a missing or empty label is the empty string. -/
theorem norm_canonical (s : String) :
    norm none = "" ∧ norm (some "") = "" ∧
    (norm (some s)).data =
      trim (collapseWhiteSpace (stripMarks (normalizeNFD (toLowerCase s.data)))) ∧
    (∀ c ∈ (norm (some s)).data, isCombiningMark c = false) ∧
    (∀ c, (norm (some s)).data.head? = some c → isWhiteSpace c = false) ∧
    (∀ c, (norm (some s)).data.getLast? = some c → isWhiteSpace c = false) ∧
    List.Chain' (fun x y => ¬ (isWhiteSpace x = true ∧ isWhiteSpace y = true))
      (norm (some s)).data := by
  refine ⟨rfl, rfl, norm_some_data s, ?_, ?_, ?_, ?_⟩
  · intro c hc
    rw [norm_some_data] at hc
    rcases collapseFrom_mem _ _ c ((trim_contiguous _).subset hc) with h | h
    · subst h
      decide
    · simpa [stripMarks] using (List.mem_filter.1 h).2
  · intro c hc
    rw [norm_some_data] at hc
    exact trim_head? _ c hc
  · intro c hc
    rw [norm_some_data] at hc
    exact trim_getLast? _ c hc
  · rw [norm_some_data]
    exact List.Chain'.infix (collapseFrom_chain false _).1 (trim_contiguous _)

/-! ## Labels with the same canonical key -/

/-- The first three steps of `norm` on one character. -/
theorem strip_nfd_lower_cons (c : Char) (r : List Char) :
    stripMarks (decompose (toLowerCase (c :: r))) =
      stripMarks (nfdChar (toLowerChar c)) ++ stripMarks (decompose (toLowerCase r)) := by
  simp [stripMarks, decompose, toLowerCase]

theorem strip_nfd_lower_append (l r : List Char) :
    stripMarks (decompose (toLowerCase (l ++ r))) =
      stripMarks (decompose (toLowerCase l)) ++ stripMarks (decompose (toLowerCase r)) := by
  simp [stripMarks, decompose, toLowerCase]

theorem nfdTable_keys : ∀ e ∈ nfdTable, 192 ≤ e.1 ∧ e.1 ≤ 255 := by decide

theorem nfdTable_lookup_none (n : Nat) (h : n < 192 ∨ 255 < n) : nfdTable.lookup n = none := by
  rw [List.lookup_eq_none_iff]
  intro e he
  have := nfdTable_keys e he
  simp only [bne_iff_ne, ne_eq]
  omega

theorem isWhiteSpace_toNat (w : Char) (h : isWhiteSpace w = true) :
    w.toNat < 65 ∨ w.toNat = 160 ∨ 880 ≤ w.toNat := by
  simp only [isWhiteSpace, Bool.or_eq_true, Bool.and_eq_true, decide_eq_true_eq, beq_iff_eq] at h
  omega

/-- The first three steps of `norm` keep a white-space character. -/
theorem strip_nfd_lower_space (w : Char) (h : isWhiteSpace w = true) :
    stripMarks (nfdChar (toLowerChar w)) = [w] := by
  have hn := isWhiteSpace_toNat w h
  have hl : toLowerChar w = w := by
    unfold toLowerChar
    rw [if_neg]
    simp only [Bool.or_eq_true, Bool.and_eq_true, decide_eq_true_eq, bne_iff_ne, ne_eq, not_or,
      not_and, not_le, not_not]
    omega
  have hd : nfdChar w = [w] := by
    unfold nfdChar
    rw [nfdTable_lookup_none w.toNat (by omega)]
  have hm : isCombiningMark w = false := by
    simp only [isCombiningMark, Bool.and_eq_false_iff, decide_eq_false_iff_not, not_le]
    omega
  simp [hl, hd, stripMarks, hm]

/-- The first three steps of `norm` delete a combining mark. -/
theorem strip_nfd_lower_mark (m : Char) (h : isCombiningMark m = true) :
    stripMarks (nfdChar (toLowerChar m)) = [] := by
  have hn : 768 ≤ m.toNat ∧ m.toNat ≤ 879 := by
    simpa [isCombiningMark] using h
  have hl : toLowerChar m = m := by
    unfold toLowerChar
    rw [if_neg]
    simp only [Bool.or_eq_true, Bool.and_eq_true, decide_eq_true_eq, bne_iff_ne, ne_eq, not_or,
      not_and, not_le, not_not]
    omega
  have hd : nfdChar m = [m] := by
    unfold nfdChar
    rw [nfdTable_lookup_none m.toNat (by omega)]
  simp [hl, hd, stripMarks, h]

theorem nfdTable_base : ∀ e ∈ nfdTable,
    isCombiningMark (Char.ofNat e.2.2) = true →
    stripMarks (nfdChar (toLowerChar (Char.ofNat e.1))) =
      stripMarks (nfdChar (toLowerChar (Char.ofNat e.2.1))) := by decide

/-- The first three steps of `norm` send a decomposable character where they
send its base letter. -/
theorem strip_nfd_lower_base (c base mark : Char) (h : nfdChar c = [base, mark])
    (hm : isCombiningMark mark = true) :
    stripMarks (nfdChar (toLowerChar c)) = stripMarks (nfdChar (toLowerChar base)) := by
  unfold nfdChar at h
  cases hl : nfdTable.lookup c.toNat with
  | none => simp [hl] at h
  | some e =>
    obtain ⟨b, k⟩ := e
    simp only [hl, List.cons.injEq, and_true] at h
    obtain ⟨hb, hk⟩ := h
    obtain ⟨l₁, l₂, hlist, _⟩ := List.lookup_eq_some_iff.1 hl
    have hmem : (c.toNat, b, k) ∈ nfdTable := by
      rw [hlist]
      simp
    have := nfdTable_base _ hmem (by simpa [hk] using hm)
    simpa [Char.ofNat_toNat, hb] using this

theorem collapseFrom_space (b : Bool) (w : Char) (r : List Char) (h : isWhiteSpace w = true) :
    collapseFrom b (w :: r) = (if b then [] else [' ']) ++ collapseFrom true r := by
  cases b <;> simp [collapseFrom, h]

/-- Two adjacent white spaces collapse as the second one alone. -/
theorem collapseFrom_inner_left (b : Bool) (l r : List Char) (w w' : Char)
    (hw : isWhiteSpace w = true) (hw' : isWhiteSpace w' = true) :
    collapseFrom b (l ++ w :: w' :: r) = collapseFrom b (l ++ w' :: r) := by
  induction l generalizing b with
  | nil =>
    simp only [List.nil_append]
    rw [collapseFrom_space b w _ hw, collapseFrom_space true w' _ hw',
      collapseFrom_space b w' _ hw']
    simp
  | cons x xs ih =>
    simp only [List.cons_append]
    unfold collapseFrom
    split_ifs <;> simp [ih]

/-- Two adjacent white spaces collapse as the first one alone. -/
theorem collapseFrom_inner_right (b : Bool) (l r : List Char) (w w' : Char)
    (hw : isWhiteSpace w = true) (hw' : isWhiteSpace w' = true) :
    collapseFrom b (l ++ w :: w' :: r) = collapseFrom b (l ++ w :: r) := by
  induction l generalizing b with
  | nil =>
    simp only [List.nil_append]
    rw [collapseFrom_space b w _ hw, collapseFrom_space true w' _ hw',
      collapseFrom_space b w _ hw]
    simp
  | cons x xs ih =>
    simp only [List.cons_append]
    unfold collapseFrom
    split_ifs <;> simp [ih]

/-- A white space at the end adds at most one space at the end. -/
theorem collapseFrom_trailing (b : Bool) (l : List Char) (w : Char)
    (hw : isWhiteSpace w = true) :
    collapseFrom b (l ++ [w]) = collapseFrom b l ∨
      collapseFrom b (l ++ [w]) = collapseFrom b l ++ [' '] := by
  induction l generalizing b with
  | nil => cases b <;> simp [collapseFrom, hw]
  | cons x xs ih =>
    simp only [List.cons_append]
    unfold collapseFrom
    split_ifs
    · exact ih true
    · rcases ih true with h | h
      · exact Or.inl (by rw [h])
      · exact Or.inr (by rw [h]; rfl)
    · rcases ih false with h | h
      · exact Or.inl (by rw [h])
      · exact Or.inr (by rw [h]; rfl)

/-- What is left of the collapsed list after its leading white space does not
depend on the flag. -/
theorem dropWhile_collapseFrom (l : List Char) :
    (collapseFrom true l).dropWhile isWhiteSpace =
      (collapseFrom false l).dropWhile isWhiteSpace := by
  have hs : isWhiteSpace ' ' = true := by decide
  cases l with
  | nil => rfl
  | cons x xs =>
    by_cases h : isWhiteSpace x = true
    · simp [collapseFrom, h, List.dropWhile_cons, hs]
    · simp [collapseFrom, h]

theorem trim_cons_space (w : Char) (l : List Char) (hw : isWhiteSpace w = true) :
    trim (w :: l) = trim l := by
  simp [trim, List.dropWhile_cons, hw]

theorem trim_append_space (l : List Char) (w : Char) (hw : isWhiteSpace w = true) :
    trim (l ++ [w]) = trim l := by
  unfold trim
  rw [List.dropWhile_append]
  split_ifs with h
  · have h' : l.dropWhile isWhiteSpace = [] := List.isEmpty_iff.1 h
    simp [List.dropWhile_cons, hw, h']
  · simp [List.dropWhile_cons, hw]

theorem trim_collapse_flag (l : List Char) :
    trim (collapseFrom true l) = trim (collapseFrom false l) := by
  unfold trim
  rw [dropWhile_collapseFrom]

/-- Labels that differ only in letter case, diacritics and amount of white
space have the same characters after the five steps of `norm`. -/
theorem sameLabel_pipeline (s t : List Char) (h : SameLabel s t) :
    trim (collapseWhiteSpace (stripMarks (decompose (toLowerCase s)))) =
      trim (collapseWhiteSpace (stripMarks (decompose (toLowerCase t)))) := by
  have hsp : isWhiteSpace ' ' = true := by decide
  induction h with
  | refl s => rfl
  | symm _ ih => exact ih.symm
  | trans _ _ ih1 ih2 => exact ih1.trans ih2
  | letterCase l r c d hcd =>
    rw [strip_nfd_lower_append, strip_nfd_lower_append, strip_nfd_lower_cons,
      strip_nfd_lower_cons, hcd]
  | diacritic l r c base mark hc hm =>
    rw [strip_nfd_lower_append, strip_nfd_lower_append, strip_nfd_lower_cons,
      strip_nfd_lower_cons, strip_nfd_lower_base c base mark hc hm]
  | combiningMark l r mark hm =>
    rw [strip_nfd_lower_append, strip_nfd_lower_append, strip_nfd_lower_cons,
      strip_nfd_lower_mark mark hm]
    rfl
  | leadingSpace w s hw =>
    rw [strip_nfd_lower_cons, strip_nfd_lower_space w hw]
    simp only [collapseWhiteSpace, List.singleton_append]
    rw [collapseFrom_space false w _ hw]
    simp only [Bool.false_eq_true, if_false, List.singleton_append]
    rw [trim_cons_space _ _ hsp, trim_collapse_flag]
  | trailingSpace w s hw =>
    rw [strip_nfd_lower_append]
    have : stripMarks (decompose (toLowerCase [w])) = [w] := by
      have := strip_nfd_lower_cons w []
      rw [strip_nfd_lower_space w hw] at this
      simpa [stripMarks, decompose, toLowerCase] using this
    rw [this]
    unfold collapseWhiteSpace
    rcases collapseFrom_trailing false (stripMarks (decompose (toLowerCase s))) w hw with
      h | h
    · rw [h]
    · rw [h, trim_append_space _ _ hsp]
  | innerSpaceLeft l r w w' hw hw' =>
    simp only [strip_nfd_lower_append, strip_nfd_lower_cons, strip_nfd_lower_space w hw,
      strip_nfd_lower_space w' hw', collapseWhiteSpace, List.singleton_append]
    rw [collapseFrom_inner_left false _ _ w w' hw hw']
  | innerSpaceRight l r w w' hw hw' =>
    simp only [strip_nfd_lower_append, strip_nfd_lower_cons, strip_nfd_lower_space w hw,
      strip_nfd_lower_space w' hw', collapseWhiteSpace, List.singleton_append]
    rw [collapseFrom_inner_right false _ _ w w' hw hw']

/-! ## The canonical ordering -/

theorem combiningClass_pos (c : Char) (h : combiningClass c ≠ 0) : 0x300 ≤ c.toNat := by
  unfold combiningClass at h
  by_contra hlt
  rw [if_pos (not_le.1 hlt)] at h
  exact h rfl

set_option maxRecDepth 100000 in
theorem combiningClassTable_no_space : ∀ e ∈ combiningClassTable,
    (e.2.1 < 0x1680 ∨ 0x1680 < e.1) ∧ (e.2.1 < 0x2000 ∨ 0x200A < e.1) ∧
    (e.2.1 < 0x2028 ∨ 0x2029 < e.1) ∧ (e.2.1 < 0x202F ∨ 0x202F < e.1) ∧
    (e.2.1 < 0x205F ∨ 0x205F < e.1) ∧ (e.2.1 < 0x3000 ∨ 0x3000 < e.1) ∧
    (e.2.1 < 0xFEFF ∨ 0xFEFF < e.1) := by
  decide

/-- A white-space character has the class 0. -/
theorem combiningClass_space (w : Char) (h : isWhiteSpace w = true) : combiningClass w = 0 := by
  unfold combiningClass
  split_ifs with hlt
  · rfl
  · cases hf : combiningClassTable.find? (fun e => e.1 ≤ w.toNat && w.toNat ≤ e.2.1) with
    | none => rfl
    | some e =>
      exfalso
      have hmem := List.mem_of_find?_eq_some hf
      have hp := List.find?_some hf
      have ht := combiningClassTable_no_space e hmem
      simp only [Bool.and_eq_true, decide_eq_true_eq] at hp
      simp only [isWhiteSpace, Bool.or_eq_true, Bool.and_eq_true, decide_eq_true_eq,
        beq_iff_eq] at h
      omega

theorem stripMarks_cons_mark (d : Char) (l : List Char) (h : isCombiningMark d = true) :
    stripMarks (d :: l) = stripMarks l := by
  simp [stripMarks, h]

theorem stripMarks_cons (c : Char) (l : List Char) :
    stripMarks (c :: l) = stripMarks [c] ++ stripMarks l := by
  unfold stripMarks
  rw [← List.filter_append]
  rfl

theorem reorderInsert_perm (c : Char) (l : List Char) : (reorderInsert c l).Perm (c :: l) := by
  induction l with
  | nil => exact List.Perm.refl _
  | cons d ds ih =>
    unfold reorderInsert
    split_ifs
    · exact ((List.Perm.cons d ih).trans (List.Perm.swap c d ds))
    · exact List.Perm.refl _

theorem canonicalOrder_perm (l : List Char) : (canonicalOrder l).Perm l := by
  induction l with
  | nil => exact List.Perm.refl _
  | cons c cs ih =>
    unfold canonicalOrder
    exact (reorderInsert_perm c _).trans (List.Perm.cons c ih)

/-- One pass of the canonical ordering moves `c` past combining marks of
U+0300..U+036F only, when no other character of the string has a class. -/
theorem stripMarks_reorderInsert (c : Char) (l : List Char)
    (h : ∀ d ∈ l, combiningClass d ≠ 0 → isCombiningMark d = true) :
    stripMarks (reorderInsert c l) = stripMarks (c :: l) := by
  induction l with
  | nil => rfl
  | cons d ds ih =>
    unfold reorderInsert
    split_ifs with hsw
    · have hd : isCombiningMark d = true := h d (List.mem_cons_self _ _) hsw.1
      rw [stripMarks_cons_mark d _ hd, ih (fun x hx => h x (List.mem_cons_of_mem _ hx)),
        stripMarks_cons c (d :: ds), stripMarks_cons_mark d _ hd, ← stripMarks_cons]
    · rfl

/-- The canonical ordering changes nothing of what is left after the combining
marks of U+0300..U+036F are deleted, when no other character of the string has
a class. -/
theorem stripMarks_canonicalOrder (l : List Char)
    (h : ∀ d ∈ l, combiningClass d ≠ 0 → isCombiningMark d = true) :
    stripMarks (canonicalOrder l) = stripMarks l := by
  induction l with
  | nil => rfl
  | cons c cs ih =>
    have hcs : ∀ d ∈ cs, combiningClass d ≠ 0 → isCombiningMark d = true :=
      fun d hd => h d (List.mem_cons_of_mem _ hd)
    unfold canonicalOrder
    rw [stripMarks_reorderInsert c _
        (fun d hd => hcs d ((canonicalOrder_perm cs).subset hd)),
      stripMarks_cons, ih hcs, ← stripMarks_cons]

theorem toLowerChar_of_ge (c : Char) (h : 256 ≤ c.toNat) : toLowerChar c = c := by
  unfold toLowerChar
  rw [if_neg]
  simp only [Bool.or_eq_true, Bool.and_eq_true, decide_eq_true_eq, bne_iff_ne, ne_eq, not_or,
    not_and, not_le, not_not]
  omega

theorem nfdChar_of_ge (c : Char) (h : 256 ≤ c.toNat) : nfdChar c = [c] := by
  unfold nfdChar
  rw [nfdTable_lookup_none c.toNat (by omega)]

set_option maxRecDepth 100000 in
theorem nfd_lower_latin : ∀ n < 256, ∀ d ∈ nfdChar (toLowerChar (Char.ofNat n)),
    inLatinRange d = true ∧ (d.toNat < 0x300 ∨ isCombiningMark d = true) := by
  decide

set_option maxRecDepth 100000 in
theorem toLowerChar_latin : ∀ n < 256, (toLowerChar (Char.ofNat n)).toNat < 256 := by
  decide

theorem nfdTable_base_latin : ∀ e ∈ nfdTable, (Char.ofNat e.2.1).toNat < 256 := by
  decide

/-- The characters that lower-casing and decomposing make of a character of
the range are in the range, and those with a class are combining marks of
U+0300..U+036F. -/
theorem nfd_lower_range (c d : Char) (hc : inLatinRange c = true)
    (hd : d ∈ nfdChar (toLowerChar c)) :
    inLatinRange d = true ∧ (combiningClass d ≠ 0 → isCombiningMark d = true) := by
  by_cases hn : c.toNat < 256
  · have := nfd_lower_latin c.toNat hn d
    rw [Char.ofNat_toNat] at this
    obtain ⟨h1, h2⟩ := this hd
    refine ⟨h1, fun hk => ?_⟩
    rcases h2 with h | h
    · have := combiningClass_pos d hk
      omega
    · exact h
  · rw [toLowerChar_of_ge c (by omega), nfdChar_of_ge c (by omega), List.mem_singleton] at hd
    subst hd
    refine ⟨hc, fun hk => ?_⟩
    simp only [inLatinRange, Bool.or_eq_true, decide_eq_true_eq] at hc
    rcases hc with (h | h) | h
    · exact absurd h hn
    · exact h
    · exact absurd (combiningClass_space d h) hk

theorem mem_decompose_lower (l : List Char) (d : Char) (hd : d ∈ decompose (toLowerCase l)) :
    ∃ c ∈ l, d ∈ nfdChar (toLowerChar c) := by
  simp only [decompose, toLowerCase, List.mem_flatMap, List.mem_map] at hd
  obtain ⟨x, ⟨c, hc, rfl⟩, hx⟩ := hd
  exact ⟨c, hc, hx⟩

/-- On a label of the range, the canonical ordering changes nothing of what
the first three steps of `norm` give. -/
theorem strip_normalizeNFD_lower (l : List Char) (hl : ∀ c ∈ l, inLatinRange c = true) :
    stripMarks (normalizeNFD (toLowerCase l)) = stripMarks (decompose (toLowerCase l)) := by
  unfold normalizeNFD
  apply stripMarks_canonicalOrder
  intro d hd
  obtain ⟨c, hc, hdc⟩ := mem_decompose_lower l d hd
  exact (nfd_lower_range c d (hl c hc) hdc).2

theorem forall_mem_insert (P : Char → Prop) (l r : List Char) (c : Char) :
    (∀ x ∈ l ++ c :: r, P x) ↔ P c ∧ ∀ x ∈ l ++ r, P x := by
  simp only [List.mem_append, List.mem_cons]
  constructor
  · intro h
    exact ⟨h c (Or.inr (Or.inl rfl)), fun x hx => h x (hx.elim Or.inl fun h' => Or.inr (Or.inr h'))⟩
  · rintro ⟨hc, h⟩ x (hx | hx | hx)
    · exact h x (Or.inl hx)
    · rw [hx]
      exact hc
    · exact h x (Or.inr hx)

theorem inLatinRange_of_space (w : Char) (h : isWhiteSpace w = true) : inLatinRange w = true := by
  simp [inLatinRange, h]

theorem inLatinRange_of_lt (c : Char) (h : c.toNat < 256) : inLatinRange c = true := by
  simp [inLatinRange, h]

/-- Two characters with the same lower case are both in the range or both
outside it. -/
theorem toLowerChar_range (c d : Char) (h : toLowerChar c = toLowerChar d) :
    inLatinRange c = inLatinRange d := by
  have hlat : ∀ x : Char, x.toNat < 256 → (toLowerChar x).toNat < 256 := by
    intro x hx
    have := toLowerChar_latin x.toNat hx
    rwa [Char.ofNat_toNat] at this
  by_cases hc : c.toNat < 256
  · by_cases hd : d.toNat < 256
    · rw [inLatinRange_of_lt c hc, inLatinRange_of_lt d hd]
    · have := hlat c hc
      rw [h, toLowerChar_of_ge d (by omega)] at this
      exact absurd this hd
  · by_cases hd : d.toNat < 256
    · have := hlat d hd
      rw [← h, toLowerChar_of_ge c (by omega)] at this
      exact absurd this hc
    · rw [toLowerChar_of_ge c (by omega), toLowerChar_of_ge d (by omega)] at h
      rw [h]

/-- A character with a decomposition and its base letter are in the range. -/
theorem nfdChar_range (c base mark : Char) (h : nfdChar c = [base, mark]) :
    inLatinRange c = true ∧ inLatinRange base = true := by
  have hc : c.toNat < 256 := by
    by_contra hge
    rw [nfdChar_of_ge c (by omega)] at h
    simp at h
  refine ⟨inLatinRange_of_lt c hc, ?_⟩
  unfold nfdChar at h
  cases hl : nfdTable.lookup c.toNat with
  | none => simp [hl] at h
  | some e =>
    obtain ⟨b, k⟩ := e
    simp only [hl, List.cons.injEq, and_true] at h
    obtain ⟨hb, _⟩ := h
    obtain ⟨l₁, l₂, hlist, _⟩ := List.lookup_eq_some_iff.1 hl
    have hmem : (c.toNat, b, k) ∈ nfdTable := by
      rw [hlist]
      simp
    have := nfdTable_base_latin _ hmem
    rw [← hb]
    exact inLatinRange_of_lt _ this

/-- Of two labels that differ only in letter case, diacritics and amount of
white space, one is in the range when the other is. -/
theorem sameLabel_range (s t : List Char) (h : SameLabel s t) :
    (∀ c ∈ s, inLatinRange c = true) ↔ (∀ c ∈ t, inLatinRange c = true) := by
  induction h with
  | refl s => exact Iff.rfl
  | symm _ ih => exact ih.symm
  | trans _ _ ih1 ih2 => exact ih1.trans ih2
  | letterCase l r c d hcd =>
    rw [forall_mem_insert, forall_mem_insert, toLowerChar_range c d hcd]
  | diacritic l r c base mark hc hm =>
    obtain ⟨h1, h2⟩ := nfdChar_range c base mark hc
    rw [forall_mem_insert, forall_mem_insert]
    simp only [h1, h2]
  | combiningMark l r mark hm =>
    rw [forall_mem_insert]
    have : inLatinRange mark = true := by simp [inLatinRange, hm]
    simp only [this, true_and]
  | leadingSpace w s hw =>
    have := forall_mem_insert (fun x => inLatinRange x = true) [] s w
    simp only [List.nil_append] at this
    rw [this]
    simp only [inLatinRange_of_space w hw, true_and]
  | trailingSpace w s hw =>
    rw [forall_mem_insert]
    simp only [inLatinRange_of_space w hw, true_and, List.append_nil]
  | innerSpaceLeft l r w w' hw hw' =>
    rw [forall_mem_insert]
    simp only [inLatinRange_of_space w hw, true_and]
  | innerSpaceRight l r w w' hw hw' =>
    rw [forall_mem_insert, forall_mem_insert, forall_mem_insert]
    simp only [inLatinRange_of_space w hw, inLatinRange_of_space w' hw', true_and]

/-- C12, as stated, fails on the labels `a` + U+094D + U+034F + U+093C and
`a` + U+094D + U+093C, which differ only in the combining mark U+034F of
U+0300..U+036F: with the mark between them the two signs keep their order, and
without it `normalize('NFD')` puts U+093C (class 7) before U+094D (class 9), so
the two canonical keys are different. -/
theorem same_label_keys_differ :
    SameLabel viramaNuktaLabel.data viramaNuktaKey.data ∧
      norm (some viramaNuktaLabel) =
        String.mk ['a', Char.ofNat 0x94D, Char.ofNat 0x93C] ∧
      norm (some viramaNuktaKey) =
        String.mk ['a', Char.ofNat 0x93C, Char.ofNat 0x94D] ∧
      norm (some viramaNuktaLabel) ≠ norm (some viramaNuktaKey) := by
  refine ⟨?_, by decide, by decide, by decide⟩
  exact SameLabel.combiningMark ['a', Char.ofNat 0x94D] [Char.ofNat 0x93C] (Char.ofNat 0x34F)
    (by decide)

/-- C12, amended. Two labels made of characters of U+0000..U+00FF, of
combining marks of U+0300..U+036F and of white space, that differ only in
letter case, in diacritics that decompose to combining marks of
U+0300..U+036F, and in the amount of leading, trailing or internal white space
have the same canonical key; and `norm("São Paulo  ")` and `norm("sao paulo")`
are both `sao paulo`. -/
theorem norm_same_label (s t : String) (h : SameLabel s.data t.data)
    (hs : ∀ c ∈ s.data, inLatinRange c = true) :
    norm (some s) = norm (some t) ∧
    norm (some "São Paulo  ") = "sao paulo" ∧ norm (some "sao paulo") = "sao paulo" := by
  refine ⟨?_, by decide, by decide⟩
  have ht : ∀ c ∈ t.data, inLatinRange c = true := (sameLabel_range _ _ h).1 hs
  have hs' := norm_some_data s
  rw [strip_normalizeNFD_lower _ hs, sameLabel_pipeline _ _ h,
    ← strip_normalizeNFD_lower _ ht, ← norm_some_data t] at hs'
  exact String.ext hs'

/-- C12, amended, at the labels `São Paulo  ` and `sao paulo`: a capital, a
tilde, a second capital and two trailing spaces apart. -/
theorem norm_same_label_witness :
    (∀ c ∈ "São Paulo  ".data, inLatinRange c = true) ∧
    norm (some "São Paulo  ") = norm (some "sao paulo") ∧
    norm (some "São Paulo  ") = "sao paulo" ∧ norm (some "sao paulo") = "sao paulo" :=
  ⟨by decide,
    norm_same_label "São Paulo  " "sao paulo"
      (SameLabel.trans (SameLabel.letterCase [] "ão Paulo  ".data 'S' 's' (by decide))
        (SameLabel.trans
          (SameLabel.diacritic "s".data "o Paulo  ".data 'ã' 'a' (Char.ofNat 0x303)
            (by decide) (by decide))
          (SameLabel.trans (SameLabel.letterCase "sao ".data "aulo  ".data 'P' 'p' (by decide))
            (SameLabel.trans (SameLabel.trailingSpace ' ' "sao paulo ".data (by decide))
              (SameLabel.trailingSpace ' ' "sao paulo".data (by decide))))))
      (by decide)⟩

/-! ## What the classification keeps -/

/-- The callback of the classification keeps the name, the region code and the
population of the record. -/
theorem classifyBairro_keeps {α : Type} [LinearOrderedField α] (dist : α → α → α → α → α)
    (ibas : List (Iba α)) (bairroCoordinates : List (BairroCoord α)) (circleRadius : α)
    (bairro : BairroRec α) :
    (classifyBairro dist ibas bairroCoordinates circleRadius bairro).Bairro = bairro.Bairro ∧
    (classifyBairro dist ibas bairroCoordinates circleRadius bairro).RA = bairro.RA ∧
    (classifyBairro dist ibas bairroCoordinates circleRadius bairro).Populacao =
      bairro.Populacao := by
  unfold classifyBairro
  cases bairroCoordinates.find? (fun c => norm c.nome == norm (some bairro.Bairro)) <;>
    exact ⟨rfl, rfl, rfl⟩

/-- C26. `bairrosComCalculoIba` returns a collection of the length of the input
areas, and at every index the output has the `Bairro`, the `RA` and the
`Populacao` of the input at that index, whatever the facilities, the
representative points and the radius. -/
theorem classification_keeps_identity (ibas : List (Iba ℝ)) (bairros : List (BairroRec ℝ))
    (bairroCoordinates : List (BairroCoord ℝ)) (circleRadius : ℝ) :
    (bairrosComCalculoIba ibas bairros bairroCoordinates circleRadius).length =
      bairros.length ∧
    ∀ i : Nat,
      ((bairrosComCalculoIba ibas bairros bairroCoordinates circleRadius)[i]?).map
          (fun b => (b.Bairro, b.RA, b.Populacao)) =
        (bairros[i]?).map (fun b => (b.Bairro, b.RA, b.Populacao)) := by
  unfold bairrosComCalculoIba bairrosComCalculoIbaWith
  by_cases hg : ibas.length = 0 ∨ bairros.length = 0
  · rw [if_pos hg]
    exact ⟨rfl, fun _ => rfl⟩
  · simp only [hg, if_false, List.length_map, List.getElem?_map, Option.map_map, true_and]
    intro i
    cases bairros[i]? with
    | none => rfl
    | some b =>
      obtain ⟨h1, h2, h3⟩ :=
        classifyBairro_keeps calculateDistance ibas bairroCoordinates circleRadius b
      simp [h1, h2, h3]

/-! ## Symmetry of the distance -/

theorem haversineA_symm (lat1 lon1 lat2 lon2 : ℝ) :
    haversineA lat1 lon1 lat2 lon2 = haversineA lat2 lon2 lat1 lon1 := by
  have h1 : deg2rad (lat1 - lat2) / 2 = -(deg2rad (lat2 - lat1) / 2) := by
    unfold deg2rad; ring
  have h2 : deg2rad (lon1 - lon2) / 2 = -(deg2rad (lon2 - lon1) / 2) := by
    unfold deg2rad; ring
  unfold haversineA
  simp only []
  rw [h1, h2, Real.sin_neg, Real.sin_neg]
  ring

/-- C28. Over the reals `calculateDistance` is symmetric in its two points. -/
theorem calculateDistance_symm (lat1 lon1 lat2 lon2 : ℝ) :
    calculateDistance lat1 lon1 lat2 lon2 = calculateDistance lat2 lon2 lat1 lon1 := by
  rw [calculateDistance_eq_atan2, calculateDistance_eq_atan2, haversineA_symm]

/-! ## The two flags together -/

/-- For a radius of at least 1 and a record without the two flags, the classified
record is within the radius whenever it has a facility. -/
theorem classifyBairro_flags {α : Type} [LinearOrderedField α] (dist : α → α → α → α → α)
    (ibas : List (Iba α)) (bairroCoordinates : List (BairroCoord α)) (circleRadius : α)
    (hr : 1 ≤ circleRadius) (bairro : BairroRec α) :
    ((classifyBairro dist ibas bairroCoordinates circleRadius bairro).Possui_IBA =
        JSVal.bool true →
      (classifyBairro dist ibas bairroCoordinates circleRadius bairro).Dentro_raio_IBA =
        JSVal.bool true) ∧
    ((classifyBairro dist ibas bairroCoordinates circleRadius bairro).Possui_IBA.truthy = true →
      (classifyBairro dist ibas bairroCoordinates circleRadius bairro).Dentro_raio_IBA.truthy =
        true) := by
  unfold classifyBairro
  cases bairroCoordinates.find? (fun c => norm c.nome == norm (some bairro.Bairro)) with
  | none => simp [JSVal.truthy]
  | some coord =>
    cases hst : (nearestLoop dist coord ibas).1 with
    | num x =>
      simp only [hst, JSNum.lt, JSNum.le, JSVal.truthy, JSVal.bool.injEq, decide_eq_true_eq]
      exact ⟨fun hx => le_trans (le_of_lt hx) hr, fun hx => le_trans (le_of_lt hx) hr⟩
    | infinity => simp [hst, JSNum.lt, JSNum.le, JSVal.truthy]
    | nan => simp [hst, JSNum.lt, JSNum.le, JSVal.truthy]

/-- C25. For a coverage radius of at least 1 and areas supplied without the
derived flags, every classified area with `Possui_IBA = true` has
`Dentro_raio_IBA = true`, and `stats.bairrosForaDoRaio` is at most
`stats.bairrosSemIba`. -/
theorem has_facility_implies_within_radius (ibas : List (Iba ℝ)) (bairros : List (BairroRec ℝ))
    (bairroCoordinates : List (BairroCoord ℝ)) (circleRadius populationFilter : ℝ)
    (hr : 1 ≤ circleRadius)
    (hplain : ∀ b ∈ bairros,
      b.Possui_IBA = JSVal.undefined ∧ b.Dentro_raio_IBA = JSVal.undefined) :
    (∀ out ∈ bairrosComCalculoIba ibas bairros bairroCoordinates circleRadius,
      out.Possui_IBA = JSVal.bool true → out.Dentro_raio_IBA = JSVal.bool true) ∧
    (stats (bairrosComCalculoIba ibas bairros bairroCoordinates circleRadius)
        populationFilter).bairrosForaDoRaio ≤
      (stats (bairrosComCalculoIba ibas bairros bairroCoordinates circleRadius)
        populationFilter).bairrosSemIba := by
  have hall : ∀ out ∈ bairrosComCalculoIba ibas bairros bairroCoordinates circleRadius,
      (out.Possui_IBA = JSVal.bool true → out.Dentro_raio_IBA = JSVal.bool true) ∧
      (out.Possui_IBA.truthy = true → out.Dentro_raio_IBA.truthy = true) := by
    intro out hout
    unfold bairrosComCalculoIba bairrosComCalculoIbaWith at hout
    by_cases hg : ibas.length = 0 ∨ bairros.length = 0
    · simp only [hg, if_true] at hout
      obtain ⟨h1, _⟩ := hplain out hout
      simp [h1, JSVal.truthy]
    · simp only [hg, if_false, List.mem_map] at hout
      obtain ⟨b, _, rfl⟩ := hout
      exact classifyBairro_flags calculateDistance ibas bairroCoordinates circleRadius hr b
  refine ⟨fun out hout => (hall out hout).1, ?_⟩
  simp only [stats, ← List.countP_eq_length_filter]
  apply List.countP_mono_left
  intro out hout hd
  simp only [Bool.not_eq_true'] at hd ⊢
  cases hp : out.Possui_IBA.truthy with
  | false => rfl
  | true => rw [(hall out hout).2 hp] at hd; exact absurd hd (by decide)

/-- C25, at the sample data and the radius 5. -/
theorem has_facility_implies_within_radius_witness :
    (∀ out ∈ bairrosComCalculoIba sampleIbas [sampleBairro] [samplePoint] 5,
      out.Possui_IBA = JSVal.bool true → out.Dentro_raio_IBA = JSVal.bool true) ∧
    (stats (bairrosComCalculoIba sampleIbas [sampleBairro] [samplePoint] 5)
        20000).bairrosForaDoRaio ≤
      (stats (bairrosComCalculoIba sampleIbas [sampleBairro] [samplePoint] 5)
        20000).bairrosSemIba :=
  has_facility_implies_within_radius sampleIbas [sampleBairro] [samplePoint] 5 20000
    (by norm_num)
    (by
      intro b hb
      rw [List.mem_singleton.1 hb]
      exact ⟨rfl, rfl⟩)

/-! ## The statistics and the display settings -/

/-- C22. Two states of the component that agree on the areas, the facilities,
the representative points, the coverage radius and the population floor have the
same four counts in `stats`, whatever their search text and their two toggles. -/
theorem stats_independent_of_display (st1 st2 : AppState) (hibas : st1.ibas = st2.ibas)
    (hbairros : st1.bairros = st2.bairros)
    (hcoords : st1.bairroCoordinates = st2.bairroCoordinates)
    (hradius : st1.circleRadius = st2.circleRadius)
    (hfloor : st1.populationFilter = st2.populationFilter) :
    st1.stats = st2.stats ∧
    st1.stats.totalBairros = st2.stats.totalBairros ∧
    st1.stats.bairrosSemIba = st2.stats.bairrosSemIba ∧
    st1.stats.bairrosForaDoRaio = st2.stats.bairrosForaDoRaio ∧
    st1.stats.bairrosComPopulacao = st2.stats.bairrosComPopulacao := by
  have h : st1.stats = st2.stats := by
    simp only [AppState.stats, AppState.bairrosComCalculoIba, hibas, hbairros, hcoords,
      hradius, hfloor]
  exact ⟨h, by rw [h], by rw [h], by rw [h], by rw [h]⟩

/-- C22, at two states that differ in the search text and in both toggles. -/
theorem stats_independent_of_display_witness :
    sampleState.stats = searchingState.stats ∧
    sampleState.stats.totalBairros = searchingState.stats.totalBairros ∧
    sampleState.stats.bairrosSemIba = searchingState.stats.bairrosSemIba ∧
    sampleState.stats.bairrosForaDoRaio = searchingState.stats.bairrosForaDoRaio ∧
    sampleState.stats.bairrosComPopulacao = searchingState.stats.bairrosComPopulacao :=
  stats_independent_of_display sampleState searchingState rfl rfl rfl rfl rfl

/-! ## The two names of a boundary -/

/-- C29, the code at the failing input: for a feature named `Centro` under
`properties` and `Lapa` under `attributes`, the extractor records the point
under the name `Centro`, and `getFeatName` gives `Lapa`. -/
theorem extractor_and_getFeatName_disagree :
    extractBairroCoordinates [twoNamesFeature] =
      Except.ok [{ nome := some "Centro", lng := JsonVal.num (-43.1729),
                   lat := JsonVal.num (-22.9068) }] ∧
    getFeatName twoNamesFeature = some "Lapa" :=
  ⟨rfl, rfl⟩

/-! ## The served threshold of the two variants -/

/-- On an area with a resolved distance the two classifiers give the same
record but for `Possui_IBA`, which is `d < 1` in `App.jsx` and `d < 0.5` in
`App_DeepSeek.jsx`. -/
theorem classifyBairro_both_resolved {α : Type} [LinearOrderedField α]
    (dist : α → α → α → α → α) (ibas : List (Iba α))
    (bairroCoordinates : List (BairroCoord α)) (circleRadius : α)
    (bairro : BairroRec α) (point : BairroCoord α) (hne : ibas ≠ [])
    (hpoint : bairroCoordinates.find? (fun c => norm c.nome == norm (some bairro.Bairro)) =
      some point) :
    ∃ d : α, (∃ f ∈ ibas, d = dist point.lat point.lng f.Latitude f.Longitude) ∧
      classifyBairro dist ibas bairroCoordinates circleRadius bairro =
        { bairro with
          Possui_IBA := JSVal.bool (decide (d < 1))
          Distancia_Min_IBA_km := JSVal.number (JSNum.num d)
          IBA_Mais_Proxima := (nearestLoop dist point ibas).2
          Dentro_raio_IBA := JSVal.bool (decide (d ≤ circleRadius)) } ∧
      classifyBairroDeepSeek dist ibas bairroCoordinates circleRadius bairro =
        { bairro with
          Possui_IBA := JSVal.bool (decide (d < 0.5))
          Distancia_Min_IBA_km := JSVal.number (JSNum.num d)
          IBA_Mais_Proxima := (nearestLoop dist point ibas).2
          Dentro_raio_IBA := JSVal.bool (decide (d ≤ circleRadius)) } := by
  obtain ⟨k, f, hk, hres, _, _⟩ := nearestLoop_spec dist point ibas hne
  refine ⟨dist point.lat point.lng f.Latitude f.Longitude,
    ⟨f, List.getElem?_mem hk, rfl⟩, ?_, ?_⟩
  · simp [classifyBairro, hpoint, hres, JSNum.lt, JSNum.le]
  · simp [classifyBairroDeepSeek, hpoint, hres, JSNum.lt, JSNum.le]

theorem bairrosComCalculoIbaDeepSeekWith_getElem? {α : Type} [LinearOrderedField α]
    (dist : α → α → α → α → α) (ibas : List (Iba α))
    (bairros : List (BairroRec α)) (bairroCoordinates : List (BairroCoord α))
    (circleRadius : α) (i : Nat) (bairro : BairroRec α)
    (hne : ibas ≠ []) (hi : bairros[i]? = some bairro) :
    (bairrosComCalculoIbaDeepSeekWith dist ibas bairros bairroCoordinates circleRadius)[i]? =
      some (classifyBairroDeepSeek dist ibas bairroCoordinates circleRadius bairro) := by
  have h1 : ibas.length ≠ 0 := fun h => hne (List.length_eq_zero.1 h)
  have h2 : bairros.length ≠ 0 := by
    intro h
    rw [List.length_eq_zero.1 h] at hi
    simp at hi
  simp [bairrosComCalculoIbaDeepSeekWith, h1, h2, List.getElem?_map, hi]

/-- C21, as stated, fails: for the area whose point is 0.7 km from the only
facility, the classifier of `App.jsx` gives `Possui_IBA = true` and the
classifier of `App_DeepSeek.jsx` gives `Possui_IBA = false`. -/
theorem served_threshold_differs :
    ¬ (∀ outA outD : BairroRec ℝ,
        (bairrosComCalculoIba [facilityAt700m] [tijucaBairro] [originPoint] 10)[0]? =
          some outA →
        (bairrosComCalculoIbaDeepSeek [facilityAt700m] [tijucaBairro] [originPoint] 10)[0]? =
          some outD →
        outA.Possui_IBA = outD.Possui_IBA) := by
  have hd : calculateDistance originPoint.lat originPoint.lng facilityAt700m.Latitude
      facilityAt700m.Longitude = 0.7 := by
    have h := calculateDistance_north 0.7 (by norm_num) (by nlinarith [Real.pi_gt_three])
    have e : (180 * 0.7 / (6371 * Real.pi) : ℝ) = 126 / (6371 * Real.pi) := by norm_num
    rw [e] at h
    exact h
  obtain ⟨d, ⟨f, hf, hdf⟩, hA, hD⟩ := classifyBairro_both_resolved calculateDistance
    [facilityAt700m] [originPoint] 10 tijucaBairro originPoint (List.cons_ne_nil _ _) rfl
  have hd7 : d = 0.7 := by
    rw [List.mem_singleton.1 hf] at hdf
    rw [hdf, hd]
  intro h
  have := h _ _
    (bairrosComCalculoIbaWith_getElem? calculateDistance [facilityAt700m] [tijucaBairro]
      [originPoint] 10 0 tijucaBairro (List.cons_ne_nil _ _) rfl)
    (bairrosComCalculoIbaDeepSeekWith_getElem? calculateDistance [facilityAt700m]
      [tijucaBairro] [originPoint] 10 0 tijucaBairro (List.cons_ne_nil _ _) rfl)
  rw [hA, hD, hd7] at this
  norm_num at this

/-- C21, amended. The two variants use two served thresholds: for an area with
the resolved distance `d`, the classifier of `App.jsx` gives `Possui_IBA = (d < 1)`
and the classifier of `App_DeepSeek.jsx` gives `Possui_IBA = (d < 0.5)`, with the
same distance; the two flags are equal exactly when `d < 0.5` or `1 <= d`. -/
theorem served_threshold_of_each_variant (ibas : List (Iba ℝ)) (bairros : List (BairroRec ℝ))
    (bairroCoordinates : List (BairroCoord ℝ)) (circleRadius : ℝ) (i : Nat)
    (bairro : BairroRec ℝ) (point : BairroCoord ℝ) (hne : ibas ≠ [])
    (hi : bairros[i]? = some bairro)
    (hpoint : bairroCoordinates.find? (fun c => norm c.nome == norm (some bairro.Bairro)) =
      some point) :
    ∃ (outA outD : BairroRec ℝ) (d : ℝ),
      (bairrosComCalculoIba ibas bairros bairroCoordinates circleRadius)[i]? = some outA ∧
      (bairrosComCalculoIbaDeepSeek ibas bairros bairroCoordinates circleRadius)[i]? =
        some outD ∧
      outA.Distancia_Min_IBA_km = JSVal.number (JSNum.num d) ∧
      outD.Distancia_Min_IBA_km = JSVal.number (JSNum.num d) ∧
      outA.Possui_IBA = JSVal.bool (decide (d < 1)) ∧
      outD.Possui_IBA = JSVal.bool (decide (d < 0.5)) ∧
      (outA.Possui_IBA = outD.Possui_IBA ↔ (d < 0.5 ∨ 1 ≤ d)) := by
  obtain ⟨d, _, hA, hD⟩ := classifyBairro_both_resolved calculateDistance ibas
    bairroCoordinates circleRadius bairro point hne hpoint
  refine ⟨_, _, d,
    bairrosComCalculoIbaWith_getElem? calculateDistance ibas bairros bairroCoordinates
      circleRadius i bairro hne hi,
    bairrosComCalculoIbaDeepSeekWith_getElem? calculateDistance ibas bairros
      bairroCoordinates circleRadius i bairro hne hi, ?_, ?_, ?_, ?_, ?_⟩
  · rw [hA]
  · rw [hD]
  · rw [hA]
  · rw [hD]
  · rw [hA, hD]
    simp only [JSVal.bool.injEq, decide_eq_decide]
    constructor
    · intro h
      by_cases h5 : d < 0.5
      · exact Or.inl h5
      · right
        by_contra h1
        exact h5 (h.1 (not_le.1 h1))
    · rintro (h | h)
      · exact ⟨fun _ => h, fun _ => lt_trans h (by norm_num)⟩
      · exact ⟨fun h1 => absurd h1 (not_lt.2 h),
          fun h5 => absurd (lt_trans h5 (by norm_num)) (not_lt.2 h)⟩

/-- C21 amended, at the sample data. -/
theorem served_threshold_of_each_variant_witness :
    ∃ (outA outD : BairroRec ℝ) (d : ℝ),
      (bairrosComCalculoIba sampleIbas [sampleBairro] [samplePoint] 10)[0]? = some outA ∧
      (bairrosComCalculoIbaDeepSeek sampleIbas [sampleBairro] [samplePoint] 10)[0]? =
        some outD ∧
      outA.Distancia_Min_IBA_km = JSVal.number (JSNum.num d) ∧
      outD.Distancia_Min_IBA_km = JSVal.number (JSNum.num d) ∧
      outA.Possui_IBA = JSVal.bool (decide (d < 1)) ∧
      outD.Possui_IBA = JSVal.bool (decide (d < 0.5)) ∧
      (outA.Possui_IBA = outD.Possui_IBA ↔ (d < 0.5 ∨ 1 ≤ d)) :=
  served_threshold_of_each_variant sampleIbas [sampleBairro] [samplePoint] 10 0 sampleBairro
    samplePoint (List.cons_ne_nil _ _) rfl rfl

/-! ## Idempotence of the normaliser -/

set_option maxRecDepth 100000 in
theorem strip_nfd_lower_stable_latin : ∀ n < 256,
    ∀ d ∈ stripMarks (nfdChar (toLowerChar (Char.ofNat n))),
      stripMarks (nfdChar (toLowerChar d)) = [d] := by
  decide

/-- A character that the first three steps of `norm` produce is left as it is
by them. -/
theorem strip_nfd_lower_stable (c d : Char)
    (hd : d ∈ stripMarks (nfdChar (toLowerChar c))) :
    stripMarks (nfdChar (toLowerChar d)) = [d] := by
  by_cases hn : c.toNat < 256
  · have := strip_nfd_lower_stable_latin c.toNat hn d
    rw [Char.ofNat_toNat] at this
    exact this hd
  · have hl : toLowerChar c = c := by
      unfold toLowerChar
      rw [if_neg]
      simp only [Bool.or_eq_true, Bool.and_eq_true, decide_eq_true_eq, bne_iff_ne, ne_eq,
        not_or, not_and, not_le, not_not]
      omega
    have hdec : nfdChar c = [c] := by
      unfold nfdChar
      rw [nfdTable_lookup_none c.toNat (by omega)]
    rw [hl, hdec] at hd
    simp only [stripMarks, List.mem_filter, List.mem_singleton, Bool.not_eq_true',
      ] at hd
    obtain ⟨rfl, hm⟩ := hd
    simp [hl, hdec, stripMarks, hm]

theorem strip_nfd_lower_mem (s : List Char) (d : Char)
    (hd : d ∈ stripMarks (decompose (toLowerCase s))) :
    ∃ c ∈ s, d ∈ stripMarks (nfdChar (toLowerChar c)) := by
  induction s with
  | nil => simp [stripMarks, decompose, toLowerCase] at hd
  | cons c cs ih =>
    rw [strip_nfd_lower_cons] at hd
    rcases List.mem_append.1 hd with h | h
    · exact ⟨c, List.mem_cons_self _ _, h⟩
    · obtain ⟨c', hc', h'⟩ := ih h
      exact ⟨c', List.mem_cons_of_mem _ hc', h'⟩

theorem strip_nfd_lower_fixed (l : List Char)
    (h : ∀ d ∈ l, stripMarks (nfdChar (toLowerChar d)) = [d]) :
    stripMarks (decompose (toLowerCase l)) = l := by
  induction l with
  | nil => rfl
  | cons c cs ih =>
    rw [strip_nfd_lower_cons, h c (List.mem_cons_self _ _),
      ih (fun d hd => h d (List.mem_cons_of_mem _ hd))]
    rfl

theorem collapseFrom_space_only (b : Bool) (l : List Char) (c : Char)
    (hc : c ∈ collapseFrom b l) (hw : isWhiteSpace c = true) : c = ' ' := by
  induction l generalizing b with
  | nil => simp [collapseFrom] at hc
  | cons x xs ih =>
    unfold collapseFrom at hc
    split_ifs at hc with h1 h2
    · exact ih _ hc
    · rcases List.mem_cons.1 hc with h3 | h3
      · exact h3
      · exact ih _ h3
    · rcases List.mem_cons.1 hc with h3 | h3
      · rw [h3] at hw
        exact absurd hw h1
      · exact ih _ h3

/-- Collapsing leaves a list as it is when its white space is single spaces. -/
theorem collapseFrom_fixed (b : Bool) (l : List Char)
    (hsp : ∀ c ∈ l, isWhiteSpace c = true → c = ' ')
    (hch : List.Chain' (fun x y => ¬ (isWhiteSpace x = true ∧ isWhiteSpace y = true)) l)
    (hb : b = true → ∀ c, l.head? = some c → isWhiteSpace c = false) :
    collapseFrom b l = l := by
  induction l generalizing b with
  | nil => rfl
  | cons x xs ih =>
    rw [List.chain'_cons'] at hch
    have hsp' : ∀ c ∈ xs, isWhiteSpace c = true → c = ' ' :=
      fun c hc => hsp c (List.mem_cons_of_mem _ hc)
    unfold collapseFrom
    by_cases hx : isWhiteSpace x = true
    · have hbf : b = false := by
        cases b with
        | false => rfl
        | true =>
          have := hb rfl x rfl
          rw [hx] at this
          exact absurd this (by decide)
      subst hbf
      have hxs : x = ' ' := hsp x (List.mem_cons_self _ _) hx
      rw [if_pos hx, if_neg (by decide)]
      rw [ih true hsp' hch.2 (fun _ c hc => by
        by_contra hcw
        exact hch.1 c hc ⟨hx, by simpa using hcw⟩), hxs]
    · rw [if_neg hx, ih false hsp' hch.2 (fun h => absurd h (by decide))]

theorem dropWhile_of_head (p : Char → Bool) (l : List Char)
    (h : ∀ c, l.head? = some c → p c = false) : l.dropWhile p = l := by
  cases l with
  | nil => rfl
  | cons x xs =>
    have := h x rfl
    simp [List.dropWhile_cons, this]

/-- Trimming leaves a list as it is when it neither starts nor ends with white
space. -/
theorem trim_fixed (l : List Char) (hh : ∀ c, l.head? = some c → isWhiteSpace c = false)
    (hl : ∀ c, l.getLast? = some c → isWhiteSpace c = false) : trim l = l := by
  unfold trim
  rw [dropWhile_of_head _ l hh,
    dropWhile_of_head _ l.reverse (by rw [List.head?_reverse]; exact hl), List.reverse_reverse]

/-- The last two steps of `norm` leave their own result as it is. -/
theorem trim_collapse_idem (l : List Char) :
    trim (collapseWhiteSpace (trim (collapseWhiteSpace l))) = trim (collapseWhiteSpace l) := by
  have hsub := (trim_contiguous (collapseWhiteSpace l)).subset
  have hfix : collapseWhiteSpace (trim (collapseWhiteSpace l)) = trim (collapseWhiteSpace l) := by
    unfold collapseWhiteSpace
    apply collapseFrom_fixed
    · intro c hc hw
      exact collapseFrom_space_only false l c (hsub hc) hw
    · exact List.Chain'.infix (collapseFrom_chain false l).1 (trim_contiguous _)
    · intro h
      exact absurd h (by decide)
  rw [hfix]
  exact trim_fixed _ (trim_head? _) (trim_getLast? _)

/-- A character that the first three steps of `norm` make of a character of
the range is in the range. -/
theorem strip_nfd_lower_range (c d : Char) (hc : inLatinRange c = true)
    (hd : d ∈ stripMarks (nfdChar (toLowerChar c))) : inLatinRange d = true := by
  simp only [stripMarks, List.mem_filter] at hd
  exact (nfd_lower_range c d hc hd.1).1

/-- C27, as stated, fails on the label `a` + U+094D + U+034F + U+093C: `norm`
deletes the combining mark U+034F that kept the two signs in their order, and
`norm` of the result puts U+093C (class 7) before U+094D (class 9). -/
theorem norm_not_idempotent :
    norm (some viramaNuktaLabel) = viramaNuktaKey ∧
      norm (some (norm (some viramaNuktaLabel))) =
        String.mk ['a', Char.ofNat 0x93C, Char.ofNat 0x94D] ∧
      norm (some (norm (some viramaNuktaLabel))) ≠ norm (some viramaNuktaLabel) := by
  decide

/-- C27, amended. On a label made of characters of U+0000..U+00FF, of
combining marks of U+0300..U+036F and of white space, `norm` is idempotent:
`norm(norm(s)) = norm(s)`, and the canonical key is again made of such
characters; `norm` of a missing label is a fixed point too. -/
theorem norm_idempotent (s : String) (hs : ∀ c ∈ s.data, inLatinRange c = true) :
    norm (some (norm (some s))) = norm (some s) ∧
      (∀ c ∈ (norm (some s)).data, inLatinRange c = true) ∧
      norm (some (norm none)) = norm none := by
  have hkey : ∀ d ∈ trim (collapseWhiteSpace (stripMarks (decompose (toLowerCase s.data)))),
      inLatinRange d = true ∧ stripMarks (nfdChar (toLowerChar d)) = [d] := by
    intro d hd
    rcases collapseFrom_mem _ _ d ((trim_contiguous _).subset hd) with h | h
    · rw [h]
      exact ⟨by decide, strip_nfd_lower_space ' ' (by decide)⟩
    · obtain ⟨c, hc, hcd⟩ := strip_nfd_lower_mem s.data d h
      exact ⟨strip_nfd_lower_range c d (hs c hc) hcd, strip_nfd_lower_stable c d hcd⟩
  have hdata : (norm (some s)).data =
      trim (collapseWhiteSpace (stripMarks (decompose (toLowerCase s.data)))) := by
    rw [norm_some_data, strip_normalizeNFD_lower _ hs]
  refine ⟨?_, ?_, rfl⟩
  · apply String.ext
    rw [norm_some_data, hdata, strip_normalizeNFD_lower _ (fun d hd => (hkey d hd).1),
      strip_nfd_lower_fixed _ (fun d hd => (hkey d hd).2), trim_collapse_idem]
  · rw [hdata]
    exact fun d hd => (hkey d hd).1

/-- C27, amended, at the label `São  Cristóvão `: its canonical key
`sao cristovao` is a fixed point of `norm`. -/
theorem norm_idempotent_witness :
    (∀ c ∈ "São  Cristóvão ".data, inLatinRange c = true) ∧
      norm (some "São  Cristóvão ") = "sao cristovao" ∧
      (norm (some (norm (some "São  Cristóvão "))) = norm (some "São  Cristóvão ") ∧
        (∀ c ∈ (norm (some "São  Cristóvão ")).data, inLatinRange c = true) ∧
        norm (some (norm none)) = norm none) :=
  ⟨by decide, by decide, norm_idempotent "São  Cristóvão " (by decide)⟩

/-! ## The style of a boundary whose name is empty -/

/-- With an empty canonical name of the feature, the lookup of `geoJsonStyle`
stops at the first row. -/
theorem geoJsonStyleBairro_empty_name (first : CsvBairro) (rest : List CsvBairro)
    (nome : Option String) (hname : norm nome = "") :
    geoJsonStyleBairro (first :: rest) nome = some first := by
  have hdata : (norm nome).data = [] := by rw [hname]
  simp only [geoJsonStyleBairro, hdata, includes_nil, Bool.or_true, Bool.true_or,
    List.find?_cons_of_pos]

/-- C30. In `geoJsonStyle` of `App copy 3.jsx`, a feature whose name is missing
or has the empty canonical name is matched to the first row of a non-empty area
table, because the empty string is included in every canonical name: the
lookup gives that row, and the style is the one of that row's population, not
the one of a feature without a row. -/
theorem empty_name_matches_first_row {β : Type} (bairros : List CsvBairro)
    (first : CsvBairro) (rest : List CsvBairro) (feature : Feature β)
    (hlist : bairros = first :: rest) (hname : norm (getFeatName feature) = "") :
    geoJsonStyleBairro bairros (getFeatName feature) = some first ∧
      bairros.head? = some first ∧
      geoJsonStyleCopy3 bairros feature =
        { fillColor := getPopulationColor first.Populacao, weight := 2, opacity := 1,
          color := "#1e40af", fillOpacity := 0.7, dashArray := "3" } := by
  subst hlist
  have h := geoJsonStyleBairro_empty_name first rest (getFeatName feature) hname
  refine ⟨h, rfl, ?_⟩
  simp only [geoJsonStyleCopy3, h]
  rfl

/-- C30 at the table `Barra da Tijuca`, `Tijuca` and a feature without a name:
the feature is matched to `Barra da Tijuca` and filled with the colour of a
population above 50000, where a feature without a row is filled `#e5e7eb`. -/
theorem empty_name_matches_first_row_witness :
    (tijucaRows =
        { Bairro := "Barra da Tijuca", RA := some "XXIV", Populacao := some "135924" } ::
          [{ Bairro := "Tijuca", RA := some "VIII", Populacao := some "163805" }] ∧
      norm (getFeatName namelessFeature) = "") ∧
      getPopulationColor (some "135924") = "#3b82f6" ∧
      getPopulationColor none = "#e5e7eb" ∧
      geoJsonStyleBairro tijucaRows (getFeatName namelessFeature) =
        some { Bairro := "Barra da Tijuca", RA := some "XXIV", Populacao := some "135924" } ∧
      tijucaRows.head? =
        some { Bairro := "Barra da Tijuca", RA := some "XXIV", Populacao := some "135924" } ∧
      geoJsonStyleCopy3 tijucaRows namelessFeature =
        { fillColor :=
            getPopulationColor
              (CsvBairro.Populacao
                { Bairro := "Barra da Tijuca", RA := some "XXIV", Populacao := some "135924" }),
          weight := 2, opacity := 1, color := "#1e40af", fillOpacity := 0.7,
          dashArray := "3" } :=
  ⟨⟨rfl, rfl⟩, by decide, by decide,
    empty_name_matches_first_row tijucaRows
      { Bairro := "Barra da Tijuca", RA := some "XXIV", Populacao := some "135924" }
      [{ Bairro := "Tijuca", RA := some "VIII", Populacao := some "163805" }]
      namelessFeature rfl rfl⟩

/-! ## The population hooks after the load -/

/-- The value of `Math.max(...)` on a non-empty array is one of its entries and
at least every entry. -/
theorem foldl_max_spec {α : Type} [LinearOrder α] (ps : List α) (p : α) :
    ps.foldl max p ∈ p :: ps ∧ ∀ x ∈ p :: ps, x ≤ ps.foldl max p := by
  induction ps generalizing p with
  | nil => simp
  | cons q qs ih =>
    obtain ⟨hmem, hub⟩ := ih (max p q)
    rw [List.foldl_cons]
    constructor
    · rcases List.mem_cons.1 hmem with h | h
      · rw [h]
        rcases max_choice p q with hc | hc
        · rw [hc]
          exact List.mem_cons_self _ _
        · rw [hc]
          exact List.mem_cons_of_mem _ (List.mem_cons_self _ _)
      · exact List.mem_cons_of_mem _ (List.mem_cons_of_mem _ h)
    · intro x hx
      rcases List.mem_cons.1 hx with h | h
      · rw [h]
        exact le_trans (le_max_left p q) (hub _ (List.mem_cons_self _ _))
      · rcases List.mem_cons.1 h with h | h
        · rw [h]
          exact le_trans (le_max_right p q) (hub _ (List.mem_cons_self _ _))
        · exact hub _ (List.mem_cons_of_mem _ h)

/-- The entries of `populations` are the populations of the loaded areas that
are numbers. -/
theorem mem_populations {α : Type} [LinearOrderedField α] (processed : List (BairroRec α))
    (x : α) : x ∈ populations processed ↔ ∃ b ∈ processed, b.Populacao = JSNum.num x := by
  simp only [populations, List.mem_filterMap]
  constructor
  · rintro ⟨b, hb, h⟩
    refine ⟨b, hb, ?_⟩
    cases hp : b.Populacao with
    | num y =>
      rw [hp] at h
      simp only [Option.some.injEq] at h
      rw [h]
    | infinity =>
      rw [hp] at h
      simp at h
    | nan =>
      rw [hp] at h
      simp at h
  · rintro ⟨b, hb, h⟩
    exact ⟨b, hb, by rw [h]⟩

/-- The callback of the loader when no population is a number. -/
theorem onBairrosLoaded_nil {α : Type} [LinearOrderedField α] (hooks : PopulationRange α)
    (rows : List CsvRow)
    (h : populations (processedBairros rows : List (BairroRec α)) = []) :
    onBairrosLoaded hooks rows = (processedBairros rows, hooks) := by
  simp only [onBairrosLoaded, h]

/-- The callback of the loader when some population is a number. -/
theorem onBairrosLoaded_cons {α : Type} [LinearOrderedField α] (hooks : PopulationRange α)
    (rows : List CsvRow) (p : α) (ps : List α)
    (h : populations (processedBairros rows : List (BairroRec α)) = p :: ps) :
    onBairrosLoaded hooks rows =
      (processedBairros rows,
        { minPopulation := ps.foldl min p, maxPopulation := ps.foldl max p,
          populationFilter := ps.foldl max p / 2 }) := by
  simp only [onBairrosLoaded, h]

/-- C24, as stated, fails on a table whose only area has the population text
`n/d`: the table is not empty and one area is loaded, its population is `NaN`,
and `populationFilter` keeps the value 10000 it had, which is not half of 0 and
not half of the population of any loaded area. -/
theorem population_floor_kept_without_numbers :
    (onBairrosLoaded initialHooks unparsableRows).1 =
        [{ Bairro := "Centro", RA := some "II", Populacao := JSNum.nan,
           Possui_IBA := JSVal.undefined, Distancia_Min_IBA_km := JSVal.undefined,
           IBA_Mais_Proxima := JSVal.undefined, Dentro_raio_IBA := JSVal.undefined }] ∧
      (onBairrosLoaded initialHooks unparsableRows).2.populationFilter = 10000 ∧
      (onBairrosLoaded initialHooks unparsableRows).2.populationFilter ≠ 0 / 2 ∧
      ¬ ∃ M : ℚ,
        (∃ b ∈ (onBairrosLoaded initialHooks unparsableRows).1, b.Populacao = JSNum.num M) ∧
          (onBairrosLoaded initialHooks unparsableRows).2.populationFilter = M / 2 := by
  have h1 : (onBairrosLoaded initialHooks unparsableRows).1 =
      [{ Bairro := "Centro", RA := some "II", Populacao := JSNum.nan,
         Possui_IBA := JSVal.undefined, Distancia_Min_IBA_km := JSVal.undefined,
         IBA_Mais_Proxima := JSVal.undefined, Dentro_raio_IBA := JSVal.undefined }] := by
    decide
  have h2 : (onBairrosLoaded initialHooks unparsableRows).2.populationFilter = 10000 := by
    decide
  refine ⟨h1, h2, ?_, ?_⟩
  · rw [h2]
    norm_num
  · rintro ⟨M, ⟨b, hb, hM⟩, -⟩
    rw [h1, List.mem_singleton] at hb
    rw [hb] at hM
    exact JSNum.noConfusion hM

/-- C24, amended. The loader gives `setBairros` the rows that have a name, with
the population 0 where the column is missing, empty or `nan`. When at least
one loaded area has a population that is a number, `maxPopulation` is set to
the greatest of these numbers and `populationFilter` to exactly half of it;
when none has, the three hooks keep the values they had. -/
theorem population_floor_after_load {α : Type} [LinearOrderedField α]
    (hooks : PopulationRange α) (rows : List CsvRow) :
    (onBairrosLoaded hooks rows).1 = processedBairros rows ∧
      (∀ (row : CsvRow) (b : BairroRec α), processRow row = some b →
        (row.Populacao = none ∨ row.Populacao = some "" ∨ row.Populacao = some "nan") →
        b.Populacao = JSNum.num 0) ∧
      ((∀ b ∈ (processedBairros rows : List (BairroRec α)), ∀ x : α,
          b.Populacao ≠ JSNum.num x) →
        (onBairrosLoaded hooks rows).2 = hooks) ∧
      ((∃ b ∈ (processedBairros rows : List (BairroRec α)), ∃ x : α,
          b.Populacao = JSNum.num x) →
        ∃ M : α,
          (∃ b ∈ (processedBairros rows : List (BairroRec α)), b.Populacao = JSNum.num M) ∧
          (∀ b ∈ (processedBairros rows : List (BairroRec α)), ∀ x : α,
            b.Populacao = JSNum.num x → x ≤ M) ∧
          (onBairrosLoaded hooks rows).2.maxPopulation = M ∧
          (onBairrosLoaded hooks rows).2.populationFilter = M / 2) := by
  refine ⟨?_, ?_, ?_, ?_⟩
  · cases hps : populations (processedBairros rows : List (BairroRec α)) with
    | nil => rw [onBairrosLoaded_nil hooks rows hps]
    | cons p ps => rw [onBairrosLoaded_cons hooks rows p ps hps]
  · intro row b hrow hpop
    unfold processRow at hrow
    cases hB : row.Bairro with
    | none =>
      rw [hB] at hrow
      simp at hrow
    | some name =>
      rw [hB] at hrow
      by_cases hname : name = ""
      · simp [hname] at hrow
      · simp only [hname, if_false, Option.some.injEq] at hrow
        rw [← hrow]
        rcases hpop with h | h | h <;> rw [h] <;> simp
  · intro hnone
    have hnil : populations (processedBairros rows : List (BairroRec α)) = [] := by
      rw [List.eq_nil_iff_forall_not_mem]
      intro x hx
      obtain ⟨b, hb, hbx⟩ := (mem_populations _ x).1 hx
      exact hnone b hb x hbx
    rw [onBairrosLoaded_nil hooks rows hnil]
  · rintro ⟨b, hb, x, hbx⟩
    have hx : x ∈ populations (processedBairros rows : List (BairroRec α)) :=
      (mem_populations _ x).2 ⟨b, hb, hbx⟩
    cases hps : populations (processedBairros rows : List (BairroRec α)) with
    | nil =>
      rw [hps] at hx
      simp at hx
    | cons p ps =>
      obtain ⟨hmem, hub⟩ := foldl_max_spec ps p
      rw [← hps] at hmem hub
      refine ⟨ps.foldl max p, (mem_populations _ _).1 hmem, ?_, ?_, ?_⟩
      · intro c hc y hcy
        exact hub y ((mem_populations _ y).2 ⟨c, hc, hcy⟩)
      · rw [onBairrosLoaded_cons hooks rows p ps hps]
      · rw [onBairrosLoaded_cons hooks rows p ps hps]

/-- The loader on the table of four rows: three areas are loaded, with the
populations 26510, 41142 and 0, and the hooks become 0, 41142 and 20571. -/
theorem sampleRows_loaded :
    populations (processedBairros sampleRows : List (BairroRec ℚ)) = [26510, 41142, 0] ∧
      (onBairrosLoaded initialHooks sampleRows).2 =
        { minPopulation := 0, maxPopulation := 41142, populationFilter := 20571 } := by
  have hp : populations (processedBairros sampleRows : List (BairroRec ℚ)) =
      [26510, 41142, 0] := by decide
  have hmin : List.foldl min (26510 : ℚ) [41142, 0] = 0 := by decide
  have hmax : List.foldl max (26510 : ℚ) [41142, 0] = 41142 := by decide
  refine ⟨hp, ?_⟩
  rw [onBairrosLoaded_cons initialHooks sampleRows _ _ hp, hmin, hmax]
  norm_num

/-- C24, amended, at a table of four rows with the populations 26510, 41142 and
`nan` and an empty last row: three areas are loaded, one of them `Centro` with
the population 41142, and `populationFilter` becomes 20571, half of 41142. -/
theorem population_floor_after_load_witness :
    (onBairrosLoaded initialHooks sampleRows).2 =
        { minPopulation := 0, maxPopulation := 41142, populationFilter := 20571 } ∧
      ((onBairrosLoaded initialHooks sampleRows).1 = processedBairros sampleRows ∧
        (∀ (row : CsvRow) (b : BairroRec ℚ), processRow row = some b →
          (row.Populacao = none ∨ row.Populacao = some "" ∨ row.Populacao = some "nan") →
          b.Populacao = JSNum.num 0) ∧
        ((∀ b ∈ (processedBairros sampleRows : List (BairroRec ℚ)), ∀ x : ℚ,
            b.Populacao ≠ JSNum.num x) →
          (onBairrosLoaded initialHooks sampleRows).2 = initialHooks) ∧
        ((∃ b ∈ (processedBairros sampleRows : List (BairroRec ℚ)), ∃ x : ℚ,
            b.Populacao = JSNum.num x) →
          ∃ M : ℚ,
            (∃ b ∈ (processedBairros sampleRows : List (BairroRec ℚ)),
              b.Populacao = JSNum.num M) ∧
            (∀ b ∈ (processedBairros sampleRows : List (BairroRec ℚ)), ∀ x : ℚ,
              b.Populacao = JSNum.num x → x ≤ M) ∧
            (onBairrosLoaded initialHooks sampleRows).2.maxPopulation = M ∧
            (onBairrosLoaded initialHooks sampleRows).2.populationFilter = M / 2)) :=
  ⟨sampleRows_loaded.2, population_floor_after_load initialHooks sampleRows⟩

/-! ## The report of the areas outside the radius -/

/-- On two populations that are numbers, the comparator of the report leaves
`a` before `b` when the population of `a` is at least the one of `b`. -/
theorem populacaoDescending_num {α : Type} [LinearOrderedField α] (a b : BairroRec α) (x y : α)
    (ha : a.Populacao = JSNum.num x) (hb : b.Populacao = JSNum.num y) :
    populacaoDescending a b = true ↔ y ≤ x := by
  simp only [populacaoDescending, ha, hb, decide_eq_true_eq]

/-- Inserting an area into a sorted array of areas keeps it sorted, when all
the populations are numbers. -/
theorem orderedInsert_populacao_sorted {α : Type} [LinearOrderedField α] (a : BairroRec α)
    (l : List (BairroRec α)) (ha : ∃ x, a.Populacao = JSNum.num x)
    (hl : ∀ b ∈ l, ∃ x, b.Populacao = JSNum.num x)
    (hs : l.Sorted fun a b => populacaoDescending a b = true) :
    (l.orderedInsert (fun a b => populacaoDescending a b = true) a).Sorted
      fun a b => populacaoDescending a b = true := by
  obtain ⟨x, hx⟩ := ha
  induction l with
  | nil => exact List.sorted_singleton a
  | cons b l ih =>
    obtain ⟨y, hy⟩ := hl b (List.mem_cons_self _ _)
    have hl' : ∀ c ∈ l, ∃ z, c.Populacao = JSNum.num z := fun c hc =>
      hl c (List.mem_cons_of_mem _ hc)
    rw [List.sorted_cons] at hs
    rw [List.orderedInsert]
    by_cases hab : populacaoDescending a b = true
    · rw [if_pos hab, List.sorted_cons]
      refine ⟨?_, List.sorted_cons.2 hs⟩
      intro c hc
      rcases List.mem_cons.1 hc with h | h
      · rw [h]
        exact hab
      · obtain ⟨z, hz⟩ := hl' c h
        have h1 := (populacaoDescending_num a b x y hx hy).1 hab
        have h2 := (populacaoDescending_num b c y z hy hz).1 (hs.1 c h)
        exact (populacaoDescending_num a c x z hx hz).2 (le_trans h2 h1)
    · rw [if_neg hab, List.sorted_cons]
      refine ⟨?_, ih hl' hs.2⟩
      intro c hc
      rcases (List.mem_orderedInsert _).1 hc with h | h
      · rw [h]
        have h1 : ¬ y ≤ x := fun h => hab ((populacaoDescending_num a b x y hx hy).2 h)
        exact (populacaoDescending_num b a y x hy hx).2 (le_of_lt (not_le.1 h1))
      · exact hs.1 c h

/-- The array that `sort` leaves is sorted by the comparator of the report,
when all the populations are numbers. -/
theorem insertionSort_populacao_sorted {α : Type} [LinearOrderedField α]
    (l : List (BairroRec α)) (hl : ∀ b ∈ l, ∃ x, b.Populacao = JSNum.num x) :
    (l.insertionSort fun a b => populacaoDescending a b = true).Sorted
      fun a b => populacaoDescending a b = true := by
  induction l with
  | nil => exact List.sorted_nil
  | cons a l ih =>
    rw [List.insertionSort]
    have hl' : ∀ b ∈ l, ∃ x, b.Populacao = JSNum.num x := fun b hb =>
      hl b (List.mem_cons_of_mem _ hb)
    exact orderedInsert_populacao_sorted a _ (hl a (List.mem_cons_self _ _))
      (fun b hb => hl' b ((List.mem_insertionSort _).1 hb)) (ih hl')


/-- The expression of the report allocates a new array and sorts that one:
every array of the heap before it, the classified areas and `filteredBairros`
among them, is afterwards at its address with the same elements in the same
order, and the address of the report is a new one. The report is a
permutation of the classified areas whose `Dentro_raio_IBA` is falsy, and when
the populations in it are numbers, it is in non-increasing order of
population. -/
theorem outside_radius_report_spec {α : Type} [LinearOrderedField α] (store : ArrayStore α)
    (classified : Nat) (bairrosComCalculoIba : List (BairroRec α))
    (hclassified : store[classified]? = some bairrosComCalculoIba) :
    (∀ (i : Nat) (arr : List (BairroRec α)), store[i]? = some arr →
        (outsideRadiusReport store classified).1[i]? = some arr) ∧
      store[(outsideRadiusReport store classified).2]? = none ∧
      ∃ report : List (BairroRec α),
        (outsideRadiusReport store classified).1[(outsideRadiusReport store classified).2]? =
            some report ∧
          report.Perm (bairrosComCalculoIba.filter fun b => !b.Dentro_raio_IBA.truthy) ∧
          ((∀ b ∈ report, ∃ x, b.Populacao = JSNum.num x) →
            report.Sorted fun a b => JSNum.ge a.Populacao b.Populacao = true) := by
  have hget : store.getD classified [] = bairrosComCalculoIba := by
    rw [List.getD_eq_getElem?_getD, hclassified]
    rfl
  have hnew : (store ++ [bairrosComCalculoIba.filter fun b => !b.Dentro_raio_IBA.truthy]).getD
      store.length [] = bairrosComCalculoIba.filter fun b => !b.Dentro_raio_IBA.truthy := by
    rw [List.getD_eq_getElem?_getD, List.getElem?_append_right (le_refl _)]
    simp
  refine ⟨?_, ?_, ?_⟩
  · intro i arr hi
    have hlt : i < store.length := by
      by_contra h
      rw [List.getElem?_eq_none (not_lt.1 h)] at hi
      exact Option.noConfusion hi
    simp only [outsideRadiusReport, ArrayStore.filter, ArrayStore.sort]
    rw [List.getElem?_set_ne (Nat.ne_of_gt hlt), List.getElem?_append_left hlt, hi]
  · simp only [outsideRadiusReport, ArrayStore.filter]
    exact List.getElem?_eq_none (le_refl _)
  · refine ⟨(bairrosComCalculoIba.filter fun b => !b.Dentro_raio_IBA.truthy).insertionSort
      fun a b => populacaoDescending a b = true, ?_, List.perm_insertionSort _ _, ?_⟩
    · simp only [outsideRadiusReport, ArrayStore.filter, ArrayStore.sort]
      rw [hget, hnew, List.getElem?_set_self (by simp)]
    · intro hnum
      have hnum' : ∀ b ∈ bairrosComCalculoIba.filter fun b => !b.Dentro_raio_IBA.truthy,
          ∃ x, b.Populacao = JSNum.num x := fun b hb =>
        hnum b ((List.mem_insertionSort _).2 hb)
      refine List.Pairwise.imp_of_mem ?_ (insertionSort_populacao_sorted _ hnum')
      intro a b ha hb hab
      obtain ⟨x, hx⟩ := hnum a ha
      obtain ⟨y, hy⟩ := hnum b hb
      rw [hx, hy]
      simp only [JSNum.ge, JSNum.le, decide_eq_true_eq]
      exact (populacaoDescending_num a b x y hx hy).1 hab

/-- The report at a heap with the classified areas `Paquetá` (3361), `São Cristóvão`
(inside the radius) and `Centro` (41142) at address 0 and the filtered areas
at address 1: the report `Centro`, `Paquetá` is a new array at address 2, and
the arrays at the addresses 0 and 1 are as they were. -/
theorem outside_radius_report_spec_witness :
    sampleStore[0]? = some [paquetaOutside, saoCristovao, centroOutside] ∧
      outsideRadiusReport sampleStore 0 =
        ([[paquetaOutside, saoCristovao, centroOutside], [paquetaOutside, centroOutside],
          [centroOutside, paquetaOutside]], 2) ∧
      ((∀ (i : Nat) (arr : List (BairroRec ℚ)), sampleStore[i]? = some arr →
          (outsideRadiusReport sampleStore 0).1[i]? = some arr) ∧
        sampleStore[(outsideRadiusReport sampleStore 0).2]? = none ∧
        ∃ report : List (BairroRec ℚ),
          (outsideRadiusReport sampleStore 0).1[(outsideRadiusReport sampleStore 0).2]? =
              some report ∧
            report.Perm
              ([paquetaOutside, saoCristovao, centroOutside].filter fun b =>
                !b.Dentro_raio_IBA.truthy) ∧
            ((∀ b ∈ report, ∃ x, b.Populacao = JSNum.num x) →
              report.Sorted fun a b => JSNum.ge a.Populacao b.Populacao = true)) :=
  ⟨rfl, by decide,
    outside_radius_report_spec sampleStore 0 [paquetaOutside, saoCristovao, centroOutside] rfl⟩

/-! ## Rounding to double precision -/

/-- The nearest integer of a number that is less than a half away from an
integer. -/
theorem roundHalfEven_eq (x : ℚ) (n : ℤ) (h : |x - n| < 1 / 2) : roundHalfEven x = n := by
  have h1 := abs_lt.1 h
  have hf1 : ((⌊x⌋ : ℤ) : ℚ) ≤ x := Int.floor_le x
  have hf2 : x < (⌊x⌋ : ℤ) + 1 := Int.lt_floor_add_one x
  unfold roundHalfEven
  simp only
  split_ifs with ha hb hc
  · have h3 : ((⌊x⌋ : ℤ) : ℚ) < n + 1 := by linarith [h1.2]
    have h4 : (n : ℚ) - 1 < (⌊x⌋ : ℤ) := by linarith [h1.1]
    have h3' : ⌊x⌋ < n + 1 := by exact_mod_cast h3
    have h4' : n - 1 < ⌊x⌋ := by exact_mod_cast h4
    omega
  · have h3 : ((⌊x⌋ : ℤ) : ℚ) < n := by linarith [h1.2]
    have h4 : (n : ℚ) - 2 < (⌊x⌋ : ℤ) := by linarith [h1.1]
    have h3' : ⌊x⌋ < n := by exact_mod_cast h3
    have h4' : n - 2 < ⌊x⌋ := by exact_mod_cast h4
    omega
  · exfalso
    have hr : x - (⌊x⌋ : ℤ) = 1 / 2 := le_antisymm (not_lt.1 hb) (not_lt.1 ha)
    have h3 : ((⌊x⌋ : ℤ) : ℚ) < n := by linarith [h1.2]
    have h4 : (n : ℚ) - 1 < (⌊x⌋ : ℤ) := by linarith [h1.1]
    have h3' : ⌊x⌋ < n := by exact_mod_cast h3
    have h4' : n - 1 < ⌊x⌋ := by exact_mod_cast h4
    omega
  · exfalso
    have hr : x - (⌊x⌋ : ℤ) = 1 / 2 := le_antisymm (not_lt.1 hb) (not_lt.1 ha)
    have h3 : ((⌊x⌋ : ℤ) : ℚ) < n := by linarith [h1.2]
    have h4 : (n : ℚ) - 1 < (⌊x⌋ : ℤ) := by linarith [h1.1]
    have h3' : ⌊x⌋ < n := by exact_mod_cast h3
    have h4' : n - 1 < ⌊x⌋ := by exact_mod_cast h4
    omega

/-- The binary exponent of a positive number between two powers of two. -/
theorem log_two_eq (x : ℚ) (e : ℤ) (hlo : (2 : ℚ) ^ e ≤ x) (hhi : x < (2 : ℚ) ^ (e + 1)) :
    Int.log 2 x = e := by
  have hpos : 0 < x := lt_of_lt_of_le (by positivity) hlo
  have h1 : e ≤ Int.log 2 x := (Int.zpow_le_iff_le_log (by norm_num) hpos).1 (by exact_mod_cast hlo)
  have h2 : Int.log 2 x < e + 1 :=
    (Int.lt_zpow_iff_log_lt (by norm_num) hpos).1 (by exact_mod_cast hhi)
  omega

/-- The Number of an exact result `x` between `2 ^ e` and `2 ^ (e + 1)` that is
less than half a unit in the last place away from `n * 2 ^ (e - 52)`. -/
theorem roundDouble_eq (x : ℚ) (e n : ℤ) (he : -1022 ≤ e) (hlo : (2 : ℚ) ^ e ≤ |x|)
    (hhi : |x| < (2 : ℚ) ^ (e + 1)) (hn : |x / (2 : ℚ) ^ (e - 52) - n| < 1 / 2) :
    roundDouble x = n * (2 : ℚ) ^ (e - 52) := by
  have hx : x ≠ 0 := by
    intro h0
    rw [h0, abs_zero] at hlo
    exact absurd hlo (not_le.2 (by positivity))
  unfold roundDouble
  rw [if_neg hx]
  simp only
  rw [log_two_eq |x| e hlo hhi, max_eq_left he, roundHalfEven_eq _ n hn]

/-! ## The example in double precision -/

/-- The quotient `Math.PI/180` is the Number `0.017453292519943295`. -/
theorem round_pi_div : roundDouble (mathPI / 180) = (5030569068109113 / 288230376151711744) := by
  rw [mathPI, roundDouble_eq _ (-6) (5030569068109113) (by norm_num)
    (by rw [abs_of_pos (by norm_num)]; norm_num)
    (by rw [abs_of_pos (by norm_num)]; norm_num)
    (abs_lt.2 ⟨by norm_num, by norm_num⟩)]
  norm_num

/-- The product `175 * (Math.PI/180)` is the Number `3.0543261909900767`. -/
theorem round_dLat :
    roundDouble (175 * (5030569068109113 / 288230376151711744)) =
      (1719432786951357 / 562949953421312) := by
  rw [roundDouble_eq _ (1) (6877731147805428) (by norm_num)
    (by rw [abs_of_pos (by norm_num)]; norm_num)
    (by rw [abs_of_pos (by norm_num)]; norm_num)
    (abs_lt.2 ⟨by norm_num, by norm_num⟩)]
  norm_num

/-- The product `180 * (Math.PI/180)` is the Number `3.141592653589793`. -/
theorem round_dLon :
    roundDouble (180 * (5030569068109113 / 288230376151711744)) =
      (884279719003555 / 281474976710656) := by
  rw [roundDouble_eq _ (1) (7074237752028440) (by norm_num)
    (by rw [abs_of_pos (by norm_num)]; norm_num)
    (by rw [abs_of_pos (by norm_num)]; norm_num)
    (abs_lt.2 ⟨by norm_num, by norm_num⟩)]
  norm_num

/-- The product `87.5 * (Math.PI/180)` is the Number `1.5271630954950384`. -/
theorem round_lat2 :
    roundDouble (87.5 * (5030569068109113 / 288230376151711744)) =
      (1719432786951357 / 1125899906842624) := by
  rw [roundDouble_eq _ (0) (6877731147805428) (by norm_num)
    (by rw [abs_of_pos (by norm_num)]; norm_num)
    (by rw [abs_of_pos (by norm_num)]; norm_num)
    (abs_lt.2 ⟨by norm_num, by norm_num⟩)]
  norm_num

/-- The product `-87.5 * (Math.PI/180)` is the Number `-1.5271630954950384`. -/
theorem round_lat1 :
    roundDouble (-87.5 * (5030569068109113 / 288230376151711744)) =
      (-(1719432786951357 / 1125899906842624)) := by
  rw [roundDouble_eq _ (0) (-6877731147805428) (by norm_num)
    (by rw [abs_of_neg (by norm_num)]; norm_num)
    (by rw [abs_of_neg (by norm_num)]; norm_num)
    (abs_lt.2 ⟨by norm_num, by norm_num⟩)]
  norm_num

/-- Half of `dLat`. -/
theorem round_half_dLat :
    roundDouble ((1719432786951357 / 562949953421312) / 2) =
      (1719432786951357 / 1125899906842624) := by
  rw [roundDouble_eq _ (0) (6877731147805428) (by norm_num)
    (by rw [abs_of_pos (by norm_num)]; norm_num)
    (by rw [abs_of_pos (by norm_num)]; norm_num)
    (abs_lt.2 ⟨by norm_num, by norm_num⟩)]
  norm_num

/-- Half of `dLon`. -/
theorem round_half_dLon :
    roundDouble ((884279719003555 / 281474976710656) / 2) =
      (884279719003555 / 562949953421312) := by
  rw [roundDouble_eq _ (0) (7074237752028440) (by norm_num)
    (by rw [abs_of_pos (by norm_num)]; norm_num)
    (by rw [abs_of_pos (by norm_num)]; norm_num)
    (abs_lt.2 ⟨by norm_num, by norm_num⟩)]
  norm_num

/-- The square of the sine of half of `dLat`. -/
theorem round_sin_sq :
    roundDouble ((8998626396882423 / 9007199254740992) * (8998626396882423 / 9007199254740992)) =
      (4495030849242473 / 4503599627370496) := by
  rw [roundDouble_eq _ (-1) (8990061698484946) (by norm_num)
    (by rw [abs_of_pos (by norm_num)]; norm_num)
    (by rw [abs_of_pos (by norm_num)]; norm_num)
    (abs_lt.2 ⟨by norm_num, by norm_num⟩)]
  norm_num

/-- The product of the two cosines. -/
theorem round_cos_sq :
    roundDouble ((3143108106954505 / 72057594037927936) * (3143108106954505 / 72057594037927936)) =
      (8774428803096097 / 4611686018427387904) := by
  rw [roundDouble_eq _ (-10) (8774428803096097) (by norm_num)
    (by rw [abs_of_pos (by norm_num)]; norm_num)
    (by rw [abs_of_pos (by norm_num)]; norm_num)
    (abs_lt.2 ⟨by norm_num, by norm_num⟩)]
  norm_num

/-- The product of the two cosines by the sine of half of `dLon`, which is 1. -/
theorem round_cos_sq_one :
    roundDouble ((8774428803096097 / 4611686018427387904) * 1) =
      (8774428803096097 / 4611686018427387904) := by
  rw [roundDouble_eq _ (-10) (8774428803096097) (by norm_num)
    (by rw [abs_of_pos (by norm_num)]; norm_num)
    (by rw [abs_of_pos (by norm_num)]; norm_num)
    (abs_lt.2 ⟨by norm_num, by norm_num⟩)]
  norm_num

/-- The sum `a`: one unit in the last place above 1. -/
theorem round_a :
    roundDouble ((4495030849242473 / 4503599627370496) + (8774428803096097 / 4611686018427387904)) =
      (4503599627370497 / 4503599627370496) := by
  rw [roundDouble_eq _ (0) (4503599627370497) (by norm_num)
    (by rw [abs_of_pos (by norm_num)]; norm_num)
    (by rw [abs_of_pos (by norm_num)]; norm_num)
    (abs_lt.2 ⟨by norm_num, by norm_num⟩)]
  norm_num

/-- The difference `1 - a` is negative. -/
theorem round_one_sub_a :
    roundDouble (1 - (4503599627370497 / 4503599627370496)) =
      (-(1 / 4503599627370496)) := by
  rw [roundDouble_eq _ (-52) (-4503599627370496) (by norm_num)
    (by rw [abs_of_neg (by norm_num)]; norm_num)
    (by rw [abs_of_neg (by norm_num)]; norm_num)
    (abs_lt.2 ⟨by norm_num, by norm_num⟩)]
  norm_num

/-- The difference of the latitudes. -/
theorem round_175 : roundDouble (87.5 - -87.5) = 175 := by
  rw [roundDouble_eq _ (7) (6157265115545600) (by norm_num)
    (by rw [abs_of_pos (by norm_num)]; norm_num)
    (by rw [abs_of_pos (by norm_num)]; norm_num)
    (abs_lt.2 ⟨by norm_num, by norm_num⟩)]
  norm_num

/-- The difference of the longitudes. -/
theorem round_180 : roundDouble (0 - -180) = 180 := by
  rw [roundDouble_eq _ (7) (6333186975989760) (by norm_num)
    (by rw [abs_of_pos (by norm_num)]; norm_num)
    (by rw [abs_of_pos (by norm_num)]; norm_num)
    (abs_lt.2 ⟨by norm_num, by norm_num⟩)]
  norm_num

/-- The constant `a` of `calculateDistance` between the points `(-87.5, -180)`
and `(87.5, 0)`, in double precision: `1.0000000000000002`. -/
theorem haversineAFloat_example (M : MathFunctions) (hM : RoundsToNearestAtExample M) :
    haversineAFloat M (-87.5) (-180) 87.5 0 = 4503599627370497 / 4503599627370496 := by
  obtain ⟨h1, h2, h3, h4⟩ := hM
  unfold haversineAFloat deg2radFloat
  simp only []
  rw [round_175, round_180, round_pi_div, round_dLat, round_dLon, round_half_dLat,
    round_half_dLon, round_lat1, round_lat2, h1, h2, h3, h4, round_sin_sq, round_cos_sq,
    round_cos_sq_one, round_cos_sq_one, round_a]

/-- The distance between the points `(-87.5, -180)` and `(87.5, 0)` in double
precision is `NaN`. -/
theorem calculateDistanceFloat_example (M : MathFunctions) (hM : RoundsToNearestAtExample M) :
    calculateDistanceFloat M (-87.5) (-180) 87.5 0 = JSNum.nan := by
  unfold calculateDistanceFloat
  simp only []
  rw [haversineAFloat_example M hM, round_one_sub_a]
  have hneg : mathSqrt M (-(1 / 4503599627370496)) = JSNum.nan := by
    unfold mathSqrt
    rw [if_pos (by norm_num)]
  rw [hneg]
  cases mathSqrt M (4503599627370497 / 4503599627370496) <;> rfl

theorem exampleMath_rounds : RoundsToNearestAtExample exampleMath := by
  refine ⟨?_, ?_, ?_, ?_⟩ <;> norm_num [exampleMath]

/-! ## The classification when a distance is not a number -/

section ClassifyFloatLemmas

variable {α : Type} [LinearOrderedField α]

/-- The classification for a distance function that returns a number at every
pair of points is the classification for that function read as a function to
the JavaScript numbers. -/
theorem bairrosComCalculoIbaWith_eq_float (dist : α → α → α → α → α) (ibas : List (Iba α))
    (bairros : List (BairroRec α)) (bairroCoordinates : List (BairroCoord α))
    (circleRadius : α) :
    bairrosComCalculoIbaWith dist ibas bairros bairroCoordinates circleRadius =
      bairrosComCalculoIbaFloat (fun a b c d => JSNum.num (dist a b c d)) ibas bairros
        bairroCoordinates circleRadius :=
  rfl

/-- A facility whose distance is `NaN` leaves the pair of the loop as it is. -/
theorem nearestStepFloat_nan (dist : α → α → α → α → JSNum α) (coord : BairroCoord α)
    (st : JSNum α × JSVal α) (iba : Iba α)
    (h : dist coord.lat coord.lng iba.Latitude iba.Longitude = JSNum.nan) :
    nearestStepFloat dist coord st iba = st := by
  unfold nearestStepFloat
  simp only [h]
  rw [if_neg]
  cases st.1 <;> simp [JSNum.lt]

/-- When the distance to every facility is `NaN`, the loop ends as it started:
`minDistance` is `Infinity` and `nearestIba` is `null`. -/
theorem nearestLoopFloat_nan (dist : α → α → α → α → JSNum α) (coord : BairroCoord α)
    (ibas : List (Iba α))
    (h : ∀ f ∈ ibas, dist coord.lat coord.lng f.Latitude f.Longitude = JSNum.nan) :
    nearestLoopFloat dist coord ibas = (JSNum.infinity, JSVal.null) := by
  unfold nearestLoopFloat
  generalize (JSNum.infinity, JSVal.null) = st
  induction ibas generalizing st with
  | nil => rfl
  | cons f fs ih =>
    rw [List.foldl_cons, nearestStepFloat_nan dist coord st f (h f (List.mem_cons_self _ _))]
    exact ih (fun g hg => h g (List.mem_cons_of_mem _ hg)) st

/-- The record of an area with a representative point when the distance to
every facility is `NaN`. -/
theorem classifyBairroFloat_nan (dist : α → α → α → α → JSNum α) (ibas : List (Iba α))
    (bairroCoordinates : List (BairroCoord α)) (circleRadius : α) (bairro : BairroRec α)
    (point : BairroCoord α)
    (hpoint : bairroCoordinates.find? (fun c => norm c.nome == norm (some bairro.Bairro)) =
      some point)
    (h : ∀ f ∈ ibas, dist point.lat point.lng f.Latitude f.Longitude = JSNum.nan) :
    classifyBairroFloat dist ibas bairroCoordinates circleRadius bairro =
      { bairro with
        Possui_IBA := JSVal.bool false
        Distancia_Min_IBA_km := JSVal.number JSNum.infinity
        IBA_Mais_Proxima := JSVal.null
        Dentro_raio_IBA := JSVal.bool false } := by
  unfold classifyBairroFloat
  rw [hpoint]
  simp only [nearestLoopFloat_nan dist point ibas h]
  rfl

end ClassifyFloatLemmas


section ClassifyFloatSpec

variable {α : Type} [LinearOrderedField α]

theorem nearestLoopFloat_snoc (dist : α → α → α → α → JSNum α) (coord : BairroCoord α)
    (l : List (Iba α)) (x : Iba α) :
    nearestLoopFloat dist coord (l ++ [x]) =
      nearestStepFloat dist coord (nearestLoopFloat dist coord l) x := by
  simp [nearestLoopFloat, List.foldl_append]

/-- What the loop computes for a distance function that may return `NaN` or
`Infinity`: such distances are passed over. When no distance is a number the
loop ends on `Infinity` and `null`; otherwise it ends on the least of the
distances that are numbers and on the first facility, in list order, at that
distance. -/
theorem nearestLoopFloat_spec (dist : α → α → α → α → JSNum α) (coord : BairroCoord α)
    (ibas : List (Iba α)) :
    ((∀ f ∈ ibas, ∀ x : α,
          dist coord.lat coord.lng f.Latitude f.Longitude ≠ JSNum.num x) ∧
        nearestLoopFloat dist coord ibas = (JSNum.infinity, JSVal.null)) ∨
      ∃ (k : Nat) (f : Iba α) (d : α), ibas[k]? = some f ∧
        dist coord.lat coord.lng f.Latitude f.Longitude = JSNum.num d ∧
        nearestLoopFloat dist coord ibas = (JSNum.num d, JSVal.string f.Name) ∧
        (∀ g ∈ ibas, ∀ y : α,
          dist coord.lat coord.lng g.Latitude g.Longitude = JSNum.num y → d ≤ y) ∧
        (∀ (j : Nat) (g : Iba α) (y : α), j < k → ibas[j]? = some g →
          dist coord.lat coord.lng g.Latitude g.Longitude = JSNum.num y → d < y) := by
  induction ibas using List.reverseRecOn with
  | nil => exact Or.inl ⟨fun f hf => absurd hf (List.not_mem_nil f), rfl⟩
  | append_singleton l x ih =>
    rw [nearestLoopFloat_snoc]
    rcases ih with ⟨hnone, hres⟩ | ⟨k, f, d, hk, hd, hres, hmin, hfirst⟩
    · rw [hres]
      cases hx : dist coord.lat coord.lng x.Latitude x.Longitude with
      | num e =>
        refine Or.inr ⟨l.length, x, e, by simp, hx, ?_, ?_, ?_⟩
        · simp [nearestStepFloat, hx, JSNum.lt]
        · intro g hg y hy
          rcases List.mem_append.1 hg with h | h
          · exact absurd hy (hnone g h y)
          · rw [List.mem_singleton.1 h, hx] at hy
            exact le_of_eq (JSNum.num.inj hy)
        · intro j g y hj hg hy
          rw [List.getElem?_append_left hj] at hg
          exact absurd hy (hnone g (List.getElem?_mem hg) y)
      | infinity =>
        refine Or.inl ⟨?_, by simp [nearestStepFloat, hx, JSNum.lt]⟩
        intro g hg y
        rcases List.mem_append.1 hg with h | h
        · exact hnone g h y
        · rw [List.mem_singleton.1 h, hx]
          exact fun h' => JSNum.noConfusion h'
      | nan =>
        refine Or.inl ⟨?_, by simp [nearestStepFloat, hx, JSNum.lt]⟩
        intro g hg y
        rcases List.mem_append.1 hg with h | h
        · exact hnone g h y
        · rw [List.mem_singleton.1 h, hx]
          exact fun h' => JSNum.noConfusion h'
    · have hkl : k < l.length := by
        rcases List.getElem?_eq_some.1 hk with ⟨h, _⟩
        exact h
      have hkeep : nearestStepFloat dist coord (JSNum.num d, JSVal.string f.Name) x =
          (JSNum.num d, JSVal.string f.Name) →
          (∀ y : α, dist coord.lat coord.lng x.Latitude x.Longitude = JSNum.num y → d ≤ y) →
          ∃ (k : Nat) (f' : Iba α) (d' : α), (l ++ [x])[k]? = some f' ∧
            dist coord.lat coord.lng f'.Latitude f'.Longitude = JSNum.num d' ∧
            nearestStepFloat dist coord (JSNum.num d, JSVal.string f.Name) x =
              (JSNum.num d', JSVal.string f'.Name) ∧
            (∀ g ∈ l ++ [x], ∀ y : α,
              dist coord.lat coord.lng g.Latitude g.Longitude = JSNum.num y → d' ≤ y) ∧
            (∀ (j : Nat) (g : Iba α) (y : α), j < k → (l ++ [x])[j]? = some g →
              dist coord.lat coord.lng g.Latitude g.Longitude = JSNum.num y → d' < y) := by
        intro hstep hxle
        refine ⟨k, f, d, ?_, hd, hstep, ?_, ?_⟩
        · rw [List.getElem?_append_left hkl]
          exact hk
        · intro g hg y hy
          rcases List.mem_append.1 hg with h | h
          · exact hmin g h y hy
          · rw [List.mem_singleton.1 h] at hy
            exact hxle y hy
        · intro j g y hj hg hy
          rw [List.getElem?_append_left (lt_trans hj hkl)] at hg
          exact hfirst j g y hj hg hy
      rw [hres]
      right
      cases hx : dist coord.lat coord.lng x.Latitude x.Longitude with
      | num e =>
        by_cases hlt : e < d
        · refine ⟨l.length, x, e, by simp, hx, ?_, ?_, ?_⟩
          · simp [nearestStepFloat, hx, JSNum.lt, hlt]
          · intro g hg y hy
            rcases List.mem_append.1 hg with h | h
            · exact le_of_lt (lt_of_lt_of_le hlt (hmin g h y hy))
            · rw [List.mem_singleton.1 h, hx] at hy
              exact le_of_eq (JSNum.num.inj hy)
          · intro j g y hj hg hy
            rw [List.getElem?_append_left hj] at hg
            exact lt_of_lt_of_le hlt (hmin g (List.getElem?_mem hg) y hy)
        · apply hkeep
          · simp [nearestStepFloat, hx, JSNum.lt, hlt]
          · intro y hy
            rw [hx] at hy
            rw [← JSNum.num.inj hy]
            exact not_lt.1 hlt
      | infinity =>
        apply hkeep
        · simp [nearestStepFloat, hx, JSNum.lt]
        · intro y hy
          rw [hx] at hy
          exact JSNum.noConfusion hy
      | nan =>
        apply hkeep
        · simp [nearestStepFloat, hx, JSNum.lt]
        · intro y hy
          rw [hx] at hy
          exact JSNum.noConfusion hy

end ClassifyFloatSpec

/-- C18 fails in the numbers of the code. Between the points `(-87.5, -180)` and
`(87.5, 0)`, with a `Math` library that rounds the sine and the cosine to the
nearest Number, the constant `a` of `calculateDistance` is `1.0000000000000002`,
above 1, so `1 - a` is negative, `Math.sqrt(1 - a)` is `NaN`, and the distance
returned is `NaN`, not a number between 0 and `6371 * π`. -/
theorem calculateDistance_nan_near_antipodes (M : MathFunctions)
    (hM : RoundsToNearestAtExample M) :
    haversineAFloat M (-87.5) (-180) 87.5 0 = 1 + 1 / 2 ^ 52 ∧
      1 < haversineAFloat M (-87.5) (-180) 87.5 0 ∧
      mathSqrt M (roundDouble (1 - haversineAFloat M (-87.5) (-180) 87.5 0)) = JSNum.nan ∧
      calculateDistanceFloat M (-87.5) (-180) 87.5 0 = JSNum.nan := by
  have ha := haversineAFloat_example M hM
  refine ⟨?_, ?_, ?_, calculateDistanceFloat_example M hM⟩
  · rw [ha]
    norm_num
  · rw [ha]
    norm_num
  · rw [ha, round_one_sub_a]
    unfold mathSqrt
    rw [if_pos (by norm_num)]

/-- C18 fails in the numbers of the code, with the library `exampleMath`. -/
theorem calculateDistance_nan_near_antipodes_witness :
    RoundsToNearestAtExample exampleMath ∧
      (haversineAFloat exampleMath (-87.5) (-180) 87.5 0 = 1 + 1 / 2 ^ 52 ∧
        1 < haversineAFloat exampleMath (-87.5) (-180) 87.5 0 ∧
        mathSqrt exampleMath (roundDouble (1 - haversineAFloat exampleMath (-87.5) (-180) 87.5 0)) =
          JSNum.nan ∧
        calculateDistanceFloat exampleMath (-87.5) (-180) 87.5 0 = JSNum.nan) :=
  ⟨exampleMath_rounds, calculateDistance_nan_near_antipodes exampleMath exampleMath_rounds⟩

/-- C1 fails in the numbers of the code. For the area `Sul` with the
representative point `(-87.5, -180)` and the one facility `IBA Norte` at
`(87.5, 0)`, with a `Math` library that rounds the sine and the cosine to the
nearest Number, the distance to the facility is `NaN`, the test
`distance < minDistance` fails, and the classified record holds `Infinity` in
`Distancia_Min_IBA_km` and `null` in `IBA_Mais_Proxima`: it names no facility. -/
theorem nearest_facility_lost_near_antipodes (M : MathFunctions)
    (hM : RoundsToNearestAtExample M) :
    calculateDistanceFloat M southPoint.lat southPoint.lng northFacility.Latitude
        northFacility.Longitude = JSNum.nan ∧
      bairrosComCalculoIbaFloat (calculateDistanceFloat M) [northFacility] [southBairro]
          [southPoint] 10 =
        [{ southBairro with
            Possui_IBA := JSVal.bool false
            Distancia_Min_IBA_km := JSVal.number JSNum.infinity
            IBA_Mais_Proxima := JSVal.null
            Dentro_raio_IBA := JSVal.bool false }] := by
  have hd : calculateDistanceFloat M southPoint.lat southPoint.lng northFacility.Latitude
      northFacility.Longitude = JSNum.nan := calculateDistanceFloat_example M hM
  refine ⟨hd, ?_⟩
  have hpoint : [southPoint].find? (fun c => norm c.nome == norm (some southBairro.Bairro)) =
      some southPoint := by
    rw [List.find?_cons_of_pos]
    decide
  unfold bairrosComCalculoIbaFloat
  rw [if_neg (by simp), List.map_singleton,
    classifyBairroFloat_nan (calculateDistanceFloat M) [northFacility] [southPoint] 10
      southBairro southPoint hpoint (by
        intro f hf
        rw [List.mem_singleton.1 hf]
        exact hd)]

/-- C1 fails in the numbers of the code, with the library `exampleMath`. -/
theorem nearest_facility_lost_near_antipodes_witness :
    RoundsToNearestAtExample exampleMath ∧
      (calculateDistanceFloat exampleMath southPoint.lat southPoint.lng northFacility.Latitude
          northFacility.Longitude = JSNum.nan ∧
        bairrosComCalculoIbaFloat (calculateDistanceFloat exampleMath) [northFacility]
            [southBairro] [southPoint] 10 =
          [{ southBairro with
              Possui_IBA := JSVal.bool false
              Distancia_Min_IBA_km := JSVal.number JSNum.infinity
              IBA_Mais_Proxima := JSVal.null
              Dentro_raio_IBA := JSVal.bool false }]) :=
  ⟨exampleMath_rounds, nearest_facility_lost_near_antipodes exampleMath exampleMath_rounds⟩

/-- C3 fails in the numbers of the code. For the area `Sul` with the
representative point `(-87.5, -180)` and the two facilities `IBA Norte` and
`IBA Norte Anexo` at the one coordinate `(87.5, 0)`, with a `Math` library that
rounds the sine and the cosine to the nearest Number, both distances are `NaN`
and the classified record holds `null` in `IBA_Mais_Proxima`, not the `Name` of
the first of the two. -/
theorem tie_resolves_to_null_near_antipodes (M : MathFunctions)
    (hM : RoundsToNearestAtExample M) :
    (∀ f ∈ [northFacility, northAnnex],
        calculateDistanceFloat M southPoint.lat southPoint.lng f.Latitude f.Longitude =
          JSNum.nan) ∧
      (∀ out ∈ bairrosComCalculoIbaFloat (calculateDistanceFloat M)
          [northFacility, northAnnex] [southBairro] [southPoint] 10,
        out.IBA_Mais_Proxima = JSVal.null ∧
          out.IBA_Mais_Proxima ≠ JSVal.string northFacility.Name) ∧
      (bairrosComCalculoIbaFloat (calculateDistanceFloat M) [northFacility, northAnnex]
          [southBairro] [southPoint] 10).length = 1 := by
  have hd : ∀ f ∈ [northFacility, northAnnex],
      calculateDistanceFloat M southPoint.lat southPoint.lng f.Latitude f.Longitude =
        JSNum.nan := by
    intro f hf
    simp only [List.mem_cons, List.mem_singleton, List.not_mem_nil, or_false] at hf
    rcases hf with h | h <;> rw [h] <;> exact calculateDistanceFloat_example M hM
  have hpoint : [southPoint].find? (fun c => norm c.nome == norm (some southBairro.Bairro)) =
      some southPoint := by
    rw [List.find?_cons_of_pos]
    decide
  have hres : bairrosComCalculoIbaFloat (calculateDistanceFloat M) [northFacility, northAnnex]
      [southBairro] [southPoint] 10 =
      [{ southBairro with
          Possui_IBA := JSVal.bool false
          Distancia_Min_IBA_km := JSVal.number JSNum.infinity
          IBA_Mais_Proxima := JSVal.null
          Dentro_raio_IBA := JSVal.bool false }] := by
    unfold bairrosComCalculoIbaFloat
    rw [if_neg (by simp), List.map_singleton,
      classifyBairroFloat_nan (calculateDistanceFloat M) [northFacility, northAnnex]
        [southPoint] 10 southBairro southPoint hpoint hd]
  refine ⟨hd, ?_, ?_⟩
  · intro out hout
    rw [hres, List.mem_singleton] at hout
    rw [hout]
    exact ⟨rfl, fun h => JSVal.noConfusion h⟩
  · rw [hres]
    rfl

/-- C3 fails in the numbers of the code, with the library `exampleMath`. -/
theorem tie_resolves_to_null_near_antipodes_witness :
    RoundsToNearestAtExample exampleMath ∧
      ((∀ f ∈ [northFacility, northAnnex],
          calculateDistanceFloat exampleMath southPoint.lat southPoint.lng f.Latitude
            f.Longitude = JSNum.nan) ∧
        (∀ out ∈ bairrosComCalculoIbaFloat (calculateDistanceFloat exampleMath)
            [northFacility, northAnnex] [southBairro] [southPoint] 10,
          out.IBA_Mais_Proxima = JSVal.null ∧
            out.IBA_Mais_Proxima ≠ JSVal.string northFacility.Name) ∧
        (bairrosComCalculoIbaFloat (calculateDistanceFloat exampleMath)
            [northFacility, northAnnex] [southBairro] [southPoint] 10).length = 1) :=
  ⟨exampleMath_rounds, tie_resolves_to_null_near_antipodes exampleMath exampleMath_rounds⟩

/-- C23 fails when a population is `NaN`. With the classified areas `Paquetá`
(3361), `Lapa` (`NaN`, from the population text `n/d`) and `Centro` (41142), all
outside the radius, every difference with `Lapa` is `NaN` and the report is in
the order of the input, `Paquetá` before `Centro`: not in non-increasing order
of population. No order of these three areas is one, since `NaN >= x` and
`x >= NaN` are false. The array of the classified areas is as it was. -/
theorem outside_radius_report_unordered :
    outsideRadiusReport unparsedStore 0 =
        ([[paquetaOutside, lapaUnparsed, centroOutside],
          [paquetaOutside, lapaUnparsed, centroOutside]], 1) ∧
      paquetaOutside.Populacao = JSNum.num 3361 ∧
      lapaUnparsed.Populacao = JSNum.nan ∧
      centroOutside.Populacao = JSNum.num 41142 ∧
      JSNum.ge paquetaOutside.Populacao centroOutside.Populacao = false ∧
      (∀ report : List (BairroRec ℚ),
        report.Perm
            ([paquetaOutside, lapaUnparsed, centroOutside].filter fun b =>
              !b.Dentro_raio_IBA.truthy) →
          ¬ report.Sorted fun a b => JSNum.ge a.Populacao b.Populacao = true) := by
  refine ⟨by decide, rfl, rfl, rfl, by decide, ?_⟩
  intro report hperm hsorted
  have hfilter : ([paquetaOutside, lapaUnparsed, centroOutside].filter fun b =>
      !b.Dentro_raio_IBA.truthy) = [paquetaOutside, lapaUnparsed, centroOutside] := by
    decide
  rw [hfilter] at hperm
  have h1 : lapaUnparsed ∈ report := hperm.symm.subset (by simp)
  have h2 : paquetaOutside ∈ report := hperm.symm.subset (by simp)
  have hsym : report.Pairwise (fun a b =>
      JSNum.ge a.Populacao b.Populacao = true ∨ JSNum.ge b.Populacao a.Populacao = true) :=
    List.Pairwise.imp (fun h => Or.inl h) hsorted
  have hpair := List.Pairwise.forall (fun a b h => h.symm) hsym h1 h2 (by decide)
  simp [lapaUnparsed, paquetaOutside, JSNum.ge, JSNum.le] at hpair

end MissoesRJ
